import Mathlib

/-
Verification of the voice/buffer resource manager of the XL-Engine sound
subsystem (namespace Sound of the source).  The mutable file-scope state of
the source is modelled as an explicit state record threaded through every
operation.  The OpenAL backend is modelled as a table of native sources keyed
by source name; the process-wide mutex is modelled by a lock counter; 32-bit
float values are modelled as exact rationals; the completion callback is
modelled by a flag (installed or not) together with a log of the userValue
arguments of its invocations.  AL buffer contents (format, sampling rate,
PCM bytes) are not modelled: no operation of the subsystem ever reads them
back.  Logging (LOG) is not modelled; assert is modelled by a flag that is
set when an asserted condition is false.
-/

namespace SoundModel

/-- Playback state of one native (OpenAL) source.  alSourcePlay, alSourcePause
and alSourceStop move a source between these states; a playing source also
reaches stopped on its own when its non-looping data runs out, which is the
external event that update detects. -/
inductive SrcState where
  | initial
  | playing
  | paused
  | stopped
  deriving DecidableEq

/-- One native (OpenAL) source object, keyed by its AL source name. -/
structure ALSource where
  srcState : SrcState
  gain : Rat
  buffer : Nat
  looping : Bool
  posX : Rat
  rolloff : Rat
  refDist : Rat
  maxDist : Rat
  relative : Bool
  deriving DecidableEq

/-- Initial state of a freshly generated AL source (AL defaults: gain 1,
state AL_INITIAL, no buffer bound). -/
def alSourceDefault : ALSource :=
  { srcState := SrcState.initial, gain := 1, buffer := 0, looping := false,
    posX := 0, rolloff := 1, refDist := 1, maxDist := 1000000, relative := false }

/-- The flag constants of enum ActiveSoundFlags in the source
(SOUND_ACTIVE, SOUND_PLAYING, SOUND_LOOPING, SOUND_PAUSED). -/
inductive SoundFlag where
  | SOUND_ACTIVE
  | SOUND_PLAYING
  | SOUND_LOOPING
  | SOUND_PAUSED
  deriving DecidableEq

/-- Modelled from the spec: sound_inl.h is included by the source but is not
under src/.  Per spec section 3 (Voice), each element of s_activeSounds packs
the flag bits ACTIVE/PLAYING/LOOPING/PAUSED (the values 0x08000000..0x40000000
of enum ActiveSoundFlags), the bound buffer index, and the 19-bit allocation
(generation) counter into one u32; it is modelled as a record with one field
per packed component, and the sound_inl.h accessors become record reads and
writes. -/
structure ActiveSound where
  activeFlag : Bool
  playingFlag : Bool
  loopingFlag : Bool
  pausedFlag : Bool
  buffer : Nat
  allocID : Nat
  deriving DecidableEq

/-- The all-zero packed word: every flag clear, buffer 0, allocID 0
(what s_activeSounds[s] = 0 denotes in the source). -/
def activeSoundZero : ActiveSound :=
  { activeFlag := false, playingFlag := false, loopingFlag := false,
    pausedFlag := false, buffer := 0, allocID := 0 }

/-- Modelled from the spec: sound_inl.h accessor checkActiveFlag(sound, flag),
reading one flag bit of the packed active-sound word. -/
def checkActiveFlag (v : ActiveSound) : SoundFlag → Bool
  | SoundFlag.SOUND_ACTIVE => v.activeFlag
  | SoundFlag.SOUND_PLAYING => v.playingFlag
  | SoundFlag.SOUND_LOOPING => v.loopingFlag
  | SoundFlag.SOUND_PAUSED => v.pausedFlag

/-- Modelled from the spec: sound_inl.h accessor setActiveFlag(sound, flag). -/
def setActiveFlag (v : ActiveSound) : SoundFlag → ActiveSound
  | SoundFlag.SOUND_ACTIVE => { v with activeFlag := true }
  | SoundFlag.SOUND_PLAYING => { v with playingFlag := true }
  | SoundFlag.SOUND_LOOPING => { v with loopingFlag := true }
  | SoundFlag.SOUND_PAUSED => { v with pausedFlag := true }

/-- Modelled from the spec: sound_inl.h accessor clearActiveFlag(sound, flag). -/
def clearActiveFlag (v : ActiveSound) : SoundFlag → ActiveSound
  | SoundFlag.SOUND_ACTIVE => { v with activeFlag := false }
  | SoundFlag.SOUND_PLAYING => { v with playingFlag := false }
  | SoundFlag.SOUND_LOOPING => { v with loopingFlag := false }
  | SoundFlag.SOUND_PAUSED => { v with pausedFlag := false }

/-- Modelled from the spec: sound_inl.h accessor getActiveBuffer(sound). -/
def getActiveBuffer (v : ActiveSound) : Nat := v.buffer

/-- Modelled from the spec: sound_inl.h accessor setActiveBuffer(sound, id). -/
def setActiveBuffer (v : ActiveSound) (bufferID : Nat) : ActiveSound :=
  { v with buffer := bufferID }

/-- Modelled from the spec: sound_inl.h accessor getActiveAllocID(sound). -/
def getActiveAllocID (v : ActiveSound) : Nat := v.allocID

/-- Modelled from the spec: sound_inl.h accessor setActiveAllocID(sound, id). -/
def setActiveAllocID (v : ActiveSound) (allocID : Nat) : ActiveSound :=
  { v with allocID := allocID }

/-- Modelled from the spec: INVALID_SOUND_HANDLE is declared in sound.h, which
is not under src/.  It is the customary all-ones u32 sentinel; every use in
the source only compares handles against it. -/
def INVALID_SOUND_HANDLE : Nat := 0xffffffff

/-- Modelled from the spec: sound_inl.h accessor getHandleBuffer(handle).
Spec section 4.1: the handle packs (bufferIndex, voiceSlot, generation) into
disjoint bit fields, the exact inverse of the packing
bufferID ||| (soundID <<< 8) ||| (allocID <<< 13) built in allocateSound:
buffer index in bits 0..7. -/
def getHandleBuffer (handle : Nat) : Nat := handle &&& 255

/-- Modelled from the spec: sound_inl.h accessor getHandleSource(handle);
voice slot in bits 8..12 of the packed handle. -/
def getHandleSource (handle : Nat) : Nat := (handle >>> 8) &&& 31

/-- Modelled from the spec: sound_inl.h accessor getHandleAllocID(handle);
generation in bits 13..31 of the packed handle, 19 bits. -/
def getHandleAllocID (handle : Nat) : Nat := (handle >>> 13) &&& 0x7ffff

/-- One slot of the buffer pool: struct SoundBuffer of the source. -/
structure SoundBuffer where
  name : String
  flags : Nat
  index : Nat
  refCount : Int
  lastUsed : Nat
  oalBuffer : Nat
  deriving DecidableEq

/-- BUFFER_ACTIVE of enum BufferFlags. -/
def BUFFER_ACTIVE : Nat := 1

/-- Value of static s32 s_numBuffers (256); never reassigned in the source. -/
def s_numBuffers : Nat := 256

/-- Value of static s32 s_maxSimulSounds (32); never reassigned in the source. -/
def s_maxSimulSounds : Nat := 32

/-- Sound data type tags STYPE_RAW / STYPE_VOC used by getRawSoundData. -/
inductive SoundDataType where
  | STYPE_RAW
  | STYPE_VOC
  deriving DecidableEq

/-- Modelled from the spec: the input sample data together with the behaviour
of the external Voc decoder on it.  vocFormat.h (the legacy voice-format
decoder) is not under src/; per spec section 6 it is a pure external
collaborator that either yields raw PCM of some size or fails, so it is
modelled by a readability flag and a raw size carried with the data. -/
structure SoundData where
  dtype : SoundDataType
  size : Nat
  vocReadable : Bool
  vocRawSize : Nat
  deriving DecidableEq

/-- The struct SoundInfo fields read by this subsystem (sound.h is not under
src/, but every field the source reads is listed in the spec exposed surface:
volume, pan, samplingRate, bitRate, stereo, userValue). -/
structure SoundInfo where
  volume : Rat
  pan : Rat
  samplingRate : Nat
  bitRate : Nat
  stereo : Bool
  userValue : Nat
  deriving DecidableEq

/-- The complete mutable state of the subsystem: the file-scope statics of the
source, the modelled OpenAL state, the mutex lock counter, the callback
installation flag with its invocation log, and the assert flag. -/
structure SoundState where
  s_init : Bool
  s_buffers : Nat → SoundBuffer
  s_sources : Nat → Nat
  al : Nat → Option ALSource
  s_bufferMap : String → Option Nat
  s_currentFrame : Nat
  s_globalVolume : Rat
  s_callback : Bool
  callbackLog : List Nat
  s_userValue : Nat → Nat
  s_activeSounds : Nat → ActiveSound
  lockDepth : Int
  assertFailed : Bool

/-- s_mutex->Lock(). -/
def mutexLock (st : SoundState) : SoundState :=
  { st with lockDepth := st.lockDepth + 1 }

/-- s_mutex->Unlock(). -/
def mutexUnlock (st : SoundState) : SoundState :=
  { st with lockDepth := st.lockDepth - 1 }

/-- Model of assert(cond): record a failure when the condition is false
(a debug build would halt here). -/
def assertCheck (st : SoundState) (p : Prop) [Decidable p] : SoundState :=
  if p then st else { st with assertFailed := true }

/-- Pointwise write of one buffer-pool slot. -/
def updBufAt (st : SoundState) (i : Nat) (f : SoundBuffer → SoundBuffer) : SoundState :=
  { st with s_buffers := Function.update st.s_buffers i (f (st.s_buffers i)) }

/-- Pointwise write of one active-sound slot. -/
def updVoice (st : SoundState) (s : Nat) (f : ActiveSound → ActiveSound) : SoundState :=
  { st with s_activeSounds := Function.update st.s_activeSounds s (f (st.s_activeSounds s)) }

/-- Write to a native source by AL name; a write to a name that was never
generated is dropped (OpenAL records AL_INVALID_NAME and changes nothing). -/
def alSourceModify (st : SoundState) (name : Nat) (f : ALSource → ALSource) : SoundState :=
  { st with al := Function.update st.al name ((st.al name).map f) }

/-- alSourcePlay. -/
def alSourcePlay (st : SoundState) (name : Nat) : SoundState :=
  alSourceModify st name (fun s => { s with srcState := SrcState.playing })

/-- alSourcePause. -/
def alSourcePause (st : SoundState) (name : Nat) : SoundState :=
  alSourceModify st name (fun s => { s with srcState := SrcState.paused })

/-- alSourceStop. -/
def alSourceStop (st : SoundState) (name : Nat) : SoundState :=
  alSourceModify st name (fun s => { s with srcState := SrcState.stopped })

/-- alSourcei(name, AL_BUFFER, b). -/
def alSourceSetBuffer (st : SoundState) (name : Nat) (b : Nat) : SoundState :=
  alSourceModify st name (fun s => { s with buffer := b })

/-- alSourcef(name, AL_GAIN, g). -/
def alSourceSetGain (st : SoundState) (name : Nat) (g : Rat) : SoundState :=
  alSourceModify st name (fun s => { s with gain := g })

/-- alSourcefv(name, AL_POSITION, {x,0,0}). -/
def alSourceSetPos (st : SoundState) (name : Nat) (x : Rat) : SoundState :=
  alSourceModify st name (fun s => { s with posX := x })

/-- alSourcei(name, AL_LOOPING, l). -/
def alSourceSetLooping (st : SoundState) (name : Nat) (l : Bool) : SoundState :=
  alSourceModify st name (fun s => { s with looping := l })

/-- alSourcef(name, AL_ROLLOFF_FACTOR, r). -/
def alSourceSetRolloff (st : SoundState) (name : Nat) (r : Rat) : SoundState :=
  alSourceModify st name (fun s => { s with rolloff := r })

/-- alSourcef(name, AL_REFERENCE_DISTANCE, d). -/
def alSourceSetRefDist (st : SoundState) (name : Nat) (d : Rat) : SoundState :=
  alSourceModify st name (fun s => { s with refDist := d })

/-- alSourcef(name, AL_MAX_DISTANCE, d). -/
def alSourceSetMaxDist (st : SoundState) (name : Nat) (d : Rat) : SoundState :=
  alSourceModify st name (fun s => { s with maxDist := d })

/-- alSourcei(name, AL_SOURCE_RELATIVE, r). -/
def alSourceSetRelative (st : SoundState) (name : Nat) (r : Bool) : SoundState :=
  alSourceModify st name (fun s => { s with relative := r })

/-- alGetSourcei(name, AL_SOURCE_STATE, &state); reading a name that was never
generated is an AL error leaving the output unspecified, modelled as
AL_INITIAL. -/
def alGetSourceState (st : SoundState) (name : Nat) : SrcState :=
  match st.al name with
  | some s => s.srcState
  | none => SrcState.initial

/-- alGetSourcef(name, AL_GAIN, &g); reading a name that was never generated
is an AL error leaving the output unspecified, modelled as the AL default
gain 1. -/
def alGetSourceGain (st : SoundState) (name : Nat) : Rat :=
  match st.al name with
  | some s => s.gain
  | none => 1

/-- External backend event, spec section 6: a native source that is playing
non-looping data reaches its end and moves to stopped on its own.  This is
the event whose aftermath update() detects. -/
def nativeSourceFinish (st : SoundState) (name : Nat) : SoundState :=
  alSourceModify st name (fun s =>
    if s.srcState = SrcState.playing then { s with srcState := SrcState.stopped } else s)

/-- State produced by a successful init(): device, context, 256 buffers and 32
sources created.  AL names are opaque; the backend is modelled as generating
the consecutive source names 1..32 (alGenSources) and buffer names 1..256
(alGenBuffers), the customary OpenAL behaviour. -/
def initState : SoundState :=
  { s_init := true
    s_buffers := fun i =>
      { name := "", flags := 0, index := i, refCount := 0, lastUsed := 0, oalBuffer := i + 1 }
    s_sources := fun s => s + 1
    al := fun name => if 1 ≤ name ∧ name ≤ s_maxSimulSounds then some alSourceDefault else none
    s_bufferMap := fun _ => none
    s_currentFrame := 1
    s_globalVolume := (0.80 : Rat)
    s_callback := false
    callbackLog := []
    s_userValue := fun _ => 0
    s_activeSounds := fun _ => activeSoundZero
    lockDepth := 0
    assertFailed := false }

/-- setCallback(callback): installs the completion callback.  The function
pointer itself is opaque; only its presence and its invocations (recorded in
callbackLog) are modelled. -/
def setCallback (st : SoundState) : SoundState :=
  { st with s_callback := true }

/-- getRawSoundData(data, size, type, rawSize): returns the raw PCM (modelled
by its size) or NULL (modelled by none).  STYPE_RAW passes the data through;
STYPE_VOC consults the external Voc decoder. -/
def getRawSoundData (data : SoundData) : Option Nat :=
  match data.dtype with
  | SoundDataType.STYPE_RAW => some data.size
  | SoundDataType.STYPE_VOC =>
      if data.vocReadable then some data.vocRawSize else none

/-- isActiveNoLock(handle) of the source. -/
def isActiveNoLock (st : SoundState) (handle : Nat) : Bool :=
  if !st.s_init || handle == INVALID_SOUND_HANDLE then
    false
  else
    let sourceID := getHandleSource handle
    let bufferID := getHandleBuffer handle
    let allocID := getHandleAllocID handle
    let isActive := checkActiveFlag (st.s_activeSounds sourceID) SoundFlag.SOUND_ACTIVE
    let activeAllocID := getActiveAllocID (st.s_activeSounds sourceID)
    let activeBufferID := getActiveBuffer (st.s_activeSounds sourceID)
    (allocID == activeAllocID) && (bufferID == activeBufferID) && isActive

/-- The scan of the third branch of getSoundBuffer: find the oldest slot with
refCount 0, tracking (oldestFrame, oldestIndex) exactly as the source loop
does, with oldestFrame starting at 0xffffffffffffffffULL and a strict
comparison lastUsed < oldestFrame. -/
def oldestScan (bufs : Nat → SoundBuffer) : Nat × Option Nat :=
  (List.range s_numBuffers).foldl
    (fun acc i =>
      if (bufs i).refCount == 0 then
        if (bufs i).lastUsed < acc.1 then ((bufs i).lastUsed, some i) else acc
      else acc)
    (0xffffffffffffffff, none)

/-- getSoundBuffer(name) of the source.  The returned SoundBuffer pointer is
modelled as the index of the slot; NULL as none. -/
def getSoundBuffer (st : SoundState) (name : String) : SoundState × Option Nat :=
  match st.s_bufferMap name with
  | some i => (st, some i)
  | none =>
    match (List.range s_numBuffers).find?
        (fun i => ((st.s_buffers i).flags &&& BUFFER_ACTIVE) == 0) with
    | some i =>
        let st := updBufAt st i (fun b => { b with name := name })
        let st := { st with s_bufferMap := Function.update st.s_bufferMap name (some i) }
        (st, some i)
    | none =>
      match (oldestScan st.s_buffers).2 with
      | some oldestIndex =>
          let oldName := (st.s_buffers oldestIndex).name
          let st := updBufAt st oldestIndex (fun b => { b with refCount := 0, flags := 0 })
          let st := { st with s_bufferMap := Function.update st.s_bufferMap oldName none }
          let st := { st with s_bufferMap := Function.update st.s_bufferMap name (some oldestIndex) }
          let st := updBufAt st oldestIndex (fun b => { b with name := name })
          (st, some oldestIndex)
      | none => (st, none)

/-- allocateSound(bufferID) of the source. -/
def allocateSound (st : SoundState) (bufferID : Nat) : SoundState × Nat :=
  match (List.range s_maxSimulSounds).find?
      (fun i => !(checkActiveFlag (st.s_activeSounds i) SoundFlag.SOUND_PLAYING)
             && !(checkActiveFlag (st.s_activeSounds i) SoundFlag.SOUND_PAUSED)) with
  | none => (st, INVALID_SOUND_HANDLE)
  | some soundID =>
    let allocID := (getActiveAllocID (st.s_activeSounds soundID) + 1) &&& 0x7ffff
    let st := updVoice st soundID (fun v =>
      setActiveFlag
        (clearActiveFlag
          (clearActiveFlag (setActiveAllocID (setActiveBuffer v bufferID) allocID)
            SoundFlag.SOUND_PLAYING)
          SoundFlag.SOUND_LOOPING)
        SoundFlag.SOUND_ACTIVE)
    (st, bufferID ||| (soundID <<< 8) ||| (allocID <<< 13))

/-- playSoundInternal(sound, volume, pan, loop, is3D) of the source.  It
always returns true. -/
def playSoundInternal (st : SoundState) (sound : Nat) (volume pan : Rat)
    (loop is3D : Bool) : SoundState × Bool :=
  let sourceID := getHandleSource sound
  let bufferID := getHandleBuffer sound
  let oalSource := st.s_sources sourceID
  -- these three reads are hoisted before the AL calls; none of the AL calls
  -- touches s_buffers, s_globalVolume or s_currentFrame, so the values are
  -- the ones the source reads in place
  let oalBuf := (st.s_buffers bufferID).oalBuffer
  let gain := min (volume * st.s_globalVolume) 1
  let frame := st.s_currentFrame
  let st := alSourceStop st oalSource
  let st := alSourceSetBuffer st oalSource oalBuf
  let st := alSourceSetRolloff st oalSource 1
  let st :=
    if !is3D then
      let st := alSourceSetRelative st oalSource true
      let st := alSourceSetRefDist st oalSource 15
      let st := alSourceSetMaxDist st oalSource 200
      alSourceSetPos st oalSource pan
    else
      let distScale := max volume 1
      let st := alSourceSetRefDist st oalSource (15 * distScale)
      alSourceSetMaxDist st oalSource (200 * distScale)
  let st := alSourceSetLooping st oalSource loop
  let st := alSourceSetGain st oalSource gain
  let st := alSourcePlay st oalSource
  let st := updVoice st sourceID (fun v => setActiveFlag v SoundFlag.SOUND_PLAYING)
  let st :=
    if loop then updVoice st sourceID (fun v => setActiveFlag v SoundFlag.SOUND_LOOPING)
    else st
  let st := updBufAt st bufferID (fun b =>
    { b with lastUsed := frame, refCount := b.refCount + 1 })
  (st, true)

/-- playSound2D(name, data, size, type, info, looping) of the source.  The
return value is the handle (INVALID_SOUND_HANDLE on the starvation paths; the
upload-failure path executes return false, which converts to the handle 0). -/
def playSound2D (st0 : SoundState) (name : String) (data : SoundData)
    (info : SoundInfo) (looping : Bool) : SoundState × Nat :=
  if !st0.s_init then (st0, INVALID_SOUND_HANDLE)
  else
    let st := mutexLock st0
    match getSoundBuffer st name with
    | (st, none) =>
        -- the source returns here without unlocking s_mutex
        (st, INVALID_SOUND_HANDLE)
    | (st, some bIdx) =>
      let (st, sound) := allocateSound st ((st.s_buffers bIdx).index)
      -- load the sound buffer (if not already active); the format and
      -- sampling-rate selection only feed alBufferData, whose buffer contents
      -- are not modelled.  alBufferData fails exactly when getRawSoundData
      -- produced NULL.
      if ((st.s_buffers bIdx).flags &&& BUFFER_ACTIVE) == 0 then
        match getRawSoundData data with
        | none => (mutexUnlock st, 0)
        | some _ =>
          let st := updBufAt st bIdx (fun b => { b with flags := b.flags ||| BUFFER_ACTIVE })
          let (st, playResult) := playSoundInternal st sound info.volume info.pan looping false
          if playResult then
            let st := { st with
              s_userValue := Function.update st.s_userValue (getHandleSource sound) info.userValue }
            (mutexUnlock st, sound)
          else
            let st := updVoice st (getHandleSource sound) (fun v =>
              clearActiveFlag
                (clearActiveFlag (clearActiveFlag v SoundFlag.SOUND_ACTIVE)
                  SoundFlag.SOUND_PLAYING)
                SoundFlag.SOUND_LOOPING)
            (mutexUnlock st, INVALID_SOUND_HANDLE)
      else
        let (st, playResult) := playSoundInternal st sound info.volume info.pan looping false
        if playResult then
          let st := { st with
            s_userValue := Function.update st.s_userValue (getHandleSource sound) info.userValue }
          (mutexUnlock st, sound)
        else
          let st := updVoice st (getHandleSource sound) (fun v =>
            clearActiveFlag
              (clearActiveFlag (clearActiveFlag v SoundFlag.SOUND_ACTIVE)
                SoundFlag.SOUND_PLAYING)
              SoundFlag.SOUND_LOOPING)
          (mutexUnlock st, INVALID_SOUND_HANDLE)

/-- playOneShot2D of the source. -/
def playOneShot2D (st : SoundState) (name : String) (data : SoundData)
    (info : SoundInfo) : SoundState × Bool :=
  let (st, sound) := playSound2D st name data info false
  (st, sound != INVALID_SOUND_HANDLE)

/-- playSoundLooping of the source. -/
def playSoundLooping (st : SoundState) (name : String) (data : SoundData)
    (info : SoundInfo) : SoundState × Nat :=
  playSound2D st name data info true

/-- stopSound(handle) of the source. -/
def stopSound (st0 : SoundState) (handle : Nat) : SoundState :=
  let st := mutexLock st0
  if !(isActiveNoLock st handle) then mutexUnlock st
  else
    let sourceID := getHandleSource handle
    if !(checkActiveFlag (st.s_activeSounds sourceID) SoundFlag.SOUND_PLAYING) then
      mutexUnlock st
    else
      let st := alSourceStop st (st.s_sources sourceID)
      let st := alSourceSetBuffer st (st.s_sources sourceID) 0
      let st := updVoice st sourceID (fun v =>
        clearActiveFlag
          (clearActiveFlag (clearActiveFlag v SoundFlag.SOUND_PLAYING)
            SoundFlag.SOUND_LOOPING)
          SoundFlag.SOUND_PAUSED)
      let bufferID := getHandleBuffer handle
      let st := updBufAt st bufferID (fun b => { b with refCount := b.refCount - 1 })
      let st := assertCheck st ((st.s_buffers bufferID).refCount ≥ 0)
      mutexUnlock st

/-- stopAllSounds() of the source. -/
def stopAllSounds (st0 : SoundState) : SoundState :=
  let st := mutexLock st0
  let st := (List.range s_maxSimulSounds).foldl
    (fun st s =>
      let st := alSourceStop st (st.s_sources s)
      let st := alSourceSetBuffer st (st.s_sources s) 0
      updVoice st s (fun v =>
        clearActiveFlag
          (clearActiveFlag (clearActiveFlag (setActiveBuffer v 0) SoundFlag.SOUND_PLAYING)
            SoundFlag.SOUND_LOOPING)
          SoundFlag.SOUND_PAUSED))
    st
  let st := (List.range s_numBuffers).foldl
    (fun st b => updBufAt st b (fun buf => { buf with refCount := 0 })) st
  mutexUnlock st

/-- reset() of the source (stop every source, zero every active-sound word,
zero refCount/flags/lastUsed of every buffer; s_bufferMap and the buffer
names are not touched). -/
def reset (st0 : SoundState) : SoundState :=
  let st := mutexLock st0
  let st := (List.range s_maxSimulSounds).foldl
    (fun st s =>
      let st := alSourceStop st (st.s_sources s)
      let st := alSourceSetBuffer st (st.s_sources s) 0
      updVoice st s (fun _ => activeSoundZero))
    st
  let st := (List.range s_numBuffers).foldl
    (fun st b =>
      updBufAt st b (fun buf => { buf with refCount := 0, flags := 0, lastUsed := 0 }))
    st
  mutexUnlock st

/-- soundsPlaying() of the source. -/
def soundsPlaying (st : SoundState) : Nat :=
  ((List.range s_maxSimulSounds).filter
    (fun s => checkActiveFlag (st.s_activeSounds s) SoundFlag.SOUND_PLAYING)).length

/-- The completion-callback block of the update() loop body: when a callback
is installed (and the voice is still flagged PLAYING), fire it with
s_userValue[s], decrement the bound buffer refCount, and assert that it
stayed non-negative. -/
def updateVoiceFire (st : SoundState) (s : Nat) : SoundState :=
  if st.s_callback && checkActiveFlag (st.s_activeSounds s) SoundFlag.SOUND_PLAYING then
    let st := { st with callbackLog := st.callbackLog ++ [st.s_userValue s] }
    let bufferID := getActiveBuffer (st.s_activeSounds s)
    let st := updBufAt st bufferID (fun b => { b with refCount := b.refCount - 1 })
    assertCheck st ((st.s_buffers bufferID).refCount ≥ 0)
  else st

/-- The first if of the update() loop body (state != AL_PLAYING): run the
callback block and clear SOUND_PLAYING.  The parameter state is the native
source state read before the block, as in the source. -/
def updateVoiceRetire (st : SoundState) (s : Nat) (state : SrcState) : SoundState :=
  if state ≠ SrcState.playing then
    updVoice (updateVoiceFire st s) s (fun v => clearActiveFlag v SoundFlag.SOUND_PLAYING)
  else st

/-- The second if of the update() loop body (state != AL_PAUSED): clear a
stale SOUND_PAUSED flag. -/
def updateVoiceResync (st : SoundState) (s : Nat) (state : SrcState) : SoundState :=
  if state ≠ SrcState.paused then
    updVoice st s (fun v => clearActiveFlag v SoundFlag.SOUND_PAUSED)
  else st

/-- The body of the per-voice loop of update(): the two ifs above, both
keyed on the native source state read once at the top of the body. -/
def updateVoice (st : SoundState) (s : Nat) : SoundState :=
  if checkActiveFlag (st.s_activeSounds s) SoundFlag.SOUND_PLAYING then
    updateVoiceResync (updateVoiceRetire st s (alGetSourceState st (st.s_sources s))) s
      (alGetSourceState st (st.s_sources s))
  else st

/-- update() of the source: poll every voice, then advance the frame
counter. -/
def update (st0 : SoundState) : SoundState :=
  if !st0.s_init then st0
  else
    let st := mutexLock st0
    let st := (List.range s_maxSimulSounds).foldl updateVoice st
    let st := { st with s_currentFrame := st.s_currentFrame + 1 }
    mutexUnlock st

/-- setGlobalVolume(volume) of the source.  Note that the loop passes the bare
loop index s to alGetSourcef/alSourcef, exactly as the source does (not
s_sources[s]). -/
def setGlobalVolume (st : SoundState) (volume0 : Rat) : SoundState :=
  let volume := volume0 * (0.80 : Rat)
  if volume ≠ st.s_globalVolume ∧ st.s_init then
    let st := mutexLock st
    let scale := if st.s_globalVolume > 0 then volume / st.s_globalVolume else 1
    let st := (List.range s_maxSimulSounds).foldl
      (fun st s =>
        let currentVolume := alGetSourceGain st s
        let gain := min (currentVolume * scale) 1
        alSourceSetGain st s gain)
      st
    let st := { st with s_globalVolume := volume }
    mutexUnlock st
  else st

/-- isActive(handle) of the source (the lock and unlock around the read leave
the state unchanged, so the query is modelled as a pure read). -/
def isActive (st : SoundState) (handle : Nat) : Bool :=
  isActiveNoLock st handle

/-- isPlaying(handle) of the source. -/
def isPlaying (st : SoundState) (handle : Nat) : Bool :=
  let sourceID := getHandleSource handle
  isActiveNoLock st handle && checkActiveFlag (st.s_activeSounds sourceID) SoundFlag.SOUND_PLAYING

/-- isLooping(handle) of the source. -/
def isLooping (st : SoundState) (handle : Nat) : Bool :=
  let sourceID := getHandleSource handle
  isActiveNoLock st handle && checkActiveFlag (st.s_activeSounds sourceID) SoundFlag.SOUND_LOOPING

/-- pauseSound(handle) of the source. -/
def pauseSound (st0 : SoundState) (handle : Nat) : SoundState :=
  let st := mutexLock st0
  if !(isActiveNoLock st handle) then mutexUnlock st
  else
    let sourceID := getHandleSource handle
    if !(checkActiveFlag (st.s_activeSounds sourceID) SoundFlag.SOUND_PLAYING) then
      mutexUnlock st
    else
      let st := alSourcePause st (st.s_sources sourceID)
      let st := updVoice st sourceID (fun v =>
        setActiveFlag (clearActiveFlag v SoundFlag.SOUND_PLAYING) SoundFlag.SOUND_PAUSED)
      let bufferID := getHandleBuffer handle
      let st := updBufAt st bufferID (fun b => { b with lastUsed := st.s_currentFrame })
      mutexUnlock st

/-- resumeSound(handle) of the source. -/
def resumeSound (st0 : SoundState) (handle : Nat) : SoundState :=
  let st := mutexLock st0
  if !(isActiveNoLock st handle) then mutexUnlock st
  else
    let sourceID := getHandleSource handle
    if !(checkActiveFlag (st.s_activeSounds sourceID) SoundFlag.SOUND_PAUSED) then
      mutexUnlock st
    else
      let st := alSourcePlay st (st.s_sources sourceID)
      let st := updVoice st sourceID (fun v =>
        clearActiveFlag (setActiveFlag v SoundFlag.SOUND_PLAYING) SoundFlag.SOUND_PAUSED)
      let bufferID := getHandleBuffer handle
      let st := updBufAt st bufferID (fun b => { b with lastUsed := st.s_currentFrame })
      mutexUnlock st

/-- setPan(handle, pan) of the source. -/
def setPan (st0 : SoundState) (handle : Nat) (pan : Rat) : SoundState :=
  let st := mutexLock st0
  if !(isActiveNoLock st handle) then mutexUnlock st
  else
    let sourceID := getHandleSource handle
    let st := alSourceSetPos st (st.s_sources sourceID) pan
    let bufferID := getHandleBuffer handle
    let st := updBufAt st bufferID (fun b => { b with lastUsed := st.s_currentFrame })
    mutexUnlock st

/-- setVolume(handle, volume) of the source. -/
def setVolume (st0 : SoundState) (handle : Nat) (volume : Rat) : SoundState :=
  let st := mutexLock st0
  if !(isActiveNoLock st handle) then mutexUnlock st
  else
    let sourceID := getHandleSource handle
    let gain := min (volume * st.s_globalVolume) 1
    let st := alSourceSetGain st (st.s_sources sourceID) gain
    let bufferID := getHandleBuffer handle
    let st := updBufAt st bufferID (fun b => { b with lastUsed := st.s_currentFrame })
    mutexUnlock st

end SoundModel

namespace SoundModel

/-- The handle packing built at the end of allocateSound:
bufferID | (soundID << 8) | (allocID << 13). -/
def encodeSoundHandle (bufferID soundID allocID : Nat) : Nat :=
  bufferID ||| (soundID <<< 8) ||| (allocID <<< 13)

lemma or_shiftRight_distrib (x y k : Nat) : (x ||| y) >>> k = (x >>> k) ||| (y >>> k) := by
  induction k with
  | zero => rfl
  | succ n ih =>
      rw [Nat.shiftRight_succ, Nat.shiftRight_succ, Nat.shiftRight_succ, ih, Nat.or_div_two]

lemma shiftLeft_then_shiftRight (v a b : Nat) (h : b ≤ a) :
    (v <<< a) >>> b = v <<< (a - b) := by
  rw [Nat.shiftLeft_eq, Nat.shiftLeft_eq, Nat.shiftRight_eq_div_pow]
  have hsplit : 2 ^ a = 2 ^ (a - b) * 2 ^ b := by
    rw [← pow_add]
    congr 1
    omega
  rw [hsplit, ← mul_assoc]
  exact Nat.mul_div_cancel _ (Nat.two_pow_pos b)

lemma shiftRight_eq_zero (v b : Nat) (h : v < 2 ^ b) : v >>> b = 0 := by
  rw [Nat.shiftRight_eq_div_pow]
  exact Nat.div_eq_of_lt h

/-- Decoding the packed handle recovers the three fields, provided each is in
range.  Shared workhorse for the handle round-trip. -/
lemma decode_encode_fields (b v g : Nat)
    (hb : b < 256) (hv : v < 32) (hg : g < 524288) :
    getHandleBuffer (encodeSoundHandle b v g) = b ∧
    getHandleSource (encodeSoundHandle b v g) = v ∧
    getHandleAllocID (encodeSoundHandle b v g) = g := by
  have h255 : (255 : Nat) = 2 ^ 8 - 1 := rfl
  have h31 : (31 : Nat) = 2 ^ 5 - 1 := rfl
  have hmask : (0x7ffff : Nat) = 2 ^ 19 - 1 := rfl
  refine ⟨?_, ?_, ?_⟩
  · show (b ||| (v <<< 8) ||| (g <<< 13)) &&& 255 = b
    rw [h255, Nat.and_distrib_right, Nat.and_distrib_right,
      Nat.and_pow_two_sub_one_eq_mod, Nat.and_pow_two_sub_one_eq_mod,
      Nat.and_pow_two_sub_one_eq_mod, Nat.shiftLeft_eq, Nat.shiftLeft_eq,
      Nat.mod_eq_of_lt hb, Nat.mul_mod_left,
      show (2 : Nat) ^ 13 = 2 ^ 5 * 2 ^ 8 by norm_num, ← mul_assoc,
      Nat.mul_mod_left, Nat.or_zero, Nat.or_zero]
  · show ((b ||| (v <<< 8) ||| (g <<< 13)) >>> 8) &&& 31 = v
    rw [or_shiftRight_distrib, or_shiftRight_distrib,
      shiftRight_eq_zero b 8 (by omega),
      shiftLeft_then_shiftRight v 8 8 (le_refl 8), Nat.sub_self, Nat.shiftLeft_zero,
      shiftLeft_then_shiftRight g 13 8 (by omega), Nat.zero_or,
      h31, Nat.and_distrib_right,
      Nat.and_pow_two_sub_one_eq_mod, Nat.and_pow_two_sub_one_eq_mod,
      Nat.mod_eq_of_lt hv, Nat.shiftLeft_eq,
      show (13 - 8 : Nat) = 5 from rfl, Nat.mul_mod_left, Nat.or_zero]
  · show ((b ||| (v <<< 8) ||| (g <<< 13)) >>> 13) &&& 0x7ffff = g
    rw [or_shiftRight_distrib, or_shiftRight_distrib,
      shiftRight_eq_zero b 13 (by omega),
      shiftRight_eq_zero (v <<< 8) 13 (by rw [Nat.shiftLeft_eq]; omega),
      shiftLeft_then_shiftRight g 13 13 (le_refl 13), Nat.sub_self, Nat.shiftLeft_zero,
      Nat.zero_or, Nat.zero_or, hmask, Nat.and_pow_two_sub_one_eq_mod,
      Nat.mod_eq_of_lt (by omega : g < 2 ^ 19)]

end SoundModel

namespace SoundModel

/-- Claim C7: for all bufferIndex < 256, voiceSlot < 32 and generation < 2^19,
decoding the handle produced by the packing bufferID | (soundID << 8) |
(allocID << 13) of allocateSound returns exactly that triple; the three decode
accessors getHandleBuffer / getHandleSource / getHandleAllocID read the three
disjoint bit fields (buffer index in the low 8 bits, voice slot next,
generation masked to 19 bits in the high bits) and are total functions of the
integer handle with no side effects. -/
theorem handle_decode_encode_roundtrip (b v g : Nat)
    (hb : b < 256) (hv : v < 32) (hg : g < 524288) :
    getHandleBuffer (encodeSoundHandle b v g) = b ∧
    getHandleSource (encodeSoundHandle b v g) = v ∧
    getHandleAllocID (encodeSoundHandle b v g) = g :=
  decode_encode_fields b v g hb hv hg

/-- Witness for C7 at the concrete triple (3, 4, 5). -/
theorem handle_decode_encode_roundtrip_witness :
    getHandleBuffer (encodeSoundHandle 3 4 5) = 3 ∧
    getHandleSource (encodeSoundHandle 3 4 5) = 4 ∧
    getHandleAllocID (encodeSoundHandle 3 4 5) = 5 :=
  handle_decode_encode_roundtrip 3 4 5 (by decide) (by decide) (by decide)

end SoundModel

set_option maxRecDepth 4000000

attribute [local semireducible] Rat.mul Rat.inv Rat.add Rat.sub Rat.ofScientific

namespace SoundModel

/-- A raw-PCM sample input (always decodes). -/
def sampleRaw : SoundData :=
  { dtype := SoundDataType.STYPE_RAW, size := 100, vocReadable := true, vocRawSize := 0 }

/-- A VOC sample input that the external Voc decoder rejects, so
getRawSoundData returns NULL and alBufferData fails. -/
def sampleBadVoc : SoundData :=
  { dtype := SoundDataType.STYPE_VOC, size := 100, vocReadable := false, vocRawSize := 0 }

/-- A SoundInfo with full volume, centre pan and the given userValue tag. -/
def mkInfo (u : Nat) : SoundInfo :=
  { volume := 1, pan := 0, samplingRate := 11025, bitRate := 8, stereo := false, userValue := u }

/-- One play of the sound named a from the fresh initial state, without a
completion callback installed.  The returned handle is 8192
(buffer 0, voice 0, allocID 1). -/
def playA : SoundState × Nat := playSound2D initState "a" sampleRaw (mkInfo 7) false

/-- The backend then reports that the native source of voice 0 (AL name 1)
finished playing. -/
def afterFinish : SoundState := nativeSourceFinish playA.1 1

/-- One update() tick after the voice finished. -/
def afterTick : SoundState := update afterFinish

/-- Counterexample to claim C2 as stated.  Voice 0 is flagged PLAYING and its
native source reports stopped, no completion callback is installed, and
update() runs once; the claim predicts that the bound buffer refCount drops
from 1 to 0 and that the handle becomes inactive regardless of whether a
callback is installed.  In fact the source only decrements refCount inside
the `if (s_callback && ...)` block, so with no callback installed the
refCount stays 1, and update() clears only SOUND_PLAYING, never SOUND_ACTIVE,
so isActive still returns true for the handle. -/
theorem update_completion_counterexample :
    (playA.1.s_activeSounds 0).playingFlag = true ∧
    alGetSourceState afterFinish (afterFinish.s_sources 0) = SrcState.stopped ∧
    playA.1.s_callback = false ∧
    (playA.1.s_buffers 0).refCount = 1 ∧
    (afterTick.s_buffers 0).refCount = 1 ∧
    isActive afterTick playA.2 = true ∧
    (afterTick.s_activeSounds 0).playingFlag = false ∧
    afterTick.s_currentFrame = playA.1.s_currentFrame + 1 ∧
    ¬ ((afterTick.s_buffers 0).refCount = 0 ∧ isActive afterTick playA.2 = false) := by
  refine ⟨rfl, rfl, rfl, rfl, rfl, rfl, rfl, rfl, ?_⟩
  intro hc
  have h1 : (afterTick.s_buffers 0).refCount = 1 := rfl
  rw [h1] at hc
  exact absurd hc.1 (by decide)

/-- State after 32 plays of the sound named a: every voice slot is PLAYING
(voice starvation). -/
def fillAllVoices : SoundState :=
  (List.range 32).foldl
    (fun st _ => (playSound2D st "a" sampleRaw (mkInfo 7) false).1) initState

/-- A 33rd play issued while all 32 voices are busy, with a different
userValue (9) and looping requested. -/
def starvedPlay : SoundState × Nat := playSound2D fillAllVoices "a" sampleRaw (mkInfo 9) true

/-- Claim C3 evaluated at its failing input.  With all 32 voices PLAYING,
allocateSound correctly returns INVALID_SOUND_HANDLE, and playSound2D does
return the invalid handle; but playSound2D never checks the allocation
result, so it goes on to run playSoundInternal on the invalid handle, whose
decoded fields are voice 31 and buffer 255.  The call therefore increments
the refCount of buffer slot 255, sets SOUND_LOOPING on voice 31 and
overwrites s_userValue[31] with the new userValue, contradicting the claim
that every voice flag, userTag and buffer refCount is left unchanged. -/
theorem starved_play_side_effects :
    soundsPlaying fillAllVoices = 32 ∧
    starvedPlay.2 = INVALID_SOUND_HANDLE ∧
    fillAllVoices.s_userValue 31 = 7 ∧
    starvedPlay.1.s_userValue 31 = 9 ∧
    (fillAllVoices.s_buffers 255).refCount = 0 ∧
    (starvedPlay.1.s_buffers 255).refCount = 1 ∧
    (fillAllVoices.s_activeSounds 31).loopingFlag = false ∧
    (starvedPlay.1.s_activeSounds 31).loopingFlag = true :=
  ⟨rfl, rfl, rfl, rfl, rfl, rfl, rfl, rfl⟩

/-- A play of a cold buffer whose decode/upload fails. -/
def uploadFailPlay : SoundState × Nat := playSound2D initState "x" sampleBadVoc (mkInfo 7) false

/-- Claim C4 evaluated at its failing input.  When alBufferData fails for the
cold buffer of a new name, the source runs `return false` (handle 0, which is
not INVALID_SOUND_HANDLE) and performs no rollback at all: the claimed slot
keeps its name, the name index keeps the entry for the name, and the
allocated voice stays ACTIVE; the slot is merely left with BUFFER_ACTIVE
still clear.  The claim instead requires the invalid handle and a full
rollback (name cleared and the entry removed from the index). -/
theorem upload_failure_no_rollback :
    uploadFailPlay.2 = 0 ∧
    uploadFailPlay.2 ≠ INVALID_SOUND_HANDLE ∧
    uploadFailPlay.1.s_bufferMap "x" = some 0 ∧
    (uploadFailPlay.1.s_buffers 0).name = "x" ∧
    ((uploadFailPlay.1.s_buffers 0).flags &&& BUFFER_ACTIVE) = 0 ∧
    (uploadFailPlay.1.s_activeSounds 0).activeFlag = true ∧
    uploadFailPlay.1.lockDepth = 0 := by
  refine ⟨rfl, ?_, rfl, rfl, rfl, rfl, rfl⟩
  intro h
  have h0 : uploadFailPlay.2 = 0 := rfl
  rw [h0] at h
  exact absurd h (by decide)

/-- Play the name x, hard-reset the subsystem, then play the name y. -/
def resetTrace : SoundState :=
  (playSound2D (reset (playSound2D initState "x" sampleRaw (mkInfo 7) false).1)
    "y" sampleRaw (mkInfo 7) false).1

/-- Claim C9 evaluated at its failing input.  reset() zeroes every buffer slot
(flags, refCount, lastUsed) but clears neither the slot names nor the name
index s_bufferMap.  After a reset, the play of the new name y claims slot 0
(structurally free again) and registers y; the stale entry for x still maps
to slot 0, so two names map to the same slot and the entry for x points at a
slot that is claimed for y: the index is not in sync with the pool. -/
theorem reset_desyncs_bufferMap :
    resetTrace.s_bufferMap "x" = some 0 ∧
    resetTrace.s_bufferMap "y" = some 0 ∧
    (resetTrace.s_buffers 0).name = "y" ∧
    ¬ (∀ nm i, resetTrace.s_bufferMap nm = some i → (resetTrace.s_buffers i).name = nm) := by
  refine ⟨rfl, rfl, rfl, ?_⟩
  intro hall
  have hx := hall "x" 0 rfl
  have hy : (resetTrace.s_buffers 0).name = "y" := rfl
  rw [hy] at hx
  exact absurd hx (by decide)

/-- setGlobalVolume(1.0) (a no-op since the initial global volume is already
0.8 = 1.0 * 0.8) followed by setGlobalVolume(0.5), issued while all 32
voices are playing with gain 0.8. -/
def volumeTrace : SoundState :=
  setGlobalVolume (setGlobalVolume fillAllVoices 1) (1 / 2)

/-- Claim C10 evaluated at its failing input.  The rescaling loop of
setGlobalVolume passes the bare loop index s (0..31) to alGetSourcef and
alSourcef instead of the source name s_sources[s], while every other
operation uses s_sources[s].  With the backend assigning the names 1..32,
the loop accidentally rescales the sources of voices 0..30 (names 1..31)
and never touches voice 31 (name 32): after setGlobalVolume(0.5) following
setGlobalVolume(1.0), voice 31 is still playing with its old gain 4/5
instead of the claimed 4/5 * (1/2)/1 = 2/5, while voice 0 did get gain
2/5. -/
theorem setGlobalVolume_skips_voice31 :
    (alGetSourceGain (setGlobalVolume fillAllVoices 1) (fillAllVoices.s_sources 31)).num = 4 ∧
    (alGetSourceGain (setGlobalVolume fillAllVoices 1) (fillAllVoices.s_sources 31)).den = 5 ∧
    isPlaying volumeTrace 16128 = true ∧
    getHandleSource 16128 = 31 ∧
    (alGetSourceGain volumeTrace (volumeTrace.s_sources 0)).num = 2 ∧
    (alGetSourceGain volumeTrace (volumeTrace.s_sources 0)).den = 5 ∧
    (alGetSourceGain volumeTrace (volumeTrace.s_sources 31)).num = 4 ∧
    (alGetSourceGain volumeTrace (volumeTrace.s_sources 31)).den = 5 ∧
    ¬ (alGetSourceGain volumeTrace (volumeTrace.s_sources 31)
        = min ((4 / 5 : Rat) * ((1 / 2 : Rat) / 1)) 1) := by
  refine ⟨rfl, rfl, rfl, rfl, rfl, rfl, rfl, rfl, ?_⟩
  intro h
  have hnum := congrArg Rat.num h
  have h4 : (alGetSourceGain volumeTrace (volumeTrace.s_sources 31)).num = 4 := rfl
  have h2 : (min ((4 / 5 : Rat) * ((1 / 2 : Rat) / 1)) 1).num = 2 := rfl
  rw [h4, h2] at hnum
  exact absurd hnum (by decide)

lemma getSoundBuffer_none_eq (st : SoundState) (name : String)
    (h : (getSoundBuffer st name).2 = none) : (getSoundBuffer st name).1 = st := by
  unfold getSoundBuffer at h ⊢
  cases hm : st.s_bufferMap name with
  | some i =>
    simp only [hm] at h
    exact Option.noConfusion h
  | none =>
    simp only [hm] at h ⊢
    cases hf : (List.range s_numBuffers).find?
        (fun i => ((st.s_buffers i).flags &&& BUFFER_ACTIVE) == 0) with
    | some i =>
      simp only [hf] at h
      exact Option.noConfusion h
    | none =>
      simp only [hf] at h ⊢
      cases ho : (oldestScan st.s_buffers).2 with
      | some j =>
        simp only [ho] at h
        exact Option.noConfusion h
      | none => simp only [ho]

/-- Claim C1: whenever playSound2D fails because buffer acquisition returns
NULL (no slot), the early return skips the unlock and the call returns with
the process-wide mutex still held (lock depth one higher than on entry), so
the lock is not released on this exit path and every later operation would
deadlock. -/
theorem playSound2D_lock_leak (st : SoundState) (name : String) (data : SoundData)
    (info : SoundInfo) (looping : Bool)
    (hinit : st.s_init = true)
    (hfail : (getSoundBuffer (mutexLock st) name).2 = none) :
    (playSound2D st name data info looping).1.lockDepth = st.lockDepth + 1 ∧
    (playSound2D st name data info looping).2 = INVALID_SOUND_HANDLE := by
  have hstate := getSoundBuffer_none_eq (mutexLock st) name hfail
  have hpair : getSoundBuffer (mutexLock st) name = (mutexLock st, none) := by
    rw [Prod.ext_iff]
    exact ⟨hstate, hfail⟩
  unfold playSound2D
  rw [hinit]
  simp only [Bool.not_true, Bool.false_eq_true, if_false, hpair]
  constructor <;> trivial

/-- A pool state in which every one of the 256 buffer slots is active with
refCount 1 while no voice is playing.  Such states are reachable: with no
completion callback installed, play 256 distinct names and let each voice
finish naturally; update() then clears SOUND_PLAYING without decrementing the
refCount (the decrement sits inside the callback guard, see the C2
counterexample), so every slot keeps refCount 1 forever. -/
def exhaustedPool : SoundState :=
  { initState with
    s_buffers := fun i =>
      { name := "n", flags := 1, index := i, refCount := 1, lastUsed := 1, oalBuffer := i + 1 } }

/-- Witness for C1: at the exhausted pool, a play of a fresh name returns
with the mutex still held. -/
theorem playSound2D_lock_leak_witness :
    exhaustedPool.s_init = true ∧
    (getSoundBuffer (mutexLock exhaustedPool) "m").2 = none ∧
    (playSound2D exhaustedPool "m" sampleRaw (mkInfo 7) false).1.lockDepth
      = exhaustedPool.lockDepth + 1 ∧
    (playSound2D exhaustedPool "m" sampleRaw (mkInfo 7) false).2 = INVALID_SOUND_HANDLE :=
  ⟨rfl, rfl,
    (playSound2D_lock_leak exhaustedPool "m" sampleRaw (mkInfo 7) false rfl rfl).1,
    (playSound2D_lock_leak exhaustedPool "m" sampleRaw (mkInfo 7) false rfl rfl).2⟩

end SoundModel

namespace SoundModel

lemma unlock_lock (st : SoundState) : mutexUnlock (mutexLock st) = st := by
  unfold mutexLock mutexUnlock
  rw [add_sub_cancel_right]

lemma and3_false {a b c : Bool} (h : a = false ∨ b = false ∨ c = false) :
    (a && b && c) = false := by
  rcases h with h | h | h <;> subst h <;> simp

/-- The handle-staleness condition of claim C8: the ACTIVE flag of the slot is
clear, or the bound buffer index differs, or the generation differs from the
fields decoded out of the handle. -/
def handleStale (st : SoundState) (handle : Nat) : Prop :=
  (st.s_activeSounds (getHandleSource handle)).activeFlag = false
  ∨ (st.s_activeSounds (getHandleSource handle)).buffer ≠ getHandleBuffer handle
  ∨ (st.s_activeSounds (getHandleSource handle)).allocID ≠ getHandleAllocID handle

lemma stale_not_active (st : SoundState) (handle : Nat) (hs : handleStale st handle) :
    isActiveNoLock st handle = false := by
  simp only [isActiveNoLock]
  split
  · rfl
  · rcases hs with h1 | h2 | h3
    · exact and3_false (Or.inr (Or.inr h1))
    · exact and3_false (Or.inr (Or.inl (beq_eq_false_iff_ne.mpr (fun he => h2 he.symm))))
    · exact and3_false (Or.inl (beq_eq_false_iff_ne.mpr (fun he => h3 he.symm)))

lemma stopSound_not_live (st : SoundState) (handle : Nat)
    (hf : isActiveNoLock (mutexLock st) handle = false) : stopSound st handle = st := by
  simp only [stopSound, hf, Bool.not_false, if_true, unlock_lock]

lemma pauseSound_not_live (st : SoundState) (handle : Nat)
    (hf : isActiveNoLock (mutexLock st) handle = false) : pauseSound st handle = st := by
  simp only [pauseSound, hf, Bool.not_false, if_true, unlock_lock]

lemma resumeSound_not_live (st : SoundState) (handle : Nat)
    (hf : isActiveNoLock (mutexLock st) handle = false) : resumeSound st handle = st := by
  simp only [resumeSound, hf, Bool.not_false, if_true, unlock_lock]

lemma setPan_not_live (st : SoundState) (handle : Nat) (p : Rat)
    (hf : isActiveNoLock (mutexLock st) handle = false) : setPan st handle p = st := by
  simp only [setPan, hf, Bool.not_false, if_true, unlock_lock]

lemma setVolume_not_live (st : SoundState) (handle : Nat) (vol : Rat)
    (hf : isActiveNoLock (mutexLock st) handle = false) : setVolume st handle vol = st := by
  simp only [setVolume, hf, Bool.not_false, if_true, unlock_lock]

/-- The generation step applied by allocateSound on each reallocation of a
voice slot: allocID = (allocID + 1) & 0x7ffff. -/
def allocStep (g : Nat) : Nat := (g + 1) &&& 0x7ffff

lemma allocStep_iterate (g n : Nat) (hg : g < 524288) :
    allocStep^[n] g = (g + n) % 524288 := by
  induction n with
  | zero => simpa using (Nat.mod_eq_of_lt hg).symm
  | succ m ih =>
      rw [Function.iterate_succ_apply', ih, allocStep,
        show (0x7ffff : Nat) = 2 ^ 19 - 1 from rfl, Nat.and_pow_two_sub_one_eq_mod,
        show (2 : Nat) ^ 19 = 524288 from rfl]
      omega

end SoundModel

namespace SoundModel

/-- Claim C8: every public handle-taking operation given a non-live handle
(ACTIVE flag clear, or bound buffer index different, or generation different
from the fields of the handle) is a silent no-op: the mutating operations
return the state unchanged and the queries return false.  In addition, the
generation counter stepped by allocateSound ((g + 1) & 0x7ffff) never returns
to its old value in fewer than 2^19 reallocations, so a handle issued by an
earlier allocation of a slot that has since been reallocated (fewer than 2^19
intervening reallocations) has a different generation than the slot and is
covered by the staleness condition. -/
theorem stale_handle_silent_noop (st : SoundState) (handle : Nat)
    (hs : handleStale st handle) :
    stopSound st handle = st ∧
    pauseSound st handle = st ∧
    resumeSound st handle = st ∧
    (∀ p, setPan st handle p = st) ∧
    (∀ vol, setVolume st handle vol = st) ∧
    isActive st handle = false ∧
    isPlaying st handle = false ∧
    isLooping st handle = false ∧
    (∀ g n, g < 524288 → 0 < n → n < 524288 → allocStep^[n] g ≠ g) := by
  have hf0 : isActiveNoLock st handle = false := stale_not_active st handle hs
  have hf : isActiveNoLock (mutexLock st) handle = false := hf0
  refine ⟨stopSound_not_live st handle hf, pauseSound_not_live st handle hf,
    resumeSound_not_live st handle hf,
    fun p => setPan_not_live st handle p hf,
    fun vol => setVolume_not_live st handle vol hf,
    hf0, ?_, ?_, ?_⟩
  · simp only [isPlaying, hf0, Bool.false_and]
  · simp only [isLooping, hf0, Bool.false_and]
  · intro g n hg hn1 hn2 hcontra
    rw [allocStep_iterate g n hg] at hcontra
    omega

/-- Witness for C8: in the state reached by one play of the name a, the
handle 8192 with its generation field altered (8192 + 2 ^ 13, generation 2
instead of the current 1) is stale, and every operation ignores it. -/
theorem stale_handle_silent_noop_witness :
    handleStale playA.1 (8192 + 8192) ∧
    (stopSound playA.1 (8192 + 8192) = playA.1 ∧
     isActive playA.1 (8192 + 8192) = false) := by
  have hs : handleStale playA.1 (8192 + 8192) := by
    refine Or.inr (Or.inr ?_)
    intro hcontra
    have h1 : (playA.1.s_activeSounds (getHandleSource (8192 + 8192))).allocID = 1 := rfl
    have h2 : getHandleAllocID (8192 + 8192) = 2 := rfl
    rw [h1, h2] at hcontra
    exact absurd hcontra (by decide)
  have hmain := stale_handle_silent_noop playA.1 (8192 + 8192) hs
  exact ⟨hs, hmain.1, hmain.2.2.2.2.2.1⟩

end SoundModel

namespace SoundModel

/-- One iteration of the oldest-unreferenced scan of getSoundBuffer. -/
def oldestScanStep (bufs : Nat → SoundBuffer) (acc : Nat × Option Nat) (i : Nat) :
    Nat × Option Nat :=
  if (bufs i).refCount == 0 then
    if (bufs i).lastUsed < acc.1 then ((bufs i).lastUsed, some i) else acc
  else acc

lemma oldestScan_eq_foldl (bufs : Nat → SoundBuffer) :
    oldestScan bufs
      = (List.range s_numBuffers).foldl (oldestScanStep bufs) (0xffffffffffffffff, none) := rfl

lemma oldestScan_foldl_invariant (bufs : Nat → SoundBuffer) (n : Nat) :
    (((List.range n).foldl (oldestScanStep bufs) (0xffffffffffffffff, none)).2 = none →
      (∀ i, i < n → (bufs i).refCount = 0 → ¬((bufs i).lastUsed < 0xffffffffffffffff)) ∧
      ((List.range n).foldl (oldestScanStep bufs) (0xffffffffffffffff, none)).1
        = 0xffffffffffffffff) ∧
    (∀ j, ((List.range n).foldl (oldestScanStep bufs) (0xffffffffffffffff, none)).2 = some j →
      j < n ∧ (bufs j).refCount = 0 ∧ (bufs j).lastUsed < 0xffffffffffffffff ∧
      ((List.range n).foldl (oldestScanStep bufs) (0xffffffffffffffff, none)).1
        = (bufs j).lastUsed ∧
      (∀ i, i < n → (bufs i).refCount = 0 → (bufs j).lastUsed ≤ (bufs i).lastUsed) ∧
      (∀ i, i < j → (bufs i).refCount = 0 → (bufs j).lastUsed < (bufs i).lastUsed)) := by
  induction n with
  | zero =>
      constructor
      · intro _
        exact ⟨fun i hi => absurd hi (by omega), rfl⟩
      · intro j hj
        exact absurd hj (by simp [List.range_zero])
  | succ m ih =>
      have hsplit : (List.range (m + 1)).foldl (oldestScanStep bufs) (0xffffffffffffffff, none)
          = oldestScanStep bufs
              ((List.range m).foldl (oldestScanStep bufs) (0xffffffffffffffff, none)) m := by
        rw [List.range_succ, List.foldl_append]
        rfl
      set res := (List.range m).foldl (oldestScanStep bufs) (0xffffffffffffffff, none) with hres
      rcases ih with ⟨ihnone, ihsome⟩
      by_cases hc : (bufs m).refCount = 0
      · by_cases hlt : (bufs m).lastUsed < res.1
        · -- the scan adopts index m
          have hstep : oldestScanStep bufs res m = ((bufs m).lastUsed, some m) := by
            unfold oldestScanStep
            rw [if_pos (beq_iff_eq.mpr hc), if_pos hlt]
          rw [hsplit, hstep]
          constructor
          · intro hnone
            exact absurd hnone (by simp)
          · intro j hj
            have hjm : j = m := by
              have := hj
              simp at this
              omega
            subst hjm
            cases hr2 : res.2 with
            | none =>
                rcases ihnone hr2 with ⟨hall, hfr⟩
                rw [hfr] at hlt
                refine ⟨by omega, hc, hlt, rfl, ?_, ?_⟩
                · intro i hi hci
                  rcases Nat.lt_succ_iff_lt_or_eq.mp hi with hi2 | hi2
                  · have := hall i hi2 hci
                    omega
                  · subst hi2
                    omega
                · intro i hi hci
                  have := hall i (by omega) hci
                  omega
            | some k =>
                rcases ihsome k hr2 with ⟨hkm, hck, hklt, hkfr, hkmin, hktie⟩
                rw [hkfr] at hlt
                refine ⟨by omega, hc, by omega, rfl, ?_, ?_⟩
                · intro i hi hci
                  rcases Nat.lt_succ_iff_lt_or_eq.mp hi with hi2 | hi2
                  · have := hkmin i hi2 hci
                    omega
                  · subst hi2
                    omega
                · intro i hi hci
                  have := hkmin i (by omega) hci
                  omega
        · -- candidate m does not beat the running best
          have hstep : oldestScanStep bufs res m = res := by
            unfold oldestScanStep
            rw [if_pos (beq_iff_eq.mpr hc), if_neg hlt]
          rw [hsplit, hstep]
          constructor
          · intro hnone
            rcases ihnone hnone with ⟨hall, hfr⟩
            refine ⟨?_, hfr⟩
            intro i hi hci
            rcases Nat.lt_succ_iff_lt_or_eq.mp hi with hi2 | hi2
            · exact hall i hi2 hci
            · subst hi2
              rw [hfr] at hlt
              omega
          · intro j hj
            rcases ihsome j hj with ⟨hjm, hcj, hjlt, hjfr, hjmin, hjtie⟩
            refine ⟨by omega, hcj, hjlt, hjfr, ?_, hjtie⟩
            intro i hi hci
            rcases Nat.lt_succ_iff_lt_or_eq.mp hi with hi2 | hi2
            · exact hjmin i hi2 hci
            · subst hi2
              rw [hjfr] at hlt
              omega
      · -- index m is not a candidate
        have hstep : oldestScanStep bufs res m = res := by
          unfold oldestScanStep
          rw [if_neg (by simpa using hc)]
        rw [hsplit, hstep]
        constructor
        · intro hnone
          rcases ihnone hnone with ⟨hall, hfr⟩
          refine ⟨?_, hfr⟩
          intro i hi hci
          rcases Nat.lt_succ_iff_lt_or_eq.mp hi with hi2 | hi2
          · exact hall i hi2 hci
          · subst hi2
            exact absurd hci hc
        · intro j hj
          rcases ihsome j hj with ⟨hjm, hcj, hjlt, hjfr, hjmin, hjtie⟩
          refine ⟨by omega, hcj, hjlt, hjfr, ?_, hjtie⟩
          intro i hi hci
          rcases Nat.lt_succ_iff_lt_or_eq.mp hi with hi2 | hi2
          · exact hjmin i hi2 hci
          · subst hi2
            exact absurd hci hc

end SoundModel

namespace SoundModel

lemma range_find?_none {p : Nat → Bool} {n : Nat} (h : ∀ i, i < n → p i = false) :
    (List.range n).find? p = none := by
  rw [List.find?_eq_none]
  intro x hx
  rw [List.mem_range] at hx
  simp [h x hx]

lemma range_find?_some {p : Nat → Bool} {n i : Nat} (hi : i < n) (hp : p i = true)
    (hmin : ∀ j, j < i → p j = false) : (List.range n).find? p = some i := by
  induction n with
  | zero => omega
  | succ m ih =>
      rw [List.range_succ, List.find?_append]
      rcases Nat.lt_succ_iff_lt_or_eq.mp hi with h2 | h2
      · rw [ih h2]
        rfl
      · subst h2
        rw [range_find?_none hmin]
        simp [hp]

/-- A structurally free buffer slot (BUFFER_ACTIVE clear), the condition of
the first-free scan of getSoundBuffer. -/
def isFreeSlot (st : SoundState) (i : Nat) : Prop :=
  ((st.s_buffers i).flags &&& BUFFER_ACTIVE) = 0

instance (st : SoundState) (i : Nat) : Decidable (isFreeSlot st i) := by
  unfold isFreeSlot
  infer_instance

/-- Claim C6 (amended): buffer acquisition follows the stated algorithm - an
exact-name cache hit returns the existing slot; otherwise the first
structurally free slot is claimed and registered; otherwise, among the slots
with refCount == 0 whose lastUsed is below the u64 sentinel
0xffffffffffffffff, the one with the smallest lastUsed is evicted and claimed
(ties broken by lowest index), a slot with refCount > 0 is never evicted, and
if there is no refCount == 0 slot whose lastUsed is below the sentinel the
acquisition returns NULL.  (The sentinel proviso is the amendment: the scan
initialises its running minimum to 0xffffffffffffffff and uses a strict
comparison, so a refCount-0 slot whose lastUsed equals the sentinel is never
selected; see the counterexample.) -/
theorem getSoundBuffer_characterization (st : SoundState) (name : String) :
    (∀ i, st.s_bufferMap name = some i → getSoundBuffer st name = (st, some i)) ∧
    (st.s_bufferMap name = none →
      ∀ i, i < s_numBuffers → isFreeSlot st i → (∀ j, j < i → ¬ isFreeSlot st j) →
        (getSoundBuffer st name).2 = some i ∧
        (getSoundBuffer st name).1.s_bufferMap name = some i ∧
        ((getSoundBuffer st name).1.s_buffers i).name = name) ∧
    (st.s_bufferMap name = none →
      (∀ i, i < s_numBuffers → ¬ isFreeSlot st i) →
      ∀ i, i < s_numBuffers → (st.s_buffers i).refCount = 0 →
        (st.s_buffers i).lastUsed < 0xffffffffffffffff →
        (∀ j, j < s_numBuffers → (st.s_buffers j).refCount = 0 →
          ((st.s_buffers i).lastUsed < (st.s_buffers j).lastUsed ∨
            ((st.s_buffers i).lastUsed = (st.s_buffers j).lastUsed ∧ i ≤ j))) →
        (getSoundBuffer st name).2 = some i ∧
        (getSoundBuffer st name).1.s_bufferMap name = some i ∧
        ((getSoundBuffer st name).1.s_buffers i).name = name ∧
        ((getSoundBuffer st name).1.s_buffers i).refCount = 0 ∧
        ((getSoundBuffer st name).1.s_buffers i).flags = 0 ∧
        ((st.s_buffers i).name ≠ name →
          (getSoundBuffer st name).1.s_bufferMap ((st.s_buffers i).name) = none)) ∧
    (st.s_bufferMap name = none →
      (∀ i, i < s_numBuffers → ¬ isFreeSlot st i) →
      (∀ i, i < s_numBuffers →
        ¬((st.s_buffers i).refCount = 0 ∧ (st.s_buffers i).lastUsed < 0xffffffffffffffff)) →
      (getSoundBuffer st name).2 = none) ∧
    (st.s_bufferMap name = none →
      (∀ i, i < s_numBuffers → ¬ isFreeSlot st i) →
      ∀ i, (getSoundBuffer st name).2 = some i → (st.s_buffers i).refCount = 0) := by
  refine ⟨?_, ?_, ?_, ?_, ?_⟩
  · intro i hm
    simp only [getSoundBuffer, hm]
  · intro hm i hin hfree hminfree
    have hfind : (List.range s_numBuffers).find?
        (fun i => ((st.s_buffers i).flags &&& BUFFER_ACTIVE) == 0) = some i := by
      refine range_find?_some hin (beq_iff_eq.mpr hfree) ?_
      intro j hj
      exact beq_eq_false_iff_ne.mpr (hminfree j hj)
    simp only [getSoundBuffer, hm, hfind, updBufAt]
    refine ⟨trivial, ?_, ?_⟩
    · rw [Function.update_same]
    · rw [Function.update_same]
  · intro hm hnofree i hin hc hsent hminimal
    have hfnone : (List.range s_numBuffers).find?
        (fun i => ((st.s_buffers i).flags &&& BUFFER_ACTIVE) == 0) = none := by
      refine range_find?_none ?_
      intro j hj
      exact beq_eq_false_iff_ne.mpr (hnofree j hj)
    have hinv := oldestScan_foldl_invariant st.s_buffers s_numBuffers
    rw [← oldestScan_eq_foldl] at hinv
    rcases hinv with ⟨hinvnone, hinvsome⟩
    have hscan : (oldestScan st.s_buffers).2 = some i := by
      cases hsc : (oldestScan st.s_buffers).2 with
      | none =>
          rcases hinvnone hsc with ⟨hall, _⟩
          exact absurd hsent (hall i hin hc)
      | some j =>
          rcases hinvsome j hsc with ⟨hjm, hcj, hjlt, _, hjmin, hjtie⟩
          have hle := hjmin i hin hc
          rcases hminimal j hjm hcj with hlt2 | ⟨heq2, hle2⟩
          · omega
          · have hij : ¬ (i < j) := by
              intro hij
              have := hjtie i hij hc
              omega
            have : i = j := by omega
            rw [this]
    simp only [getSoundBuffer, hm, hfnone, hscan, updBufAt]
    refine ⟨trivial, ?_, ?_, ?_, ?_, ?_⟩
    · rw [Function.update_same]
    · rw [Function.update_same]
    · rw [Function.update_same, Function.update_same]
    · rw [Function.update_same, Function.update_same]
    · intro hne
      rw [Function.update_noteq hne, Function.update_same]
  · intro hm hnofree hnocand
    have hfnone : (List.range s_numBuffers).find?
        (fun i => ((st.s_buffers i).flags &&& BUFFER_ACTIVE) == 0) = none := by
      refine range_find?_none ?_
      intro j hj
      exact beq_eq_false_iff_ne.mpr (hnofree j hj)
    have hinv := oldestScan_foldl_invariant st.s_buffers s_numBuffers
    rw [← oldestScan_eq_foldl] at hinv
    have hscan : (oldestScan st.s_buffers).2 = none := by
      cases hsc : (oldestScan st.s_buffers).2 with
      | none => rfl
      | some j =>
          rcases hinv.2 j hsc with ⟨hjm, hcj, hjlt, _⟩
          exact absurd ⟨hcj, hjlt⟩ (hnocand j hjm)
    simp only [getSoundBuffer, hm, hfnone, hscan]
  · intro hm hnofree i hr
    have hfnone : (List.range s_numBuffers).find?
        (fun i => ((st.s_buffers i).flags &&& BUFFER_ACTIVE) == 0) = none := by
      refine range_find?_none ?_
      intro j hj
      exact beq_eq_false_iff_ne.mpr (hnofree j hj)
    have hinv := oldestScan_foldl_invariant st.s_buffers s_numBuffers
    rw [← oldestScan_eq_foldl] at hinv
    cases hsc : (oldestScan st.s_buffers).2 with
    | none =>
        simp only [getSoundBuffer, hm, hfnone, hsc] at hr
        exact Option.noConfusion hr
    | some j =>
        simp only [getSoundBuffer, hm, hfnone, hsc, updBufAt, Option.some.injEq] at hr
        rcases hinv.2 j hsc with ⟨_, hcj, _⟩
        rw [← hr]
        exact hcj

end SoundModel

namespace SoundModel

/-- A pool in which every slot is active, slot 0 is the unique slot with
refCount 0, and slot 0 has lastUsed equal to the u64 sentinel value
0xffffffffffffffff. -/
def sentinelPool : SoundState :=
  { initState with
    s_buffers := fun i =>
      if i = 0 then
        { name := "s0", flags := 1, index := 0, refCount := 0,
          lastUsed := 0xffffffffffffffff, oalBuffer := 1 }
      else
        { name := "sx", flags := 1, index := i, refCount := 1, lastUsed := 0,
          oalBuffer := i + 1 } }

/-- Counterexample to claim C6 as stated.  In sentinelPool the name m is not
cached and no slot is structurally free, and slot 0 is a slot with
refCount == 0 (necessarily the one with the smallest lastUsed tick among
refCount-0 slots), so the claimed algorithm must evict and claim slot 0 and
return it; the scan of the source instead initialises its running minimum to
0xffffffffffffffff and only accepts slots with lastUsed strictly below it, so
it overlooks slot 0 and acquisition returns NULL. -/
theorem getSoundBuffer_sentinel_counterexample :
    sentinelPool.s_bufferMap "m" = none ∧
    (∀ i, i < s_numBuffers → ¬ isFreeSlot sentinelPool i) ∧
    (sentinelPool.s_buffers 0).refCount = 0 ∧
    (∀ j, j < s_numBuffers → (sentinelPool.s_buffers j).refCount = 0 → j = 0) ∧
    (getSoundBuffer sentinelPool "m").2 = none := by
  refine ⟨rfl, by decide, rfl, by decide, rfl⟩

/-- A pool in which every slot is active, slots 2 and 4 have refCount 0 with
lastUsed 5 and 3, and every other slot is still referenced. -/
def evictPool : SoundState :=
  { initState with
    s_buffers := fun i =>
      if i = 2 then
        { name := "b2", flags := 1, index := 2, refCount := 0, lastUsed := 5, oalBuffer := 3 }
      else if i = 4 then
        { name := "b4", flags := 1, index := 4, refCount := 0, lastUsed := 3, oalBuffer := 5 }
      else
        { name := "bx", flags := 1, index := i, refCount := 1, lastUsed := 7,
          oalBuffer := i + 1 } }

/-- Witness for the amended C6 at a concrete pool: with slots 2 and 4
unreferenced (lastUsed 5 and 3) and everything else referenced, acquisition
of the fresh name m evicts exactly slot 4 and registers m there. -/
theorem getSoundBuffer_characterization_witness :
    (getSoundBuffer evictPool "m").2 = some 4 ∧
    (getSoundBuffer evictPool "m").1.s_bufferMap "m" = some 4 ∧
    ((getSoundBuffer evictPool "m").1.s_buffers 4).name = "m" :=
  have h := (getSoundBuffer_characterization evictPool "m").2.2.1 rfl
    (by decide) 4 (by decide) (by decide) (by decide) (by decide)
  ⟨h.1, h.2.1, h.2.2.1⟩

end SoundModel

namespace SoundModel

lemma updVoice_proj_same (st : SoundState) (s : Nat) (f : ActiveSound → ActiveSound) :
    (updVoice st s f).s_activeSounds s = f (st.s_activeSounds s) :=
  Function.update_same _ _ _

lemma updVoice_proj_ne (st : SoundState) (s : Nat) (f : ActiveSound → ActiveSound)
    (x : Nat) (h : x ≠ s) : (updVoice st s f).s_activeSounds x = st.s_activeSounds x :=
  Function.update_noteq h _ _

lemma updBufAt_proj_same (st : SoundState) (i : Nat) (f : SoundBuffer → SoundBuffer) :
    (updBufAt st i f).s_buffers i = f (st.s_buffers i) :=
  Function.update_same _ _ _

lemma updBufAt_proj_ne (st : SoundState) (i : Nat) (f : SoundBuffer → SoundBuffer)
    (x : Nat) (h : x ≠ i) : (updBufAt st i f).s_buffers x = st.s_buffers x :=
  Function.update_noteq h _ _

/-- The condition under which the loop body of update() retires a voice:
flagged PLAYING while the native source state is not AL_PLAYING. -/
def finishing (st : SoundState) (w : Nat) : Prop :=
  (st.s_activeSounds w).playingFlag = true ∧
  alGetSourceState st (st.s_sources w) ≠ SrcState.playing

instance (st : SoundState) (w : Nat) : Decidable (finishing st w) := by
  unfold finishing
  infer_instance

lemma finishing_iff {st1 st2 : SoundState} (x : Nat)
    (hal : st1.al = st2.al) (hsrc : st1.s_sources = st2.s_sources)
    (hp : (st1.s_activeSounds x).playingFlag = (st2.s_activeSounds x).playingFlag) :
    finishing st1 x ↔ finishing st2 x := by
  unfold finishing alGetSourceState
  rw [hal, hsrc, hp]

end SoundModel

namespace SoundModel

lemma assertCheck_s_buffers (st : SoundState) (p : Prop) [Decidable p] :
    (assertCheck st p).s_buffers = st.s_buffers := by
  unfold assertCheck
  split <;> rfl

lemma assertCheck_callbackLog (st : SoundState) (p : Prop) [Decidable p] :
    (assertCheck st p).callbackLog = st.callbackLog := by
  unfold assertCheck
  split <;> rfl

lemma assertCheck_s_activeSounds (st : SoundState) (p : Prop) [Decidable p] :
    (assertCheck st p).s_activeSounds = st.s_activeSounds := by
  unfold assertCheck
  split <;> rfl

lemma assertCheck_al (st : SoundState) (p : Prop) [Decidable p] :
    (assertCheck st p).al = st.al := by
  unfold assertCheck
  split <;> rfl

lemma assertCheck_s_sources (st : SoundState) (p : Prop) [Decidable p] :
    (assertCheck st p).s_sources = st.s_sources := by
  unfold assertCheck
  split <;> rfl

lemma assertCheck_s_userValue (st : SoundState) (p : Prop) [Decidable p] :
    (assertCheck st p).s_userValue = st.s_userValue := by
  unfold assertCheck
  split <;> rfl

lemma assertCheck_s_callback (st : SoundState) (p : Prop) [Decidable p] :
    (assertCheck st p).s_callback = st.s_callback := by
  unfold assertCheck
  split <;> rfl

lemma assertCheck_s_init (st : SoundState) (p : Prop) [Decidable p] :
    (assertCheck st p).s_init = st.s_init := by
  unfold assertCheck
  split <;> rfl

lemma assertCheck_s_currentFrame (st : SoundState) (p : Prop) [Decidable p] :
    (assertCheck st p).s_currentFrame = st.s_currentFrame := by
  unfold assertCheck
  split <;> rfl

lemma updateVoiceFire_s_activeSounds (st : SoundState) (s : Nat) :
    (updateVoiceFire st s).s_activeSounds = st.s_activeSounds := by
  unfold updateVoiceFire
  split
  · rw [assertCheck_s_activeSounds]
    rfl
  · rfl

lemma updateVoiceFire_al (st : SoundState) (s : Nat) :
    (updateVoiceFire st s).al = st.al := by
  unfold updateVoiceFire
  split
  · rw [assertCheck_al]
    rfl
  · rfl

lemma updateVoiceFire_s_sources (st : SoundState) (s : Nat) :
    (updateVoiceFire st s).s_sources = st.s_sources := by
  unfold updateVoiceFire
  split
  · rw [assertCheck_s_sources]
    rfl
  · rfl

lemma updateVoiceFire_s_userValue (st : SoundState) (s : Nat) :
    (updateVoiceFire st s).s_userValue = st.s_userValue := by
  unfold updateVoiceFire
  split
  · rw [assertCheck_s_userValue]
    rfl
  · rfl

lemma updateVoiceFire_s_callback (st : SoundState) (s : Nat) :
    (updateVoiceFire st s).s_callback = st.s_callback := by
  unfold updateVoiceFire
  split
  · rw [assertCheck_s_callback]
    rfl
  · rfl

lemma updateVoiceFire_s_init (st : SoundState) (s : Nat) :
    (updateVoiceFire st s).s_init = st.s_init := by
  unfold updateVoiceFire
  split
  · rw [assertCheck_s_init]
    rfl
  · rfl

lemma updateVoiceFire_s_currentFrame (st : SoundState) (s : Nat) :
    (updateVoiceFire st s).s_currentFrame = st.s_currentFrame := by
  unfold updateVoiceFire
  split
  · rw [assertCheck_s_currentFrame]
    rfl
  · rfl

lemma updateVoiceFire_with_callback (st : SoundState) (s : Nat)
    (hcb : st.s_callback = true) (hp : (st.s_activeSounds s).playingFlag = true) :
    (updateVoiceFire st s).callbackLog = st.callbackLog ++ [st.s_userValue s] ∧
    ∀ b, ((updateVoiceFire st s).s_buffers b).refCount =
      (if b = (st.s_activeSounds s).buffer then (st.s_buffers b).refCount - 1
       else (st.s_buffers b).refCount) := by
  have hcond : (st.s_callback
      && checkActiveFlag (st.s_activeSounds s) SoundFlag.SOUND_PLAYING) = true := by
    rw [hcb]
    simpa [checkActiveFlag] using hp
  unfold updateVoiceFire
  rw [if_pos hcond]
  constructor
  · rw [assertCheck_callbackLog]
    rfl
  · intro b
    rw [assertCheck_s_buffers]
    dsimp only [updBufAt, getActiveBuffer]
    by_cases hb : b = (st.s_activeSounds s).buffer
    · subst hb
      rw [if_pos rfl, Function.update_same]
    · rw [if_neg hb, Function.update_noteq hb]

lemma updateVoiceFire_no_callback (st : SoundState) (s : Nat)
    (hcb : st.s_callback = false) : updateVoiceFire st s = st := by
  unfold updateVoiceFire
  rw [if_neg]
  rw [hcb]
  simp

end SoundModel

namespace SoundModel

/-- What one non-retiring iteration of the update loop preserves: everything
except possibly the PAUSED flag of the visited voice. -/
lemma updateVoice_not_finishing (st : SoundState) (w : Nat) (h : ¬ finishing st w) :
    (updateVoice st w).s_buffers = st.s_buffers ∧
    (updateVoice st w).callbackLog = st.callbackLog ∧
    (updateVoice st w).al = st.al ∧
    (updateVoice st w).s_sources = st.s_sources ∧
    (updateVoice st w).s_userValue = st.s_userValue ∧
    (updateVoice st w).s_callback = st.s_callback ∧
    (updateVoice st w).s_init = st.s_init ∧
    (updateVoice st w).s_currentFrame = st.s_currentFrame ∧
    (∀ x, ((updateVoice st w).s_activeSounds x).playingFlag
            = (st.s_activeSounds x).playingFlag) ∧
    (∀ x, ((updateVoice st w).s_activeSounds x).activeFlag
            = (st.s_activeSounds x).activeFlag) ∧
    (∀ x, ((updateVoice st w).s_activeSounds x).buffer = (st.s_activeSounds x).buffer) ∧
    (∀ x, ((updateVoice st w).s_activeSounds x).allocID = (st.s_activeSounds x).allocID) := by
  by_cases hp : (st.s_activeSounds w).playingFlag = true
  · have hstate : alGetSourceState st (st.s_sources w) = SrcState.playing := by
      unfold finishing at h
      push_neg at h
      exact h hp
    have hcond : checkActiveFlag (st.s_activeSounds w) SoundFlag.SOUND_PLAYING = true := hp
    unfold updateVoice
    rw [if_pos hcond, hstate]
    unfold updateVoiceRetire
    rw [if_neg (by simp)]
    unfold updateVoiceResync
    rw [if_pos (by simp)]
    refine ⟨rfl, rfl, rfl, rfl, rfl, rfl, rfl, rfl, ?_, ?_, ?_, ?_⟩ <;>
        intro x <;> by_cases hxw : x = w
    · subst hxw
      rw [updVoice_proj_same]
      rfl
    · rw [updVoice_proj_ne st w _ x hxw]
    · subst hxw
      rw [updVoice_proj_same]
      rfl
    · rw [updVoice_proj_ne st w _ x hxw]
    · subst hxw
      rw [updVoice_proj_same]
      rfl
    · rw [updVoice_proj_ne st w _ x hxw]
    · subst hxw
      rw [updVoice_proj_same]
      rfl
    · rw [updVoice_proj_ne st w _ x hxw]
  · have hcond : ¬ (checkActiveFlag (st.s_activeSounds w) SoundFlag.SOUND_PLAYING = true) := hp
    unfold updateVoice
    rw [if_neg hcond]
    exact ⟨rfl, rfl, rfl, rfl, rfl, rfl, rfl, rfl,
      fun _ => rfl, fun _ => rfl, fun _ => rfl, fun _ => rfl⟩

end SoundModel

namespace SoundModel

/-- What the retiring iteration of the update loop does to the visited voice
and to the rest of the state. -/
lemma updateVoice_fires (st : SoundState) (v : Nat) (hfin : finishing st v) :
    ((updateVoice st v).s_activeSounds v).playingFlag = false ∧
    (∀ x, x ≠ v → ((updateVoice st v).s_activeSounds x).playingFlag
            = (st.s_activeSounds x).playingFlag) ∧
    (∀ x, ((updateVoice st v).s_activeSounds x).activeFlag
            = (st.s_activeSounds x).activeFlag) ∧
    (∀ x, ((updateVoice st v).s_activeSounds x).buffer = (st.s_activeSounds x).buffer) ∧
    (∀ x, ((updateVoice st v).s_activeSounds x).allocID = (st.s_activeSounds x).allocID) ∧
    (updateVoice st v).al = st.al ∧
    (updateVoice st v).s_sources = st.s_sources ∧
    (updateVoice st v).s_userValue = st.s_userValue ∧
    (updateVoice st v).s_callback = st.s_callback ∧
    (updateVoice st v).s_init = st.s_init ∧
    (updateVoice st v).s_currentFrame = st.s_currentFrame ∧
    (st.s_callback = true →
      (updateVoice st v).callbackLog = st.callbackLog ++ [st.s_userValue v] ∧
      ∀ b, ((updateVoice st v).s_buffers b).refCount =
        (if b = (st.s_activeSounds v).buffer then (st.s_buffers b).refCount - 1
         else (st.s_buffers b).refCount)) ∧
    (st.s_callback = false →
      (updateVoice st v).callbackLog = st.callbackLog ∧
      (updateVoice st v).s_buffers = st.s_buffers) := by
  obtain ⟨hp, hne⟩ := hfin
  have hcond : checkActiveFlag (st.s_activeSounds v) SoundFlag.SOUND_PLAYING = true := hp
  have hAS : (updateVoiceFire st v).s_activeSounds = st.s_activeSounds :=
    updateVoiceFire_s_activeSounds st v
  unfold updateVoice
  rw [if_pos hcond]
  unfold updateVoiceRetire
  rw [if_pos hne]
  unfold updateVoiceResync
  by_cases hps : alGetSourceState st (st.s_sources v) ≠ SrcState.paused
  · rw [if_pos hps]
    refine ⟨?_, ?_, ?_, ?_, ?_, ?_, ?_, ?_, ?_, ?_, ?_, ?_, ?_⟩
    · rw [updVoice_proj_same, updVoice_proj_same]
      rfl
    · intro x hxv
      rw [updVoice_proj_ne _ v _ x hxv, updVoice_proj_ne _ v _ x hxv, hAS]
    · intro x
      by_cases hxv : x = v
      · subst hxv
        rw [updVoice_proj_same, updVoice_proj_same, hAS]
        rfl
      · rw [updVoice_proj_ne _ v _ x hxv, updVoice_proj_ne _ v _ x hxv, hAS]
    · intro x
      by_cases hxv : x = v
      · subst hxv
        rw [updVoice_proj_same, updVoice_proj_same, hAS]
        rfl
      · rw [updVoice_proj_ne _ v _ x hxv, updVoice_proj_ne _ v _ x hxv, hAS]
    · intro x
      by_cases hxv : x = v
      · subst hxv
        rw [updVoice_proj_same, updVoice_proj_same, hAS]
        rfl
      · rw [updVoice_proj_ne _ v _ x hxv, updVoice_proj_ne _ v _ x hxv, hAS]
    · exact updateVoiceFire_al st v
    · exact updateVoiceFire_s_sources st v
    · exact updateVoiceFire_s_userValue st v
    · exact updateVoiceFire_s_callback st v
    · exact updateVoiceFire_s_init st v
    · exact updateVoiceFire_s_currentFrame st v
    · intro hcb
      obtain ⟨hlog, hrc⟩ := updateVoiceFire_with_callback st v hcb hp
      exact ⟨hlog, hrc⟩
    · intro hcb
      rw [updateVoiceFire_no_callback st v hcb]
      exact ⟨rfl, rfl⟩
  · rw [if_neg hps]
    refine ⟨?_, ?_, ?_, ?_, ?_, ?_, ?_, ?_, ?_, ?_, ?_, ?_, ?_⟩
    · rw [updVoice_proj_same]
      rfl
    · intro x hxv
      rw [updVoice_proj_ne _ v _ x hxv, hAS]
    · intro x
      by_cases hxv : x = v
      · subst hxv
        rw [updVoice_proj_same, hAS]
        rfl
      · rw [updVoice_proj_ne _ v _ x hxv, hAS]
    · intro x
      by_cases hxv : x = v
      · subst hxv
        rw [updVoice_proj_same, hAS]
        rfl
      · rw [updVoice_proj_ne _ v _ x hxv, hAS]
    · intro x
      by_cases hxv : x = v
      · subst hxv
        rw [updVoice_proj_same, hAS]
        rfl
      · rw [updVoice_proj_ne _ v _ x hxv, hAS]
    · exact updateVoiceFire_al st v
    · exact updateVoiceFire_s_sources st v
    · exact updateVoiceFire_s_userValue st v
    · exact updateVoiceFire_s_callback st v
    · exact updateVoiceFire_s_init st v
    · exact updateVoiceFire_s_currentFrame st v
    · intro hcb
      obtain ⟨hlog, hrc⟩ := updateVoiceFire_with_callback st v hcb hp
      exact ⟨hlog, hrc⟩
    · intro hcb
      rw [updateVoiceFire_no_callback st v hcb]
      exact ⟨rfl, rfl⟩

end SoundModel

namespace SoundModel

/-- Folding the update loop body over indices none of which is retiring
preserves the buffers, the log, and every voice field except PAUSED flags. -/
lemma updateLoop_no_finisher (L : List Nat) :
    ∀ st : SoundState, (∀ w ∈ L, ¬ finishing st w) →
    (L.foldl updateVoice st).s_buffers = st.s_buffers ∧
    (L.foldl updateVoice st).callbackLog = st.callbackLog ∧
    (L.foldl updateVoice st).al = st.al ∧
    (L.foldl updateVoice st).s_sources = st.s_sources ∧
    (L.foldl updateVoice st).s_userValue = st.s_userValue ∧
    (L.foldl updateVoice st).s_callback = st.s_callback ∧
    (L.foldl updateVoice st).s_init = st.s_init ∧
    (L.foldl updateVoice st).s_currentFrame = st.s_currentFrame ∧
    (∀ x, ((L.foldl updateVoice st).s_activeSounds x).playingFlag
            = (st.s_activeSounds x).playingFlag) ∧
    (∀ x, ((L.foldl updateVoice st).s_activeSounds x).activeFlag
            = (st.s_activeSounds x).activeFlag) ∧
    (∀ x, ((L.foldl updateVoice st).s_activeSounds x).buffer
            = (st.s_activeSounds x).buffer) ∧
    (∀ x, ((L.foldl updateVoice st).s_activeSounds x).allocID
            = (st.s_activeSounds x).allocID) := by
  induction L with
  | nil =>
      intro st _
      exact ⟨rfl, rfl, rfl, rfl, rfl, rfl, rfl, rfl,
        fun _ => rfl, fun _ => rfl, fun _ => rfl, fun _ => rfl⟩
  | cons w L ih =>
      intro st h
      have hw := h w (List.mem_cons_self w L)
      obtain ⟨s1, s2, s3, s4, s5, s6, s7, s8, s9, s10, s11, s12⟩ :=
        updateVoice_not_finishing st w hw
      have hL : ∀ x ∈ L, ¬ finishing (updateVoice st w) x := by
        intro x hx hfx
        exact h x (List.mem_cons_of_mem w hx) ((finishing_iff x s3 s4 (s9 x)).mp hfx)
      obtain ⟨i1, i2, i3, i4, i5, i6, i7, i8, i9, i10, i11, i12⟩ :=
        ih (updateVoice st w) hL
      rw [List.foldl_cons]
      exact ⟨i1.trans s1, i2.trans s2, i3.trans s3, i4.trans s4, i5.trans s5,
        i6.trans s6, i7.trans s7, i8.trans s8,
        fun x => (i9 x).trans (s9 x), fun x => (i10 x).trans (s10 x),
        fun x => (i11 x).trans (s11 x), fun x => (i12 x).trans (s12 x)⟩

/-- Folding the update loop body over a list of indices containing exactly one
retiring voice v: v loses PLAYING, every other voice keeps its flags (PAUSED
apart), and the log and refCounts change exactly as the callback block
prescribes. -/
lemma updateLoop_single_finisher (L : List Nat) :
    ∀ st : SoundState, ∀ v, v ∈ L → finishing st v →
    (∀ w ∈ L, w ≠ v → ¬ finishing st w) →
    ((L.foldl updateVoice st).s_activeSounds v).playingFlag = false ∧
    (∀ x, ((L.foldl updateVoice st).s_activeSounds x).activeFlag
            = (st.s_activeSounds x).activeFlag) ∧
    (∀ x, ((L.foldl updateVoice st).s_activeSounds x).buffer
            = (st.s_activeSounds x).buffer) ∧
    (∀ x, ((L.foldl updateVoice st).s_activeSounds x).allocID
            = (st.s_activeSounds x).allocID) ∧
    (L.foldl updateVoice st).al = st.al ∧
    (L.foldl updateVoice st).s_sources = st.s_sources ∧
    (L.foldl updateVoice st).s_userValue = st.s_userValue ∧
    (L.foldl updateVoice st).s_callback = st.s_callback ∧
    (L.foldl updateVoice st).s_init = st.s_init ∧
    (L.foldl updateVoice st).s_currentFrame = st.s_currentFrame ∧
    (st.s_callback = true →
      (L.foldl updateVoice st).callbackLog = st.callbackLog ++ [st.s_userValue v] ∧
      ∀ b, ((L.foldl updateVoice st).s_buffers b).refCount =
        (if b = (st.s_activeSounds v).buffer then (st.s_buffers b).refCount - 1
         else (st.s_buffers b).refCount)) ∧
    (st.s_callback = false →
      (L.foldl updateVoice st).callbackLog = st.callbackLog ∧
      (L.foldl updateVoice st).s_buffers = st.s_buffers) := by
  induction L with
  | nil =>
      intro st v hv
      exact absurd hv (List.not_mem_nil v)
  | cons w L ih =>
      intro st v hv hfin huniq
      rw [List.foldl_cons]
      by_cases hwv : w = v
      · subst hwv
        obtain ⟨f1, f2, f3, f4, f5, f6, f7, f8, f9, f10, f11, f12, f13⟩ :=
          updateVoice_fires st w hfin
        have hL : ∀ x ∈ L, ¬ finishing (updateVoice st w) x := by
          intro x hx hfx
          by_cases hxw : x = w
          · subst hxw
            exact absurd hfx.1 (by rw [f1]; simp)
          · exact huniq x (List.mem_cons_of_mem w hx) hxw
              ((finishing_iff x f6 f7 (f2 x hxw)).mp hfx)
        obtain ⟨a1, a2, a3, a4, a5, a6, a7, a8, a9, a10, a11, a12⟩ :=
          updateLoop_no_finisher L (updateVoice st w) hL
        refine ⟨(a9 w).trans f1, fun x => (a10 x).trans (f3 x),
          fun x => (a11 x).trans (f4 x), fun x => (a12 x).trans (f5 x),
          a3.trans f6, a4.trans f7, a5.trans f8, a6.trans f9, a7.trans f10,
          a8.trans f11, ?_, ?_⟩
        · intro hcb
          obtain ⟨hlog, hrc⟩ := f12 hcb
          refine ⟨a2.trans hlog, ?_⟩
          intro b
          rw [show (L.foldl updateVoice (updateVoice st w)).s_buffers = _ from a1]
          exact hrc b
        · intro hcb
          obtain ⟨hlog, hbuf⟩ := f13 hcb
          exact ⟨a2.trans hlog, a1.trans hbuf⟩
      · have hw : ¬ finishing st w :=
          huniq w (List.mem_cons_self w L) hwv
        obtain ⟨s1, s2, s3, s4, s5, s6, s7, s8, s9, s10, s11, s12⟩ :=
          updateVoice_not_finishing st w hw
        have hv2 : v ∈ L := by
          rcases List.mem_cons.mp hv with h2 | h2
          · exact absurd h2.symm hwv
          · exact h2
        have hfin2 : finishing (updateVoice st w) v :=
          (finishing_iff v s3 s4 (s9 v)).mpr hfin
        have huniq2 : ∀ x ∈ L, x ≠ v → ¬ finishing (updateVoice st w) x := by
          intro x hx hxv hfx
          exact huniq x (List.mem_cons_of_mem w hx) hxv
            ((finishing_iff x s3 s4 (s9 x)).mp hfx)
        obtain ⟨a1, a2, a3, a4, a5, a6, a7, a8, a9, a10, a11, a12⟩ :=
          ih (updateVoice st w) v hv2 hfin2 huniq2
        refine ⟨a1, fun x => (a2 x).trans (s10 x), fun x => (a3 x).trans (s11 x),
          fun x => (a4 x).trans (s12 x), a5.trans s3, a6.trans s4, a7.trans s5,
          a8.trans s6, a9.trans s7, a10.trans s8, ?_, ?_⟩
        · intro hcb
          have hcb2 : (updateVoice st w).s_callback = true := by rw [s6]; exact hcb
          obtain ⟨hlog, hrc⟩ := a11 hcb2
          constructor
          · rw [hlog, s2, s5]
          · intro b
            have := hrc b
            rw [s1, s11 v] at this
            exact this
        · intro hcb
          have hcb2 : (updateVoice st w).s_callback = false := by rw [s6]; exact hcb
          obtain ⟨hlog, hbuf⟩ := a12 hcb2
          exact ⟨hlog.trans s2, hbuf.trans s1⟩

end SoundModel

namespace SoundModel

/-- The voices one update() pass retires: flagged PLAYING while their native
source no longer reports AL_PLAYING, in loop (voice) order. -/
def retiringVoices (st : SoundState) : List Nat :=
  (List.range s_maxSimulSounds).filter (fun v => decide (finishing st v))

/-- How many voices retiring in this pass are bound to buffer b. -/
def retiredCount (st : SoundState) (b : Nat) : Nat :=
  (List.range s_maxSimulSounds).countP
    (fun v => decide (finishing st v) && ((st.s_activeSounds v).buffer == b))

/-- Folding the update loop body over a duplicate-free list of voice indices:
every visited retiring voice loses PLAYING, every other per-voice field is
preserved (PAUSED apart), and with a callback installed the log gains one
entry per retiring voice in list order while each buffer refCount drops by
the number of retiring voices bound to it; with no callback nothing else
changes. -/
lemma updateLoop_retire_all (L : List Nat) : ∀ st : SoundState, L.Nodup →
    ((L.foldl updateVoice st).al = st.al) ∧
    ((L.foldl updateVoice st).s_sources = st.s_sources) ∧
    ((L.foldl updateVoice st).s_userValue = st.s_userValue) ∧
    ((L.foldl updateVoice st).s_callback = st.s_callback) ∧
    ((L.foldl updateVoice st).s_init = st.s_init) ∧
    ((L.foldl updateVoice st).s_currentFrame = st.s_currentFrame) ∧
    (∀ x, ((L.foldl updateVoice st).s_activeSounds x).activeFlag
            = (st.s_activeSounds x).activeFlag) ∧
    (∀ x, ((L.foldl updateVoice st).s_activeSounds x).buffer
            = (st.s_activeSounds x).buffer) ∧
    (∀ x, ((L.foldl updateVoice st).s_activeSounds x).allocID
            = (st.s_activeSounds x).allocID) ∧
    (∀ x, x ∉ L → ((L.foldl updateVoice st).s_activeSounds x).playingFlag
            = (st.s_activeSounds x).playingFlag) ∧
    (∀ x ∈ L, finishing st x →
      ((L.foldl updateVoice st).s_activeSounds x).playingFlag = false) ∧
    (st.s_callback = true →
      (L.foldl updateVoice st).callbackLog
        = st.callbackLog
          ++ (L.filter (fun v => decide (finishing st v))).map st.s_userValue ∧
      ∀ b, ((L.foldl updateVoice st).s_buffers b).refCount
        = (st.s_buffers b).refCount
          - (L.countP (fun v => decide (finishing st v)
              && ((st.s_activeSounds v).buffer == b)) : Int)) ∧
    (st.s_callback = false →
      (L.foldl updateVoice st).callbackLog = st.callbackLog ∧
      (L.foldl updateVoice st).s_buffers = st.s_buffers) := by
  induction L with
  | nil =>
      intro st _
      refine ⟨rfl, rfl, rfl, rfl, rfl, rfl, fun _ => rfl, fun _ => rfl, fun _ => rfl,
        fun x _ => rfl, fun x hx => absurd hx (List.not_mem_nil x), ?_, fun _ => ⟨rfl, rfl⟩⟩
      intro _
      exact ⟨by simp, fun b => by simp⟩
  | cons w L ih =>
      intro st hnd
      obtain ⟨hwL, hndL⟩ := List.nodup_cons.mp hnd
      rw [List.foldl_cons]
      by_cases hfw : finishing st w
      · obtain ⟨f1, f2, f3, f4, f5, f6, f7, f8, f9, f10, f11, f12, f13⟩ :=
          updateVoice_fires st w hfw
        obtain ⟨a1, a2, a3, a4, a5, a6, a7, a8, a9, a10, a11, a12, a13⟩ :=
          ih (updateVoice st w) hndL
        have hiff : ∀ x ∈ L, (finishing (updateVoice st w) x ↔ finishing st x) := by
          intro x hx
          exact finishing_iff x f6 f7 (f2 x (fun hxw => hwL (hxw ▸ hx)))
        refine ⟨a1.trans f6, a2.trans f7, a3.trans f8, a4.trans f9, a5.trans f10,
          a6.trans f11, fun x => (a7 x).trans (f3 x), fun x => (a8 x).trans (f4 x),
          fun x => (a9 x).trans (f5 x), ?_, ?_, ?_, ?_⟩
        · intro x hx
          have hxw : x ≠ w := fun hc => hx (hc ▸ List.mem_cons_self w L)
          have hxL : x ∉ L := fun hc => hx (List.mem_cons_of_mem w hc)
          exact (a10 x hxL).trans (f2 x hxw)
        · intro x hx hfx
          rcases List.mem_cons.mp hx with hxw | hxL
          · subst hxw
            exact (a10 x hwL).trans f1
          · exact a11 x hxL ((hiff x hxL).mpr hfx)
        · intro hcb
          have hcb2 : (updateVoice st w).s_callback = true := by
            rw [f9]
            exact hcb
          obtain ⟨hlog2, hrc2⟩ := a12 hcb2
          obtain ⟨hlogw, hrcw⟩ := f12 hcb
          have hfilter : L.filter (fun v => decide (finishing (updateVoice st w) v))
              = L.filter (fun v => decide (finishing st v)) := by
            refine List.filter_congr ?_
            intro v hv
            exact decide_eq_decide.mpr (hiff v hv)
          have hpw : decide (finishing st w) = true := by simp [hfw]
          constructor
          · rw [hlog2, hfilter, hlogw, f8, List.filter_cons, hpw, if_pos rfl,
              List.map_cons, List.append_assoc, List.singleton_append]
          · intro b
            have h1 := hrc2 b
            have hcount : L.countP (fun v => decide (finishing (updateVoice st w) v)
                && (((updateVoice st w).s_activeSounds v).buffer == b))
                = L.countP (fun v => decide (finishing st v)
                && ((st.s_activeSounds v).buffer == b)) := by
              rw [List.countP_eq_length_filter, List.countP_eq_length_filter]
              refine congrArg List.length (List.filter_congr ?_)
              intro v hv
              rw [decide_eq_decide.mpr (hiff v hv), f4 v]
            rw [h1, hcount, hrcw b, List.countP_cons]
            by_cases hb : b = (st.s_activeSounds w).buffer
            · rw [if_pos hb]
              have hpwb : (decide (finishing st w)
                  && ((st.s_activeSounds w).buffer == b)) = true := by
                simp [hfw, hb]
              rw [hpwb, if_pos rfl]
              push_cast
              omega
            · rw [if_neg hb]
              have hpwb : (decide (finishing st w)
                  && ((st.s_activeSounds w).buffer == b)) = false := by
                simp [hfw]
                intro hc
                exact absurd hc.symm hb
              rw [hpwb, if_neg (by simp)]
              push_cast
              omega
        · intro hcb
          have hcb2 : (updateVoice st w).s_callback = false := by
            rw [f9]
            exact hcb
          obtain ⟨hlog2, hbuf2⟩ := a13 hcb2
          obtain ⟨hlogw, hbufw⟩ := f13 hcb
          exact ⟨hlog2.trans hlogw, hbuf2.trans hbufw⟩
      · obtain ⟨s1, s2, s3, s4, s5, s6, s7, s8, s9, s10, s11, s12⟩ :=
          updateVoice_not_finishing st w hfw
        obtain ⟨a1, a2, a3, a4, a5, a6, a7, a8, a9, a10, a11, a12, a13⟩ :=
          ih (updateVoice st w) hndL
        have hiff : ∀ x, (finishing (updateVoice st w) x ↔ finishing st x) :=
          fun x => finishing_iff x s3 s4 (s9 x)
        refine ⟨a1.trans s3, a2.trans s4, a3.trans s5, a4.trans s6, a5.trans s7,
          a6.trans s8, fun x => (a7 x).trans (s10 x), fun x => (a8 x).trans (s11 x),
          fun x => (a9 x).trans (s12 x), ?_, ?_, ?_, ?_⟩
        · intro x hx
          have hxL : x ∉ L := fun hc => hx (List.mem_cons_of_mem w hc)
          exact (a10 x hxL).trans (s9 x)
        · intro x hx hfx
          rcases List.mem_cons.mp hx with hxw | hxL
          · subst hxw
            exact absurd hfx hfw
          · exact a11 x hxL ((hiff x).mpr hfx)
        · intro hcb
          have hcb2 : (updateVoice st w).s_callback = true := by
            rw [s6]
            exact hcb
          obtain ⟨hlog2, hrc2⟩ := a12 hcb2
          have hfilter : L.filter (fun v => decide (finishing (updateVoice st w) v))
              = L.filter (fun v => decide (finishing st v)) := by
            refine List.filter_congr ?_
            intro v hv
            exact decide_eq_decide.mpr (hiff v)
          have hpw : decide (finishing st w) = false := by
            simp [hfw]
          constructor
          · rw [hlog2, hfilter, s2, s5, List.filter_cons, hpw, if_neg (by simp)]
          · intro b
            have h1 := hrc2 b
            have hcount : L.countP (fun v => decide (finishing (updateVoice st w) v)
                && (((updateVoice st w).s_activeSounds v).buffer == b))
                = L.countP (fun v => decide (finishing st v)
                && ((st.s_activeSounds v).buffer == b)) := by
              rw [List.countP_eq_length_filter, List.countP_eq_length_filter]
              refine congrArg List.length (List.filter_congr ?_)
              intro v hv
              rw [decide_eq_decide.mpr (hiff v), s11 v]
            rw [s1] at h1
            rw [h1, hcount, List.countP_cons]
            have hpwb : (decide (finishing st w)
                && ((st.s_activeSounds w).buffer == b)) = false := by
              simp [hfw]
            rw [hpwb, if_neg (by simp)]
            push_cast
            omega
        · intro hcb
          have hcb2 : (updateVoice st w).s_callback = false := by
            rw [s6]
            exact hcb
          obtain ⟨hlog2, hbuf2⟩ := a13 hcb2
          exact ⟨hlog2.trans s2, hbuf2.trans s1⟩

/-- Claim C2 (amended): during one update() call, every voice flagged PLAYING
whose native source no longer reports AL_PLAYING is retired in the same pass:
each such voice's PLAYING flag is cleared, the global tick counter advances
exactly once per call, and no ACTIVE flag is ever cleared, so every handle's
liveness (isActive) is unchanged until the slot is reallocated.  When a
completion callback is installed it fires exactly once per retiring voice, in
voice order, with that voice's userTag, and each buffer's refCount decreases
by exactly the number of retiring voices bound to it (one per voice); when no
callback is installed the log and every refCount are unchanged - the
decrement sits inside the callback guard. -/
theorem update_natural_completion_amended (st : SoundState)
    (hinit : st.s_init = true) :
    (update st).s_currentFrame = st.s_currentFrame + 1 ∧
    (∀ v, v < s_maxSimulSounds → finishing st v →
      ((update st).s_activeSounds v).playingFlag = false) ∧
    (∀ v, ((update st).s_activeSounds v).activeFlag
        = (st.s_activeSounds v).activeFlag) ∧
    (∀ h, isActiveNoLock (update st) h = isActiveNoLock st h) ∧
    (st.s_callback = true →
      (update st).callbackLog
        = st.callbackLog ++ (retiringVoices st).map st.s_userValue ∧
      ∀ b, ((update st).s_buffers b).refCount
        = (st.s_buffers b).refCount - (retiredCount st b : Int)) ∧
    (st.s_callback = false →
      (update st).callbackLog = st.callbackLog ∧
      ∀ b, ((update st).s_buffers b).refCount = (st.s_buffers b).refCount) := by
  obtain ⟨a1, a2, a3, a4, a5, a6, a7, a8, a9, a10, a11, a12, a13⟩ :=
    updateLoop_retire_all (List.range s_maxSimulSounds) (mutexLock st)
      (List.nodup_range s_maxSimulSounds)
  have hupdate : update st
      = mutexUnlock
          { (List.range s_maxSimulSounds).foldl updateVoice (mutexLock st) with
            s_currentFrame :=
              ((List.range s_maxSimulSounds).foldl updateVoice
                (mutexLock st)).s_currentFrame + 1 } := by
    unfold update
    rw [hinit]
    rfl
  rw [hupdate]
  dsimp only [mutexUnlock]
  refine ⟨?_, ?_, ?_, ?_, ?_, ?_⟩
  · rw [a6]
    exact rfl
  · intro v hv hfv
    exact a11 v (List.mem_range.mpr hv) hfv
  · intro v
    exact a7 v
  · intro h
    unfold isActiveNoLock
    simp only [checkActiveFlag, getActiveBuffer, getActiveAllocID]
    rw [a5, a7 (getHandleSource h), a8 (getHandleSource h), a9 (getHandleSource h)]
    exact rfl
  · intro hcb
    have hcb2 : (mutexLock st).s_callback = true := hcb
    obtain ⟨hlog, hrc⟩ := a12 hcb2
    exact ⟨hlog, fun b => hrc b⟩
  · intro hcb
    have hcb2 : (mutexLock st).s_callback = false := hcb
    obtain ⟨hlog, hbuf⟩ := a13 hcb2
    refine ⟨hlog, ?_⟩
    intro b
    exact congrArg (fun f => (f b).refCount) hbuf

/-- The play of the name a from the fresh state with a completion callback
installed (userTag 7). -/
def cbPlay : SoundState × Nat :=
  playSound2D (setCallback initState) "a" sampleRaw (mkInfo 7) false

/-- A second play of the name b on top of it (userTag 9): voice 1, slot 1. -/
def cbPlayB : SoundState × Nat := playSound2D cbPlay.1 "b" sampleRaw (mkInfo 9) false

/-- Both native sources (names 1 and 2) reach their end on their own. -/
def cbFinish2 : SoundState := nativeSourceFinish (nativeSourceFinish cbPlayB.1 1) 2

/-- Witness for the amended C2 at a concrete two-finisher trace: one update()
call retires both voices, the callback log gains both userTags in voice
order, and each of the two buffers loses exactly one reference. -/
theorem update_natural_completion_amended_witness :
    ((update cbFinish2).s_activeSounds 0).playingFlag = false ∧
    ((update cbFinish2).s_activeSounds 1).playingFlag = false ∧
    isActiveNoLock (update cbFinish2) cbPlay.2 = isActiveNoLock cbFinish2 cbPlay.2 ∧
    (update cbFinish2).callbackLog
      = cbFinish2.callbackLog ++ (retiringVoices cbFinish2).map cbFinish2.s_userValue ∧
    ((update cbFinish2).s_buffers 0).refCount
      = (cbFinish2.s_buffers 0).refCount - (retiredCount cbFinish2 0 : Int) ∧
    ((update cbFinish2).s_buffers 1).refCount
      = (cbFinish2.s_buffers 1).refCount - (retiredCount cbFinish2 1 : Int) := by
  have h := update_natural_completion_amended cbFinish2 rfl
  exact ⟨h.2.1 0 (by decide) (by decide), h.2.1 1 (by decide) (by decide),
    h.2.2.2.1 cbPlay.2, (h.2.2.2.2.1 rfl).1, (h.2.2.2.2.1 rfl).2 0,
    (h.2.2.2.2.1 rfl).2 1⟩

end SoundModel

namespace SoundModel

/-- Contribution of one voice slot to the busy count of buffer b: 1 when the
voice is PLAYING or PAUSED and bound to b. -/
def contrib (v : ActiveSound) (b : Nat) : Int :=
  if (v.playingFlag = true ∨ v.pausedFlag = true) ∧ v.buffer = b then 1 else 0

/-- Number of busy (PLAYING or PAUSED) voices bound to buffer b. -/
def busyCount (st : SoundState) (b : Nat) : Int :=
  ∑ s ∈ Finset.range s_maxSimulSounds, contrib (st.s_activeSounds s) b

lemma contrib_nonneg (v : ActiveSound) (b : Nat) : 0 ≤ contrib v b := by
  unfold contrib
  split <;> omega

lemma contrib_not_busy (v : ActiveSound) (b : Nat)
    (h : v.playingFlag = false ∧ v.pausedFlag = false) : contrib v b = 0 := by
  unfold contrib
  rw [if_neg]
  rintro ⟨hbusy | hbusy, _⟩ <;> simp [h.1, h.2] at hbusy

lemma busyCount_nonneg (st : SoundState) (b : Nat) : 0 ≤ busyCount st b :=
  Finset.sum_nonneg (fun s _ => contrib_nonneg _ b)

lemma busyCount_congr (st1 st2 : SoundState) (b : Nat)
    (h : ∀ s, s < s_maxSimulSounds →
      contrib (st1.s_activeSounds s) b = contrib (st2.s_activeSounds s) b) :
    busyCount st1 b = busyCount st2 b :=
  Finset.sum_congr rfl (fun s hs => h s (Finset.mem_range.mp hs))

lemma busyCount_split (st1 st2 : SoundState) (w : Nat) (hw : w < s_maxSimulSounds) (b : Nat)
    (hothers : ∀ s, s < s_maxSimulSounds → s ≠ w →
      contrib (st1.s_activeSounds s) b = contrib (st2.s_activeSounds s) b) :
    busyCount st1 b
      = busyCount st2 b - contrib (st2.s_activeSounds w) b
          + contrib (st1.s_activeSounds w) b := by
  unfold busyCount
  have hmem : w ∈ Finset.range s_maxSimulSounds := Finset.mem_range.mpr hw
  rw [← Finset.add_sum_erase _ (fun s => contrib (st1.s_activeSounds s) b) hmem,
    ← Finset.add_sum_erase _ (fun s => contrib (st2.s_activeSounds s) b) hmem]
  have herase : ∑ s ∈ (Finset.range s_maxSimulSounds).erase w,
        contrib (st1.s_activeSounds s) b
      = ∑ s ∈ (Finset.range s_maxSimulSounds).erase w,
        contrib (st2.s_activeSounds s) b := by
    refine Finset.sum_congr rfl ?_
    intro s hs
    obtain ⟨hsw, hsr⟩ := Finset.mem_erase.mp hs
    exact hothers s (Finset.mem_range.mp hsr) hsw
  rw [herase]
  ring

/-- The global invariant behind claim C5: the AL source names are the ones
issued at init (s+1 for voice s); a PLAYING-flagged voice never has a paused
native source; every buffer refCount dominates the number of busy voices
bound to it; the buffer index fields are the slot positions; and the name
index only stores slot positions below 256. -/
def Inv (st : SoundState) : Prop :=
  (∀ s, st.s_sources s = s + 1) ∧
  (∀ s, s < s_maxSimulSounds → (st.s_activeSounds s).playingFlag = true →
    alGetSourceState st (st.s_sources s) ≠ SrcState.paused) ∧
  (∀ b, busyCount st b ≤ (st.s_buffers b).refCount) ∧
  (∀ i, (st.s_buffers i).index = i) ∧
  (∀ nm i, st.s_bufferMap nm = some i → i < s_numBuffers)

lemma Inv_initState : Inv initState := by
  refine ⟨fun s => rfl, ?_, ?_, fun i => rfl, ?_⟩
  · intro s hs hp
    exact absurd hp (by simp [initState, activeSoundZero])
  · intro b
    have : busyCount initState b = 0 := by
      refine busyCount_congr initState initState b ?_ |>.trans ?_
      · intro s _
        rfl
      · unfold busyCount
        refine Finset.sum_eq_zero ?_
        intro s _
        exact contrib_not_busy _ b ⟨rfl, rfl⟩
    rw [this]
    exact le_refl 0
  · intro nm i h
    exact absurd h (by simp [initState])

lemma alGetSourceState_modify (st : SoundState) (n : Nat) (f : ALSource → ALSource)
    (m : Nat) :
    alGetSourceState (alSourceModify st n f) m
      = if m = n then
          (match st.al n with
           | some src => (f src).srcState
           | none => SrcState.initial)
        else alGetSourceState st m := by
  unfold alGetSourceState alSourceModify
  by_cases h : m = n
  · subst h
    rw [if_pos rfl]
    show (match Function.update st.al m ((st.al m).map f) m with
          | some s => s.srcState
          | none => SrcState.initial) = _
    rw [Function.update_same]
    cases st.al m <;> rfl
  · rw [if_neg h]
    show (match Function.update st.al n ((st.al n).map f) m with
          | some s => s.srcState
          | none => SrcState.initial) = _
    rw [Function.update_noteq h]

lemma alGetSourceState_modify_pres (st : SoundState) (n : Nat) (f : ALSource → ALSource)
    (hf : ∀ src, (f src).srcState = src.srcState) (m : Nat) :
    alGetSourceState (alSourceModify st n f) m = alGetSourceState st m := by
  rw [alGetSourceState_modify]
  by_cases h : m = n
  · subst h
    rw [if_pos rfl]
    unfold alGetSourceState
    cases st.al m with
    | none => rfl
    | some src => exact hf src
  · rw [if_neg h]

end SoundModel

namespace SoundModel

lemma Inv_transfer (st1 st2 : SoundState)
    (hsrc : st1.s_sources = st2.s_sources)
    (hAS : ∀ s, s < s_maxSimulSounds → st1.s_activeSounds s = st2.s_activeSounds s)
    (hrc : ∀ b, (st1.s_buffers b).refCount = (st2.s_buffers b).refCount)
    (hidx : ∀ i, (st1.s_buffers i).index = (st2.s_buffers i).index)
    (hmap : st1.s_bufferMap = st2.s_bufferMap)
    (hpause : ∀ m, alGetSourceState st1 m = SrcState.paused →
      alGetSourceState st2 m = SrcState.paused)
    (h : Inv st2) : Inv st1 := by
  obtain ⟨i0, i1, i2, i3, i4⟩ := h
  refine ⟨?_, ?_, ?_, ?_, ?_⟩
  · intro s
    rw [hsrc]
    exact i0 s
  · intro s hs hp hps
    refine i1 s hs ?_ ?_
    · rw [← hAS s hs]
      exact hp
    · have h2 := hpause (st1.s_sources s) hps
      rw [hsrc] at h2
      exact h2
  · intro b
    have hbc : busyCount st1 b = busyCount st2 b :=
      busyCount_congr _ _ b (fun s hs => by rw [hAS s hs])
    rw [hbc, hrc]
    exact i2 b
  · intro i
    rw [hidx]
    exact i3 i
  · intro nm i hm
    rw [hmap] at hm
    exact i4 nm i hm

lemma Inv_mutexUnlock (st : SoundState) : Inv (mutexUnlock st) ↔ Inv st := Iff.rfl

lemma Inv_mutexLock (st : SoundState) : Inv (mutexLock st) ↔ Inv st := Iff.rfl

lemma Inv_assertCheck (st : SoundState) (p : Prop) [Decidable p] :
    Inv (assertCheck st p) ↔ Inv st := by
  unfold assertCheck
  split <;> exact Iff.rfl

lemma updBufAt_refCount_pres (st : SoundState) (i : Nat) (f : SoundBuffer → SoundBuffer)
    (hf : ∀ bf, (f bf).refCount = bf.refCount) (b : Nat) :
    ((updBufAt st i f).s_buffers b).refCount = (st.s_buffers b).refCount := by
  by_cases hb : b = i
  · subst hb
    rw [updBufAt_proj_same]
    exact hf _
  · rw [updBufAt_proj_ne _ _ _ _ hb]

lemma updBufAt_index_pres (st : SoundState) (i : Nat) (f : SoundBuffer → SoundBuffer)
    (hf : ∀ bf, (f bf).index = bf.index) (b : Nat) :
    ((updBufAt st i f).s_buffers b).index = (st.s_buffers b).index := by
  by_cases hb : b = i
  · subst hb
    rw [updBufAt_proj_same]
    exact hf _
  · rw [updBufAt_proj_ne _ _ _ _ hb]

lemma Inv_setCallback (st : SoundState) (h : Inv st) : Inv (setCallback st) := h

lemma Inv_nativeSourceFinish (st : SoundState) (n : Nat) (h : Inv st) :
    Inv (nativeSourceFinish st n) := by
  refine Inv_transfer _ st rfl (fun s _ => rfl) (fun b => rfl) (fun i => rfl) rfl ?_ h
  intro m hp
  unfold nativeSourceFinish at hp
  rw [alGetSourceState_modify] at hp
  by_cases hmn : m = n
  · rw [if_pos hmn] at hp
    subst hmn
    cases hal : st.al m with
    | none =>
        rw [hal] at hp
        exact absurd hp (by simp)
    | some src =>
        rw [hal] at hp
        dsimp only at hp
        by_cases hsp : src.srcState = SrcState.playing
        · rw [if_pos hsp] at hp
          exact absurd hp (by simp)
        · rw [if_neg hsp] at hp
          unfold alGetSourceState
          rw [hal]
          exact hp
  · rw [if_neg hmn] at hp
    exact hp

/-- The rescale loop of setGlobalVolume with a fixed scale factor. -/
def gainStep (scale : Rat) (st : SoundState) (s : Nat) : SoundState :=
  alSourceSetGain st s (min (alGetSourceGain st s * scale) 1)

lemma gainLoop_pres (scale : Rat) (L : List Nat) :
    ∀ st : SoundState,
    (L.foldl (gainStep scale) st).s_sources = st.s_sources ∧
    (∀ x, (L.foldl (gainStep scale) st).s_activeSounds x = st.s_activeSounds x) ∧
    (L.foldl (gainStep scale) st).s_buffers = st.s_buffers ∧
    (L.foldl (gainStep scale) st).s_bufferMap = st.s_bufferMap ∧
    (∀ m, alGetSourceState (L.foldl (gainStep scale) st) m = alGetSourceState st m) := by
  induction L with
  | nil =>
      intro st
      exact ⟨rfl, fun _ => rfl, rfl, rfl, fun _ => rfl⟩
  | cons w L ih =>
      intro st
      rw [List.foldl_cons]
      obtain ⟨a1, a2, a3, a4, a5⟩ := ih (gainStep scale st w)
      refine ⟨a1.trans rfl, fun x => (a2 x).trans rfl, a3.trans rfl, a4.trans rfl, ?_⟩
      intro m
      refine (a5 m).trans ?_
      exact alGetSourceState_modify_pres st w
        (fun src => { src with gain := min (alGetSourceGain st w * scale) 1 })
        (fun src => rfl) m

lemma Inv_setGlobalVolume (st : SoundState) (v : Rat) (h : Inv st) :
    Inv (setGlobalVolume st v) := by
  simp only [setGlobalVolume]
  split
  · rw [Inv_mutexUnlock]
    show Inv { (List.range s_maxSimulSounds).foldl
        (gainStep (if st.s_globalVolume > 0 then v * 0.80 / st.s_globalVolume else 1))
        (mutexLock st) with s_globalVolume := v * 0.80 }
    obtain ⟨a1, a2, a3, a4, a5⟩ :=
      gainLoop_pres (if st.s_globalVolume > 0 then v * 0.80 / st.s_globalVolume else 1)
        (List.range s_maxSimulSounds) (mutexLock st)
    refine Inv_transfer _ st a1 (fun s _ => a2 s)
      (fun b => by rw [a3]; exact rfl)
      (fun i => by rw [a3]; exact rfl) a4 ?_ h
    intro m hp
    exact (a5 m).symm.trans hp
  · exact h

lemma Inv_setVolume (st : SoundState) (handle : Nat) (v : Rat) (h : Inv st) :
    Inv (setVolume st handle v) := by
  simp only [setVolume]
  split
  · rw [Inv_mutexUnlock, Inv_mutexLock]
    exact h
  · rw [Inv_mutexUnlock]
    refine Inv_transfer _ st rfl (fun s _ => rfl)
      (fun b => by
        refine updBufAt_refCount_pres _ _ _ ?_ b
        intro bf
        rfl)
      (fun i => by
        refine updBufAt_index_pres _ _ _ ?_ i
        intro bf
        rfl) rfl ?_ h
    intro m hp
    have h2 := alGetSourceState_modify_pres (mutexLock st)
      ((mutexLock st).s_sources (getHandleSource handle))
      (fun src => { src with gain := min (v * (mutexLock st).s_globalVolume) 1 })
      (fun src => rfl) m
    exact h2.symm.trans hp

lemma Inv_setPan (st : SoundState) (handle : Nat) (p : Rat) (h : Inv st) :
    Inv (setPan st handle p) := by
  simp only [setPan]
  split
  · rw [Inv_mutexUnlock, Inv_mutexLock]
    exact h
  · rw [Inv_mutexUnlock]
    refine Inv_transfer _ st rfl (fun s _ => rfl)
      (fun b => by
        refine updBufAt_refCount_pres _ _ _ ?_ b
        intro bf
        rfl)
      (fun i => by
        refine updBufAt_index_pres _ _ _ ?_ i
        intro bf
        rfl) rfl ?_ h
    intro m hp
    have h2 := alGetSourceState_modify_pres (mutexLock st)
      ((mutexLock st).s_sources (getHandleSource handle))
      (fun src => { src with posX := p })
      (fun src => rfl) m
    exact h2.symm.trans hp

end SoundModel

namespace SoundModel

lemma getHandleSource_lt (handle : Nat) : getHandleSource handle < s_maxSimulSounds := by
  unfold getHandleSource s_maxSimulSounds
  have := Nat.and_le_right (n := handle >>> 8) (m := 31)
  omega

lemma bool_of_not_not {x : Bool} (h : ¬ ((!x) = true)) : x = true := by
  cases x
  · simp at h
  · rfl

lemma isActiveNoLock_spec (st : SoundState) (handle : Nat)
    (hl : isActiveNoLock st handle = true) :
    (st.s_activeSounds (getHandleSource handle)).activeFlag = true ∧
    (st.s_activeSounds (getHandleSource handle)).buffer = getHandleBuffer handle ∧
    (st.s_activeSounds (getHandleSource handle)).allocID = getHandleAllocID handle ∧
    st.s_init = true := by
  unfold isActiveNoLock at hl
  split at hl
  · exact absurd hl (by simp)
  · rename_i hcond
    simp only [Bool.and_eq_true, beq_iff_eq] at hl
    obtain ⟨⟨h1, h2⟩, h3⟩ := hl
    refine ⟨h3, h2.symm, h1.symm, ?_⟩
    by_contra hi
    apply hcond
    have : st.s_init = false := by
      cases hii : st.s_init
      · rfl
      · exact absurd hii hi
    rw [this]
    simp

lemma contrib_of_eq_fields (v1 v2 : ActiveSound) (b : Nat)
    (hbusy : (v1.playingFlag = true ∨ v1.pausedFlag = true)
      ↔ (v2.playingFlag = true ∨ v2.pausedFlag = true))
    (hbuf : v1.buffer = v2.buffer) : contrib v1 b = contrib v2 b := by
  unfold contrib
  by_cases hb : v2.buffer = b
  · by_cases hbusy2 : v2.playingFlag = true ∨ v2.pausedFlag = true
    · rw [if_pos ⟨hbusy.mpr hbusy2, hbuf.trans hb⟩, if_pos ⟨hbusy2, hb⟩]
    · rw [if_neg (fun hc => hbusy2 (hbusy.mp hc.1)), if_neg (fun hc => hbusy2 hc.1)]
  · rw [if_neg (fun hc => hb (hbuf.symm.trans hc.2)), if_neg (fun hc => hb hc.2)]

/-- Invariant preservation for the live path of pauseSound. -/
lemma Inv_pause_core (st : SoundState) (handle : Nat) (fr : Nat) (hInv : Inv st)
    (hpl : (st.s_activeSounds (getHandleSource handle)).playingFlag = true) :
    Inv (updBufAt
          (updVoice (alSourcePause st (st.s_sources (getHandleSource handle)))
            (getHandleSource handle)
            (fun v => setActiveFlag (clearActiveFlag v SoundFlag.SOUND_PLAYING)
              SoundFlag.SOUND_PAUSED))
          (getHandleBuffer handle)
          (fun b => { b with lastUsed := fr })) := by
  obtain ⟨i0, i1, i2, i3, i4⟩ := hInv
  have hsrc : getHandleSource handle < s_maxSimulSounds := getHandleSource_lt handle
  refine ⟨fun s => i0 s, ?_, ?_, ?_, fun nm i hm => i4 nm i hm⟩
  · intro s hs hp
    have hread : ∀ x,
        (updBufAt
          (updVoice (alSourcePause st (st.s_sources (getHandleSource handle)))
            (getHandleSource handle)
            (fun v => setActiveFlag (clearActiveFlag v SoundFlag.SOUND_PLAYING)
              SoundFlag.SOUND_PAUSED))
          (getHandleBuffer handle)
          (fun b => { b with lastUsed := fr })).s_activeSounds x
        = (updVoice (alSourcePause st (st.s_sources (getHandleSource handle)))
            (getHandleSource handle)
            (fun v => setActiveFlag (clearActiveFlag v SoundFlag.SOUND_PLAYING)
              SoundFlag.SOUND_PAUSED)).s_activeSounds x := fun _ => rfl
    rw [hread] at hp
    by_cases hss : s = getHandleSource handle
    · subst hss
      rw [updVoice_proj_same] at hp
      simp [setActiveFlag, clearActiveFlag] at hp
    · rw [updVoice_proj_ne _ _ _ _ hss] at hp
      intro hps
      refine i1 s hs hp ?_
      have hps2 : alGetSourceState
          (alSourcePause st (st.s_sources (getHandleSource handle))) (st.s_sources s)
          = SrcState.paused := hps
      unfold alSourcePause at hps2
      rw [alGetSourceState_modify] at hps2
      rw [if_neg (by rw [i0 s, i0 (getHandleSource handle)]; omega)] at hps2
      exact hps2
  · intro b
    have hrc : ((updBufAt
          (updVoice (alSourcePause st (st.s_sources (getHandleSource handle)))
            (getHandleSource handle)
            (fun v => setActiveFlag (clearActiveFlag v SoundFlag.SOUND_PLAYING)
              SoundFlag.SOUND_PAUSED))
          (getHandleBuffer handle)
          (fun b => { b with lastUsed := fr })).s_buffers b).refCount
        = (st.s_buffers b).refCount := by
      refine updBufAt_refCount_pres _ _ _ ?_ b
      intro bf
      rfl
    rw [hrc]
    have hbc : busyCount (updBufAt
          (updVoice (alSourcePause st (st.s_sources (getHandleSource handle)))
            (getHandleSource handle)
            (fun v => setActiveFlag (clearActiveFlag v SoundFlag.SOUND_PLAYING)
              SoundFlag.SOUND_PAUSED))
          (getHandleBuffer handle)
          (fun b => { b with lastUsed := fr })) b = busyCount st b := by
      refine busyCount_congr _ _ b ?_
      intro s hs
      by_cases hss : s = getHandleSource handle
      · subst hss
        show contrib ((updVoice (alSourcePause st (st.s_sources (getHandleSource handle)))
            (getHandleSource handle)
            (fun v => setActiveFlag (clearActiveFlag v SoundFlag.SOUND_PLAYING)
              SoundFlag.SOUND_PAUSED)).s_activeSounds (getHandleSource handle)) b
          = contrib (st.s_activeSounds (getHandleSource handle)) b
        rw [updVoice_proj_same]
        refine contrib_of_eq_fields _ _ b ?_ rfl
        simp [setActiveFlag, clearActiveFlag, hpl]
      · show contrib ((updVoice (alSourcePause st (st.s_sources (getHandleSource handle)))
            (getHandleSource handle)
            (fun v => setActiveFlag (clearActiveFlag v SoundFlag.SOUND_PLAYING)
              SoundFlag.SOUND_PAUSED)).s_activeSounds s) b
          = contrib (st.s_activeSounds s) b
        rw [updVoice_proj_ne _ _ _ _ hss]
        exact rfl
    rw [hbc]
    exact i2 b
  · intro i
    have : ((updBufAt
          (updVoice (alSourcePause st (st.s_sources (getHandleSource handle)))
            (getHandleSource handle)
            (fun v => setActiveFlag (clearActiveFlag v SoundFlag.SOUND_PLAYING)
              SoundFlag.SOUND_PAUSED))
          (getHandleBuffer handle)
          (fun b => { b with lastUsed := fr })).s_buffers i).index
        = (st.s_buffers i).index := by
      refine updBufAt_index_pres _ _ _ ?_ i
      intro bf
      rfl
    rw [this]
    exact i3 i

lemma Inv_pauseSound (st : SoundState) (handle : Nat) (h : Inv st) :
    Inv (pauseSound st handle) := by
  simp only [pauseSound]
  split
  · rw [Inv_mutexUnlock, Inv_mutexLock]
    exact h
  · split
    · rw [Inv_mutexUnlock, Inv_mutexLock]
      exact h
    · rename_i hg1 hg2
      rw [Inv_mutexUnlock]
      have hpl : (st.s_activeSounds (getHandleSource handle)).playingFlag = true :=
        bool_of_not_not hg2
      exact Inv_pause_core st handle st.s_currentFrame h hpl

end SoundModel

namespace SoundModel

lemma contrib_busy_buffer (v : ActiveSound) (b : Nat) (h : v.playingFlag = true) :
    contrib v b = if v.buffer = b then 1 else 0 := by
  unfold contrib
  by_cases hb : v.buffer = b
  · rw [if_pos ⟨Or.inl h, hb⟩, if_pos hb]
  · rw [if_neg (fun hc => hb hc.2), if_neg hb]

/-- Invariant preservation for the live path of resumeSound. -/
lemma Inv_resume_core (st : SoundState) (handle : Nat) (fr : Nat) (hInv : Inv st)
    (hpd : (st.s_activeSounds (getHandleSource handle)).pausedFlag = true) :
    Inv (updBufAt
          (updVoice (alSourcePlay st (st.s_sources (getHandleSource handle)))
            (getHandleSource handle)
            (fun v => clearActiveFlag (setActiveFlag v SoundFlag.SOUND_PLAYING)
              SoundFlag.SOUND_PAUSED))
          (getHandleBuffer handle)
          (fun b => { b with lastUsed := fr })) := by
  obtain ⟨i0, i1, i2, i3, i4⟩ := hInv
  refine ⟨fun s => i0 s, ?_, ?_, ?_, fun nm i hm => i4 nm i hm⟩
  · intro s hs hp hps
    have hread : ∀ x,
        (updBufAt
          (updVoice (alSourcePlay st (st.s_sources (getHandleSource handle)))
            (getHandleSource handle)
            (fun v => clearActiveFlag (setActiveFlag v SoundFlag.SOUND_PLAYING)
              SoundFlag.SOUND_PAUSED))
          (getHandleBuffer handle)
          (fun b => { b with lastUsed := fr })).s_activeSounds x
        = (updVoice (alSourcePlay st (st.s_sources (getHandleSource handle)))
            (getHandleSource handle)
            (fun v => clearActiveFlag (setActiveFlag v SoundFlag.SOUND_PLAYING)
              SoundFlag.SOUND_PAUSED)).s_activeSounds x := fun _ => rfl
    rw [hread] at hp
    have hps2 : alGetSourceState
        (alSourcePlay st (st.s_sources (getHandleSource handle))) (st.s_sources s)
        = SrcState.paused := hps
    unfold alSourcePlay at hps2
    rw [alGetSourceState_modify] at hps2
    by_cases hss : s = getHandleSource handle
    · rw [if_pos (by rw [hss])] at hps2
      cases hal : st.al (st.s_sources (getHandleSource handle)) with
      | none =>
          rw [hal] at hps2
          exact absurd hps2 (by simp)
      | some src =>
          rw [hal] at hps2
          exact absurd hps2 (by simp)
    · rw [if_neg (by rw [i0 s, i0 (getHandleSource handle)]; omega)] at hps2
      rw [updVoice_proj_ne _ _ _ _ hss] at hp
      exact i1 s hs hp hps2
  · intro b
    have hrc : ((updBufAt
          (updVoice (alSourcePlay st (st.s_sources (getHandleSource handle)))
            (getHandleSource handle)
            (fun v => clearActiveFlag (setActiveFlag v SoundFlag.SOUND_PLAYING)
              SoundFlag.SOUND_PAUSED))
          (getHandleBuffer handle)
          (fun b => { b with lastUsed := fr })).s_buffers b).refCount
        = (st.s_buffers b).refCount := by
      refine updBufAt_refCount_pres _ _ _ ?_ b
      intro bf
      rfl
    rw [hrc]
    have hbc : busyCount (updBufAt
          (updVoice (alSourcePlay st (st.s_sources (getHandleSource handle)))
            (getHandleSource handle)
            (fun v => clearActiveFlag (setActiveFlag v SoundFlag.SOUND_PLAYING)
              SoundFlag.SOUND_PAUSED))
          (getHandleBuffer handle)
          (fun b => { b with lastUsed := fr })) b = busyCount st b := by
      refine busyCount_congr _ _ b ?_
      intro s hs
      by_cases hss : s = getHandleSource handle
      · subst hss
        show contrib ((updVoice (alSourcePlay st (st.s_sources (getHandleSource handle)))
            (getHandleSource handle)
            (fun v => clearActiveFlag (setActiveFlag v SoundFlag.SOUND_PLAYING)
              SoundFlag.SOUND_PAUSED)).s_activeSounds (getHandleSource handle)) b
          = contrib (st.s_activeSounds (getHandleSource handle)) b
        rw [updVoice_proj_same]
        refine contrib_of_eq_fields _ _ b ?_ rfl
        simp [setActiveFlag, clearActiveFlag, hpd]
      · show contrib ((updVoice (alSourcePlay st (st.s_sources (getHandleSource handle)))
            (getHandleSource handle)
            (fun v => clearActiveFlag (setActiveFlag v SoundFlag.SOUND_PLAYING)
              SoundFlag.SOUND_PAUSED)).s_activeSounds s) b
          = contrib (st.s_activeSounds s) b
        rw [updVoice_proj_ne _ _ _ _ hss]
        exact rfl
    rw [hbc]
    exact i2 b
  · intro i
    have : ((updBufAt
          (updVoice (alSourcePlay st (st.s_sources (getHandleSource handle)))
            (getHandleSource handle)
            (fun v => clearActiveFlag (setActiveFlag v SoundFlag.SOUND_PLAYING)
              SoundFlag.SOUND_PAUSED))
          (getHandleBuffer handle)
          (fun b => { b with lastUsed := fr })).s_buffers i).index
        = (st.s_buffers i).index := by
      refine updBufAt_index_pres _ _ _ ?_ i
      intro bf
      rfl
    rw [this]
    exact i3 i

lemma Inv_resumeSound (st : SoundState) (handle : Nat) (h : Inv st) :
    Inv (resumeSound st handle) := by
  simp only [resumeSound]
  split
  · rw [Inv_mutexUnlock, Inv_mutexLock]
    exact h
  · split
    · rw [Inv_mutexUnlock, Inv_mutexLock]
      exact h
    · rename_i hg1 hg2
      rw [Inv_mutexUnlock]
      have hpd : (st.s_activeSounds (getHandleSource handle)).pausedFlag = true :=
        bool_of_not_not hg2
      exact Inv_resume_core st handle st.s_currentFrame h hpd

end SoundModel

namespace SoundModel

/-- Invariant preservation for the live path of stopSound. -/
lemma Inv_stop_core (st : SoundState) (handle : Nat) (hInv : Inv st)
    (hl : isActiveNoLock st handle = true)
    (hpl : (st.s_activeSounds (getHandleSource handle)).playingFlag = true) :
    Inv (updBufAt
          (updVoice
            (alSourceSetBuffer (alSourceStop st (st.s_sources (getHandleSource handle)))
              (st.s_sources (getHandleSource handle)) 0)
            (getHandleSource handle)
            (fun v => clearActiveFlag
              (clearActiveFlag (clearActiveFlag v SoundFlag.SOUND_PLAYING)
                SoundFlag.SOUND_LOOPING)
              SoundFlag.SOUND_PAUSED))
          (getHandleBuffer handle)
          (fun b => { b with refCount := b.refCount - 1 })) := by
  obtain ⟨i0, i1, i2, i3, i4⟩ := hInv
  have hsrc : getHandleSource handle < s_maxSimulSounds := getHandleSource_lt handle
  have hbuf : (st.s_activeSounds (getHandleSource handle)).buffer = getHandleBuffer handle :=
    (isActiveNoLock_spec st handle hl).2.1
  refine ⟨fun s => i0 s, ?_, ?_, ?_, fun nm i hm => i4 nm i hm⟩
  · intro s hs hp hps
    have hread : ∀ x,
        (updBufAt
          (updVoice
            (alSourceSetBuffer (alSourceStop st (st.s_sources (getHandleSource handle)))
              (st.s_sources (getHandleSource handle)) 0)
            (getHandleSource handle)
            (fun v => clearActiveFlag
              (clearActiveFlag (clearActiveFlag v SoundFlag.SOUND_PLAYING)
                SoundFlag.SOUND_LOOPING)
              SoundFlag.SOUND_PAUSED))
          (getHandleBuffer handle)
          (fun b => { b with refCount := b.refCount - 1 })).s_activeSounds x
        = (updVoice
            (alSourceSetBuffer (alSourceStop st (st.s_sources (getHandleSource handle)))
              (st.s_sources (getHandleSource handle)) 0)
            (getHandleSource handle)
            (fun v => clearActiveFlag
              (clearActiveFlag (clearActiveFlag v SoundFlag.SOUND_PLAYING)
                SoundFlag.SOUND_LOOPING)
              SoundFlag.SOUND_PAUSED)).s_activeSounds x := fun _ => rfl
    rw [hread] at hp
    by_cases hss : s = getHandleSource handle
    · subst hss
      rw [updVoice_proj_same] at hp
      simp [clearActiveFlag] at hp
    · rw [updVoice_proj_ne _ _ _ _ hss] at hp
      have hp2 : (st.s_activeSounds s).playingFlag = true := hp
      have hps2 : alGetSourceState
          (alSourceSetBuffer (alSourceStop st (st.s_sources (getHandleSource handle)))
            (st.s_sources (getHandleSource handle)) 0)
          (st.s_sources s) = SrcState.paused := hps
      unfold alSourceSetBuffer at hps2
      rw [alGetSourceState_modify] at hps2
      rw [if_neg (by rw [i0 s, i0 (getHandleSource handle)]; omega)] at hps2
      unfold alSourceStop at hps2
      rw [alGetSourceState_modify] at hps2
      rw [if_neg (by rw [i0 s, i0 (getHandleSource handle)]; omega)] at hps2
      exact i1 s hs hp2 hps2
  · intro b
    have hothers : ∀ s, s < s_maxSimulSounds → s ≠ getHandleSource handle →
        contrib ((updBufAt
          (updVoice
            (alSourceSetBuffer (alSourceStop st (st.s_sources (getHandleSource handle)))
              (st.s_sources (getHandleSource handle)) 0)
            (getHandleSource handle)
            (fun v => clearActiveFlag
              (clearActiveFlag (clearActiveFlag v SoundFlag.SOUND_PLAYING)
                SoundFlag.SOUND_LOOPING)
              SoundFlag.SOUND_PAUSED))
          (getHandleBuffer handle)
          (fun b => { b with refCount := b.refCount - 1 })).s_activeSounds s) b
        = contrib (st.s_activeSounds s) b := by
      intro s hs hss
      show contrib ((updVoice
            (alSourceSetBuffer (alSourceStop st (st.s_sources (getHandleSource handle)))
              (st.s_sources (getHandleSource handle)) 0)
            (getHandleSource handle)
            (fun v => clearActiveFlag
              (clearActiveFlag (clearActiveFlag v SoundFlag.SOUND_PLAYING)
                SoundFlag.SOUND_LOOPING)
              SoundFlag.SOUND_PAUSED)).s_activeSounds s) b
        = contrib (st.s_activeSounds s) b
      rw [updVoice_proj_ne _ _ _ _ hss]
      exact rfl
    have hc0 : contrib ((updBufAt
          (updVoice
            (alSourceSetBuffer (alSourceStop st (st.s_sources (getHandleSource handle)))
              (st.s_sources (getHandleSource handle)) 0)
            (getHandleSource handle)
            (fun v => clearActiveFlag
              (clearActiveFlag (clearActiveFlag v SoundFlag.SOUND_PLAYING)
                SoundFlag.SOUND_LOOPING)
              SoundFlag.SOUND_PAUSED))
          (getHandleBuffer handle)
          (fun b => { b with refCount := b.refCount - 1 })).s_activeSounds
            (getHandleSource handle)) b = 0 := by
      show contrib ((updVoice
            (alSourceSetBuffer (alSourceStop st (st.s_sources (getHandleSource handle)))
              (st.s_sources (getHandleSource handle)) 0)
            (getHandleSource handle)
            (fun v => clearActiveFlag
              (clearActiveFlag (clearActiveFlag v SoundFlag.SOUND_PLAYING)
                SoundFlag.SOUND_LOOPING)
              SoundFlag.SOUND_PAUSED)).s_activeSounds (getHandleSource handle)) b = 0
      rw [updVoice_proj_same]
      exact contrib_not_busy _ _ ⟨rfl, rfl⟩
    have hc1 : contrib (st.s_activeSounds (getHandleSource handle)) b
        = if getHandleBuffer handle = b then 1 else 0 := by
      rw [contrib_busy_buffer _ _ hpl, hbuf]
    have hsplit := busyCount_split
      (updBufAt
          (updVoice
            (alSourceSetBuffer (alSourceStop st (st.s_sources (getHandleSource handle)))
              (st.s_sources (getHandleSource handle)) 0)
            (getHandleSource handle)
            (fun v => clearActiveFlag
              (clearActiveFlag (clearActiveFlag v SoundFlag.SOUND_PLAYING)
                SoundFlag.SOUND_LOOPING)
              SoundFlag.SOUND_PAUSED))
          (getHandleBuffer handle)
          (fun b => { b with refCount := b.refCount - 1 }))
      st (getHandleSource handle) hsrc b hothers
    rw [hc0, hc1] at hsplit
    by_cases hb : b = getHandleBuffer handle
    · subst hb
      have hrc : ((updBufAt
          (updVoice
            (alSourceSetBuffer (alSourceStop st (st.s_sources (getHandleSource handle)))
              (st.s_sources (getHandleSource handle)) 0)
            (getHandleSource handle)
            (fun v => clearActiveFlag
              (clearActiveFlag (clearActiveFlag v SoundFlag.SOUND_PLAYING)
                SoundFlag.SOUND_LOOPING)
              SoundFlag.SOUND_PAUSED))
          (getHandleBuffer handle)
          (fun b => { b with refCount := b.refCount - 1 })).s_buffers
            (getHandleBuffer handle)).refCount
          = (st.s_buffers (getHandleBuffer handle)).refCount - 1 := by
        rw [updBufAt_proj_same]
        exact rfl
      rw [hrc, hsplit, if_pos rfl]
      have := i2 (getHandleBuffer handle)
      omega
    · have hrc : ((updBufAt
          (updVoice
            (alSourceSetBuffer (alSourceStop st (st.s_sources (getHandleSource handle)))
              (st.s_sources (getHandleSource handle)) 0)
            (getHandleSource handle)
            (fun v => clearActiveFlag
              (clearActiveFlag (clearActiveFlag v SoundFlag.SOUND_PLAYING)
                SoundFlag.SOUND_LOOPING)
              SoundFlag.SOUND_PAUSED))
          (getHandleBuffer handle)
          (fun b => { b with refCount := b.refCount - 1 })).s_buffers b).refCount
          = (st.s_buffers b).refCount :=
        congrArg SoundBuffer.refCount (updBufAt_proj_ne _ _ _ _ hb)
      rw [hrc, hsplit, if_neg (fun hc => hb hc.symm)]
      have := i2 b
      omega
  · intro i
    have : ((updBufAt
          (updVoice
            (alSourceSetBuffer (alSourceStop st (st.s_sources (getHandleSource handle)))
              (st.s_sources (getHandleSource handle)) 0)
            (getHandleSource handle)
            (fun v => clearActiveFlag
              (clearActiveFlag (clearActiveFlag v SoundFlag.SOUND_PLAYING)
                SoundFlag.SOUND_LOOPING)
              SoundFlag.SOUND_PAUSED))
          (getHandleBuffer handle)
          (fun b => { b with refCount := b.refCount - 1 })).s_buffers i).index
        = (st.s_buffers i).index := by
      refine updBufAt_index_pres _ _ _ ?_ i
      intro bf
      rfl
    rw [this]
    exact i3 i

lemma Inv_stopSound (st : SoundState) (handle : Nat) (h : Inv st) :
    Inv (stopSound st handle) := by
  simp only [stopSound]
  split
  · rw [Inv_mutexUnlock, Inv_mutexLock]
    exact h
  · split
    · rw [Inv_mutexUnlock, Inv_mutexLock]
      exact h
    · rename_i hg1 hg2
      rw [Inv_mutexUnlock, Inv_assertCheck]
      have hl : isActiveNoLock st handle = true := bool_of_not_not hg1
      have hpl : (st.s_activeSounds (getHandleSource handle)).playingFlag = true :=
        bool_of_not_not hg2
      exact Inv_stop_core st handle h hl hpl

end SoundModel

namespace SoundModel

/-- Generic body of the voice-clearing loops of stopAllSounds() and reset():
stop the native source, detach its buffer, and overwrite the active-sound
word with pf of its old value. -/
def voiceZeroStep (pf : ActiveSound → ActiveSound) (st : SoundState) (s : Nat) : SoundState :=
  let st := alSourceStop st (st.s_sources s)
  let st := alSourceSetBuffer st (st.s_sources s) 0
  updVoice st s (fun v => pf v)

/-- Generic body of the buffer-zeroing loops of stopAllSounds() and reset(). -/
def bufZeroStep (g : SoundBuffer → SoundBuffer) (st : SoundState) (b : Nat) : SoundState :=
  updBufAt st b g

lemma voiceZeroFold_sources (pf : ActiveSound → ActiveSound) (l : List Nat) (st : SoundState)
    (x : Nat) : ((l.foldl (voiceZeroStep pf) st).s_sources x) = st.s_sources x := by
  induction l generalizing st with
  | nil => rfl
  | cons a t ih => exact (ih (voiceZeroStep pf st a)).trans rfl

lemma voiceZeroFold_buffers (pf : ActiveSound → ActiveSound) (l : List Nat) (st : SoundState)
    (b : Nat) : ((l.foldl (voiceZeroStep pf) st).s_buffers b) = st.s_buffers b := by
  induction l generalizing st with
  | nil => rfl
  | cons a t ih => exact (ih (voiceZeroStep pf st a)).trans rfl

lemma voiceZeroFold_bufferMap (pf : ActiveSound → ActiveSound) (l : List Nat) (st : SoundState)
    (nm : String) : ((l.foldl (voiceZeroStep pf) st).s_bufferMap nm) = st.s_bufferMap nm := by
  induction l generalizing st with
  | nil => rfl
  | cons a t ih => exact (ih (voiceZeroStep pf st a)).trans rfl

lemma voiceZeroFold_slot_pres (pf : ActiveSound → ActiveSound) (l : List Nat) (st : SoundState)
    (x : Nat) (hx : x ∉ l) :
    ((l.foldl (voiceZeroStep pf) st).s_activeSounds x) = st.s_activeSounds x := by
  induction l generalizing st with
  | nil => rfl
  | cons a t ih =>
      have hxa : x ≠ a := fun hc => hx (hc ▸ List.mem_cons_self a t)
      have hxt : x ∉ t := fun hc => hx (List.mem_cons_of_mem a hc)
      refine (ih (voiceZeroStep pf st a) hxt).trans ?_
      show (updVoice (alSourceSetBuffer (alSourceStop st (st.s_sources a)) (st.s_sources a) 0)
        a (fun v => pf v)).s_activeSounds x = st.s_activeSounds x
      rw [updVoice_proj_ne _ _ _ _ hxa]
      exact rfl

lemma voiceZeroFold_slot_mem (pf : ActiveSound → ActiveSound) (l : List Nat) (st : SoundState)
    (x : Nat) (hx : x ∈ l) :
    ∃ v, ((l.foldl (voiceZeroStep pf) st).s_activeSounds x) = pf v := by
  induction l generalizing st with
  | nil => exact absurd hx (List.not_mem_nil x)
  | cons a t ih =>
      by_cases hxt : x ∈ t
      · exact ih (voiceZeroStep pf st a) hxt
      · have hxa : x = a := by
          rcases List.mem_cons.mp hx with h | h
          · exact h
          · exact absurd h hxt
        subst hxa
        refine ⟨(alSourceSetBuffer (alSourceStop st (st.s_sources x)) (st.s_sources x)
          0).s_activeSounds x, ?_⟩
        refine (voiceZeroFold_slot_pres pf t (voiceZeroStep pf st x) x hxt).trans ?_
        show (updVoice (alSourceSetBuffer (alSourceStop st (st.s_sources x)) (st.s_sources x) 0)
          x (fun v => pf v)).s_activeSounds x = _
        rw [updVoice_proj_same]

lemma bufZeroFold_activeSounds (g : SoundBuffer → SoundBuffer) (l : List Nat) (st : SoundState)
    (x : Nat) : ((l.foldl (bufZeroStep g) st).s_activeSounds x) = st.s_activeSounds x := by
  induction l generalizing st with
  | nil => rfl
  | cons a t ih => exact (ih (bufZeroStep g st a)).trans rfl

lemma bufZeroFold_sources (g : SoundBuffer → SoundBuffer) (l : List Nat) (st : SoundState)
    (x : Nat) : ((l.foldl (bufZeroStep g) st).s_sources x) = st.s_sources x := by
  induction l generalizing st with
  | nil => rfl
  | cons a t ih => exact (ih (bufZeroStep g st a)).trans rfl

lemma bufZeroFold_bufferMap (g : SoundBuffer → SoundBuffer) (l : List Nat) (st : SoundState)
    (nm : String) : ((l.foldl (bufZeroStep g) st).s_bufferMap nm) = st.s_bufferMap nm := by
  induction l generalizing st with
  | nil => rfl
  | cons a t ih => exact (ih (bufZeroStep g st a)).trans rfl

lemma bufZeroFold_buf_pres (g : SoundBuffer → SoundBuffer) (l : List Nat) (st : SoundState)
    (b : Nat) (hb : b ∉ l) :
    ((l.foldl (bufZeroStep g) st).s_buffers b) = st.s_buffers b := by
  induction l generalizing st with
  | nil => rfl
  | cons a t ih =>
      have hba : b ≠ a := fun hc => hb (hc ▸ List.mem_cons_self a t)
      have hbt : b ∉ t := fun hc => hb (List.mem_cons_of_mem a hc)
      refine (ih (bufZeroStep g st a) hbt).trans ?_
      show (updBufAt st a g).s_buffers b = st.s_buffers b
      exact updBufAt_proj_ne _ _ _ _ hba

lemma bufZeroFold_refCount_mem (g : SoundBuffer → SoundBuffer)
    (hg0 : ∀ buf, (g buf).refCount = 0) (l : List Nat) (st : SoundState)
    (b : Nat) (hb : b ∈ l) :
    (((l.foldl (bufZeroStep g) st).s_buffers b)).refCount = 0 := by
  induction l generalizing st with
  | nil => exact absurd hb (List.not_mem_nil b)
  | cons a t ih =>
      by_cases hbt : b ∈ t
      · exact ih (bufZeroStep g st a) hbt
      · have hba : b = a := by
          rcases List.mem_cons.mp hb with h | h
          · exact h
          · exact absurd h hbt
        subst hba
        rw [List.foldl_cons, bufZeroFold_buf_pres g t (bufZeroStep g st b) b hbt]
        show ((updBufAt st b g).s_buffers b).refCount = 0
        rw [updBufAt_proj_same]
        exact hg0 _

lemma bufZeroFold_index (g : SoundBuffer → SoundBuffer)
    (hgi : ∀ buf, (g buf).index = buf.index) (l : List Nat) (st : SoundState) (i : Nat) :
    (((l.foldl (bufZeroStep g) st).s_buffers i)).index = ((st.s_buffers i)).index := by
  induction l generalizing st with
  | nil => rfl
  | cons a t ih =>
      refine (ih (bufZeroStep g st a)).trans ?_
      show ((updBufAt st a g).s_buffers i).index = ((st.s_buffers i)).index
      exact updBufAt_index_pres _ _ _ hgi i

/-- Shared invariant argument for the two bulk-clearing entry points:
a voice-clearing fold whose writer leaves every slot non-busy, followed by
a buffer fold that zeroes every refCount, preserves Inv. -/
lemma Inv_zeroFolds (st : SoundState) (pf : ActiveSound → ActiveSound)
    (g : SoundBuffer → SoundBuffer)
    (hpf : ∀ v, ((pf v).playingFlag = false) ∧ ((pf v).pausedFlag = false))
    (hg0 : ∀ buf, (g buf).refCount = 0) (hgi : ∀ buf, (g buf).index = buf.index)
    (h : Inv st) :
    Inv ((List.range s_numBuffers).foldl (bufZeroStep g)
      ((List.range s_maxSimulSounds).foldl (voiceZeroStep pf) st)) := by
  obtain ⟨i0, i1, i2, i3, i4⟩ := h
  refine ⟨?_, ?_, ?_, ?_, ?_⟩
  · intro s
    rw [bufZeroFold_sources, voiceZeroFold_sources]
    exact i0 s
  · intro s hs hp
    rw [bufZeroFold_activeSounds] at hp
    obtain ⟨v, hv⟩ := voiceZeroFold_slot_mem pf (List.range s_maxSimulSounds) st s
      (List.mem_range.mpr hs)
    rw [hv, (hpf v).1] at hp
    exact absurd hp (by simp)
  · intro b
    have hbc : busyCount ((List.range s_numBuffers).foldl (bufZeroStep g)
        ((List.range s_maxSimulSounds).foldl (voiceZeroStep pf) st)) b = 0 := by
      unfold busyCount
      refine Finset.sum_eq_zero ?_
      intro s hs
      rw [bufZeroFold_activeSounds]
      obtain ⟨v, hv⟩ := voiceZeroFold_slot_mem pf (List.range s_maxSimulSounds) st s
        (List.mem_range.mpr (Finset.mem_range.mp hs))
      rw [hv]
      exact contrib_not_busy _ _ (hpf v)
    rw [hbc]
    by_cases hb : b < s_numBuffers
    · rw [bufZeroFold_refCount_mem g hg0 _ _ b (List.mem_range.mpr hb)]
    · rw [bufZeroFold_buf_pres g _ _ b (fun hc => hb (List.mem_range.mp hc)),
        voiceZeroFold_buffers]
      exact le_trans (busyCount_nonneg st b) (i2 b)
  · intro i
    rw [bufZeroFold_index g hgi, voiceZeroFold_buffers]
    exact i3 i
  · intro nm i hm
    rw [bufZeroFold_bufferMap, voiceZeroFold_bufferMap] at hm
    exact i4 nm i hm

lemma Inv_stopAllSounds (st : SoundState) (h : Inv st) : Inv (stopAllSounds st) := by
  simp only [stopAllSounds]
  rw [Inv_mutexUnlock]
  show Inv ((List.range s_numBuffers).foldl
    (bufZeroStep (fun buf => { buf with refCount := 0 }))
    ((List.range s_maxSimulSounds).foldl
      (voiceZeroStep (fun v =>
        clearActiveFlag
          (clearActiveFlag (clearActiveFlag (setActiveBuffer v 0) SoundFlag.SOUND_PLAYING)
            SoundFlag.SOUND_LOOPING)
          SoundFlag.SOUND_PAUSED)) (mutexLock st)))
  exact Inv_zeroFolds (mutexLock st) _ _ (fun v => ⟨rfl, rfl⟩) (fun buf => rfl)
    (fun buf => rfl) h

lemma Inv_reset (st : SoundState) (h : Inv st) : Inv (reset st) := by
  simp only [reset]
  rw [Inv_mutexUnlock]
  show Inv ((List.range s_numBuffers).foldl
    (bufZeroStep (fun buf => { buf with refCount := 0, flags := 0, lastUsed := 0 }))
    ((List.range s_maxSimulSounds).foldl
      (voiceZeroStep (fun _ => activeSoundZero)) (mutexLock st)))
  exact Inv_zeroFolds (mutexLock st) _ _ (fun v => ⟨rfl, rfl⟩) (fun buf => rfl)
    (fun buf => rfl) h

end SoundModel

namespace SoundModel

lemma assertCheck_s_bufferMap (st : SoundState) (p : Prop) [Decidable p] :
    (assertCheck st p).s_bufferMap = st.s_bufferMap := by
  unfold assertCheck
  split <;> rfl

/-- Inv preservation for the retire path of the update() loop body when no
completion callback is installed: only the PLAYING and PAUSED flags of voice
s are cleared. -/
lemma Inv_clear2_core (st : SoundState) (s : Nat) (hs : s < s_maxSimulSounds) (h : Inv st) :
    Inv (updVoice (updVoice st s (fun v => clearActiveFlag v SoundFlag.SOUND_PLAYING)) s
      (fun v => clearActiveFlag v SoundFlag.SOUND_PAUSED)) := by
  obtain ⟨i0, i1, i2, i3, i4⟩ := h
  refine ⟨fun x => i0 x, ?_, ?_, fun i => i3 i, fun nm i hm => i4 nm i hm⟩
  · intro x hx hp hps
    by_cases hxs : x = s
    · subst hxs
      rw [updVoice_proj_same, updVoice_proj_same] at hp
      simp [clearActiveFlag] at hp
    · rw [updVoice_proj_ne _ _ _ _ hxs, updVoice_proj_ne _ _ _ _ hxs] at hp
      exact i1 x hx hp hps
  · intro b
    have hothers : ∀ x, x < s_maxSimulSounds → x ≠ s →
        contrib ((updVoice (updVoice st s (fun v => clearActiveFlag v SoundFlag.SOUND_PLAYING))
          s (fun v => clearActiveFlag v SoundFlag.SOUND_PAUSED)).s_activeSounds x) b
        = contrib (st.s_activeSounds x) b := by
      intro x hx hxs
      rw [updVoice_proj_ne _ _ _ _ hxs, updVoice_proj_ne _ _ _ _ hxs]
    have hc0 : contrib ((updVoice (updVoice st s
          (fun v => clearActiveFlag v SoundFlag.SOUND_PLAYING))
          s (fun v => clearActiveFlag v SoundFlag.SOUND_PAUSED)).s_activeSounds s) b = 0 := by
      rw [updVoice_proj_same, updVoice_proj_same]
      exact contrib_not_busy _ _ ⟨rfl, rfl⟩
    have hsplit := busyCount_split
      (updVoice (updVoice st s (fun v => clearActiveFlag v SoundFlag.SOUND_PLAYING)) s
        (fun v => clearActiveFlag v SoundFlag.SOUND_PAUSED)) st s hs b hothers
    rw [hc0] at hsplit
    have hcpre := contrib_nonneg (st.s_activeSounds s) b
    show busyCount (updVoice (updVoice st s
        (fun v => clearActiveFlag v SoundFlag.SOUND_PLAYING)) s
        (fun v => clearActiveFlag v SoundFlag.SOUND_PAUSED)) b ≤ (st.s_buffers b).refCount
    rw [hsplit]
    have := i2 b
    omega

/-- Inv preservation for the resync arm of the update() loop body
(native state neither paused nor non-playing: only SOUND_PAUSED is cleared). -/
lemma Inv_resync_core (st : SoundState) (s : Nat) (h : Inv st)
    (hplay : (st.s_activeSounds s).playingFlag = true) :
    Inv (updVoice st s (fun v => clearActiveFlag v SoundFlag.SOUND_PAUSED)) := by
  obtain ⟨i0, i1, i2, i3, i4⟩ := h
  refine ⟨fun x => i0 x, ?_, ?_, fun i => i3 i, fun nm i hm => i4 nm i hm⟩
  · intro x hx hp hps
    by_cases hxs : x = s
    · subst hxs
      rw [updVoice_proj_same] at hp
      have hp2 : (st.s_activeSounds x).playingFlag = true := hp
      exact i1 x hx hp2 hps
    · rw [updVoice_proj_ne _ _ _ _ hxs] at hp
      exact i1 x hx hp hps
  · intro b
    have hbc : busyCount (updVoice st s (fun v => clearActiveFlag v SoundFlag.SOUND_PAUSED)) b
        = busyCount st b := by
      refine busyCount_congr _ _ b ?_
      intro x hx
      by_cases hxs : x = s
      · subst hxs
        rw [updVoice_proj_same]
        refine contrib_of_eq_fields _ _ b ?_ rfl
        simp [clearActiveFlag, hplay]
      · rw [updVoice_proj_ne _ _ _ _ hxs]
    show busyCount (updVoice st s (fun v => clearActiveFlag v SoundFlag.SOUND_PAUSED)) b
        ≤ (st.s_buffers b).refCount
    rw [hbc]
    exact i2 b

/-- Inv preservation for the retire path of the update() loop body with a
callback installed: log the callback, decrement the bound buffer refCount,
assert, and clear the PLAYING and PAUSED flags of voice s. -/
lemma Inv_fire_core (st : SoundState) (s : Nat) (p : Prop) [Decidable p]
    (hs : s < s_maxSimulSounds) (hInv : Inv st)
    (hplay : (st.s_activeSounds s).playingFlag = true) :
    Inv (updVoice (updVoice
          (assertCheck
            (updBufAt { st with callbackLog := st.callbackLog ++ [st.s_userValue s] }
              ((st.s_activeSounds s).buffer)
              (fun b => { b with refCount := b.refCount - 1 }))
            p)
          s (fun v => clearActiveFlag v SoundFlag.SOUND_PLAYING))
        s (fun v => clearActiveFlag v SoundFlag.SOUND_PAUSED)) := by
  obtain ⟨i0, i1, i2, i3, i4⟩ := hInv
  have hsrcEq : (updVoice (updVoice
        (assertCheck
          (updBufAt { st with callbackLog := st.callbackLog ++ [st.s_userValue s] }
            ((st.s_activeSounds s).buffer)
            (fun b => { b with refCount := b.refCount - 1 }))
          p)
        s (fun v => clearActiveFlag v SoundFlag.SOUND_PLAYING))
      s (fun v => clearActiveFlag v SoundFlag.SOUND_PAUSED)).s_sources = st.s_sources :=
    assertCheck_s_sources _ p
  have hASEq : (assertCheck
        (updBufAt { st with callbackLog := st.callbackLog ++ [st.s_userValue s] }
          ((st.s_activeSounds s).buffer)
          (fun b => { b with refCount := b.refCount - 1 }))
        p).s_activeSounds = st.s_activeSounds :=
    assertCheck_s_activeSounds _ p
  have hbufEq : (updVoice (updVoice
        (assertCheck
          (updBufAt { st with callbackLog := st.callbackLog ++ [st.s_userValue s] }
            ((st.s_activeSounds s).buffer)
            (fun b => { b with refCount := b.refCount - 1 }))
          p)
        s (fun v => clearActiveFlag v SoundFlag.SOUND_PLAYING))
      s (fun v => clearActiveFlag v SoundFlag.SOUND_PAUSED)).s_buffers
      = (updBufAt { st with callbackLog := st.callbackLog ++ [st.s_userValue s] }
          ((st.s_activeSounds s).buffer)
          (fun b => { b with refCount := b.refCount - 1 })).s_buffers :=
    assertCheck_s_buffers _ p
  have halEq : (updVoice (updVoice
        (assertCheck
          (updBufAt { st with callbackLog := st.callbackLog ++ [st.s_userValue s] }
            ((st.s_activeSounds s).buffer)
            (fun b => { b with refCount := b.refCount - 1 }))
          p)
        s (fun v => clearActiveFlag v SoundFlag.SOUND_PLAYING))
      s (fun v => clearActiveFlag v SoundFlag.SOUND_PAUSED)).al = st.al :=
    assertCheck_al _ p
  have hmapEq : (updVoice (updVoice
        (assertCheck
          (updBufAt { st with callbackLog := st.callbackLog ++ [st.s_userValue s] }
            ((st.s_activeSounds s).buffer)
            (fun b => { b with refCount := b.refCount - 1 }))
          p)
        s (fun v => clearActiveFlag v SoundFlag.SOUND_PLAYING))
      s (fun v => clearActiveFlag v SoundFlag.SOUND_PAUSED)).s_bufferMap = st.s_bufferMap :=
    assertCheck_s_bufferMap _ p
  refine ⟨?_, ?_, ?_, ?_, ?_⟩
  · intro x
    rw [congrFun hsrcEq x]
    exact i0 x
  · intro x hx hp hps
    by_cases hxs : x = s
    · subst hxs
      rw [updVoice_proj_same, updVoice_proj_same] at hp
      simp [clearActiveFlag] at hp
    · rw [updVoice_proj_ne _ _ _ _ hxs, updVoice_proj_ne _ _ _ _ hxs, hASEq] at hp
      rw [congrFun hsrcEq x] at hps
      have halg : alGetSourceState (updVoice (updVoice
            (assertCheck
              (updBufAt { st with callbackLog := st.callbackLog ++ [st.s_userValue s] }
                ((st.s_activeSounds s).buffer)
                (fun b => { b with refCount := b.refCount - 1 }))
              p)
            s (fun v => clearActiveFlag v SoundFlag.SOUND_PLAYING))
          s (fun v => clearActiveFlag v SoundFlag.SOUND_PAUSED)) (st.s_sources x)
          = alGetSourceState st (st.s_sources x) := by
        unfold alGetSourceState
        rw [halEq]
      rw [halg] at hps
      exact i1 x hx hp hps
  · intro b
    have hothers : ∀ x, x < s_maxSimulSounds → x ≠ s →
        contrib ((updVoice (updVoice
          (assertCheck
            (updBufAt { st with callbackLog := st.callbackLog ++ [st.s_userValue s] }
              ((st.s_activeSounds s).buffer)
              (fun b => { b with refCount := b.refCount - 1 }))
            p)
          s (fun v => clearActiveFlag v SoundFlag.SOUND_PLAYING))
          s (fun v => clearActiveFlag v SoundFlag.SOUND_PAUSED)).s_activeSounds x) b
        = contrib (st.s_activeSounds x) b := by
      intro x hx hxs
      rw [updVoice_proj_ne _ _ _ _ hxs, updVoice_proj_ne _ _ _ _ hxs, hASEq]
    have hc0 : contrib ((updVoice (updVoice
          (assertCheck
            (updBufAt { st with callbackLog := st.callbackLog ++ [st.s_userValue s] }
              ((st.s_activeSounds s).buffer)
              (fun b => { b with refCount := b.refCount - 1 }))
            p)
          s (fun v => clearActiveFlag v SoundFlag.SOUND_PLAYING))
          s (fun v => clearActiveFlag v SoundFlag.SOUND_PAUSED)).s_activeSounds s) b = 0 := by
      rw [updVoice_proj_same, updVoice_proj_same]
      exact contrib_not_busy _ _ ⟨rfl, rfl⟩
    have hc1 : contrib (st.s_activeSounds s) b
        = if (st.s_activeSounds s).buffer = b then 1 else 0 :=
      contrib_busy_buffer _ _ hplay
    have hsplit := busyCount_split
      (updVoice (updVoice
          (assertCheck
            (updBufAt { st with callbackLog := st.callbackLog ++ [st.s_userValue s] }
              ((st.s_activeSounds s).buffer)
              (fun b => { b with refCount := b.refCount - 1 }))
            p)
          s (fun v => clearActiveFlag v SoundFlag.SOUND_PLAYING))
          s (fun v => clearActiveFlag v SoundFlag.SOUND_PAUSED)) st s hs b hothers
    rw [hc0, hc1] at hsplit
    have hrcEq : ((updVoice (updVoice
          (assertCheck
            (updBufAt { st with callbackLog := st.callbackLog ++ [st.s_userValue s] }
              ((st.s_activeSounds s).buffer)
              (fun b => { b with refCount := b.refCount - 1 }))
            p)
          s (fun v => clearActiveFlag v SoundFlag.SOUND_PLAYING))
          s (fun v => clearActiveFlag v SoundFlag.SOUND_PAUSED)).s_buffers b).refCount
        = (((updBufAt { st with callbackLog := st.callbackLog ++ [st.s_userValue s] }
            ((st.s_activeSounds s).buffer)
            (fun b => { b with refCount := b.refCount - 1 })).s_buffers b)).refCount :=
      congrArg SoundBuffer.refCount (congrFun hbufEq b)
    by_cases hb : b = (st.s_activeSounds s).buffer
    · have hrc : (((updBufAt { st with callbackLog := st.callbackLog ++ [st.s_userValue s] }
            ((st.s_activeSounds s).buffer)
            (fun b => { b with refCount := b.refCount - 1 })).s_buffers b)).refCount
          = (st.s_buffers b).refCount - 1 := by
        rw [hb, updBufAt_proj_same]
      rw [hrcEq, hrc, hsplit, if_pos hb.symm]
      have := i2 b
      omega
    · have hrc : (((updBufAt { st with callbackLog := st.callbackLog ++ [st.s_userValue s] }
            ((st.s_activeSounds s).buffer)
            (fun b => { b with refCount := b.refCount - 1 })).s_buffers b)).refCount
          = (st.s_buffers b).refCount :=
        congrArg SoundBuffer.refCount (updBufAt_proj_ne _ _ _ _ hb)
      rw [hrcEq, hrc, hsplit, if_neg (fun hc => hb hc.symm)]
      have := i2 b
      omega
  · intro i
    rw [congrArg SoundBuffer.index (congrFun hbufEq i)]
    refine (updBufAt_index_pres _ _ _ ?_ i).trans ?_
    · intro bf
      rfl
    · exact i3 i
  · intro nm i hm
    rw [hmapEq] at hm
    exact i4 nm i hm

/-- Inv preservation for one iteration of the per-voice loop of update(). -/
lemma Inv_updateVoice (st : SoundState) (s : Nat) (hs : s < s_maxSimulSounds)
    (h : Inv st) : Inv (updateVoice st s) := by
  simp only [updateVoice]
  split
  · rename_i hpl
    have hplay : (st.s_activeSounds s).playingFlag = true := hpl
    have hnp : alGetSourceState st (st.s_sources s) ≠ SrcState.paused := h.2.1 s hs hplay
    simp only [updateVoiceResync]
    rw [if_pos hnp]
    simp only [updateVoiceRetire]
    by_cases hX : alGetSourceState st (st.s_sources s) ≠ SrcState.playing
    · rw [if_pos hX]
      simp only [updateVoiceFire]
      by_cases hcb : (st.s_callback
          && checkActiveFlag (st.s_activeSounds s) SoundFlag.SOUND_PLAYING) = true
      · rw [if_pos hcb]
        exact Inv_fire_core st s _ hs h hplay
      · rw [if_neg hcb]
        exact Inv_clear2_core st s hs h
    · rw [if_neg hX]
      exact Inv_resync_core st s h hplay
  · exact h

lemma Inv_updateFold : ∀ (l : List Nat), (∀ x ∈ l, x < s_maxSimulSounds) →
    ∀ st, Inv st → Inv (l.foldl updateVoice st) := by
  intro l
  induction l with
  | nil =>
      intro _ st h
      exact h
  | cons a t ih =>
      intro hl st h
      rw [List.foldl_cons]
      exact ih (fun x hx => hl x (List.mem_cons_of_mem a hx)) (updateVoice st a)
        (Inv_updateVoice st a (hl a (List.mem_cons_self a t)) h)

lemma Inv_update (st : SoundState) (h : Inv st) : Inv (update st) := by
  simp only [update]
  split
  · exact h
  · rw [Inv_mutexUnlock]
    exact Inv_updateFold (List.range s_maxSimulSounds) (fun x hx => List.mem_range.mp hx)
      (mutexLock st) h

end SoundModel

namespace SoundModel

lemma contrib_busy (v : ActiveSound) (b : Nat)
    (h : v.playingFlag = true ∨ v.pausedFlag = true) :
    contrib v b = if v.buffer = b then 1 else 0 := by
  unfold contrib
  by_cases hb : v.buffer = b
  · rw [if_pos ⟨h, hb⟩, if_pos hb]
  · rw [if_neg (fun hc => hb hc.2), if_neg hb]

/-- After the AL call chain of playSoundInternal (2D branch), the only source
whose state can differ from the pre state is the one the chain drives, and it
ends playing (or initial), never paused. -/
lemma playChain_paused (st : SoundState) (n : Nat) (bufv : Nat) (r1 r2 r3 pan : Rat)
    (rel lp : Bool) (gain : Rat) (m : Nat)
    (hm : alGetSourceState
      (alSourcePlay
        (alSourceSetGain
          (alSourceSetLooping
            (alSourceSetPos
              (alSourceSetMaxDist
                (alSourceSetRefDist
                  (alSourceSetRelative
                    (alSourceSetRolloff
                      (alSourceSetBuffer (alSourceStop st n) n bufv) n r1)
                    n rel)
                  n r2)
                n r3)
              n pan)
            n lp)
          n gain)
        n) m = SrcState.paused) :
    m ≠ n ∧ alGetSourceState st m = SrcState.paused := by
  by_cases hmn : m = n
  · subst hmn
    unfold alSourcePlay at hm
    rw [alGetSourceState_modify, if_pos rfl] at hm
    cases hX : (alSourceSetGain
          (alSourceSetLooping
            (alSourceSetPos
              (alSourceSetMaxDist
                (alSourceSetRefDist
                  (alSourceSetRelative
                    (alSourceSetRolloff
                      (alSourceSetBuffer (alSourceStop st m) m bufv) m r1)
                    m rel)
                  m r2)
                m r3)
              m pan)
            m lp)
          m gain).al m with
    | none =>
        rw [hX] at hm
        exact absurd hm (by simp)
    | some src =>
        rw [hX] at hm
        exact absurd hm (by simp)
  · refine ⟨hmn, ?_⟩
    unfold alSourcePlay alSourceSetGain alSourceSetLooping alSourceSetPos
      alSourceSetMaxDist alSourceSetRefDist alSourceSetRelative alSourceSetRolloff
      alSourceSetBuffer alSourceStop at hm
    rw [alGetSourceState_modify, if_neg hmn, alGetSourceState_modify, if_neg hmn,
      alGetSourceState_modify, if_neg hmn, alGetSourceState_modify, if_neg hmn,
      alGetSourceState_modify, if_neg hmn, alGetSourceState_modify, if_neg hmn,
      alGetSourceState_modify, if_neg hmn, alGetSourceState_modify, if_neg hmn,
      alGetSourceState_modify, if_neg hmn, alGetSourceState_modify, if_neg hmn] at hm
    exact hm

/-- Inv preservation for the tail of playSoundInternal: an intermediate state W
that agrees with st except that voice srcID is (still or newly) marked PLAYING
with an unchanged buffer binding and its native source cannot read paused;
then the refCount/lastUsed bump of slot bufferID.  The hypothesis hcase is
what the two call sites provide: either the voice is bound to the bumped
buffer, or the voice was already busy before (the starved re-trigger). -/
lemma Inv_play_finish (st W : SoundState) (srcID bufferID : Nat) (cf : Nat)
    (hsrc : srcID < s_maxSimulSounds)
    (hsources : ∀ x, W.s_sources x = st.s_sources x)
    (hAS_ne : ∀ x, x ≠ srcID → W.s_activeSounds x = st.s_activeSounds x)
    (hplay : (W.s_activeSounds srcID).playingFlag = true)
    (hbuf : (W.s_activeSounds srcID).buffer = (st.s_activeSounds srcID).buffer)
    (hbuffers : ∀ b, W.s_buffers b = st.s_buffers b)
    (hmap : ∀ nm, W.s_bufferMap nm = st.s_bufferMap nm)
    (halsrc : ∀ m, alGetSourceState W m = SrcState.paused →
      m ≠ st.s_sources srcID ∧ alGetSourceState st m = SrcState.paused)
    (hInv : Inv st)
    (hcase : ((st.s_activeSounds srcID).buffer = bufferID)
           ∨ ((st.s_activeSounds srcID).playingFlag = true
              ∨ (st.s_activeSounds srcID).pausedFlag = true)) :
    Inv (updBufAt W bufferID
      (fun b => { b with lastUsed := cf, refCount := b.refCount + 1 })) := by
  obtain ⟨i0, i1, i2, i3, i4⟩ := hInv
  refine ⟨?_, ?_, ?_, ?_, ?_⟩
  · intro x
    show W.s_sources x = x + 1
    rw [hsources]
    exact i0 x
  · intro x hx hp hps
    have hp2 : (W.s_activeSounds x).playingFlag = true := hp
    have hps2 : alGetSourceState W (W.s_sources x) = SrcState.paused := hps
    rw [hsources x] at hps2
    obtain ⟨hne, hstps⟩ := halsrc _ hps2
    by_cases hxs : x = srcID
    · subst hxs
      exact absurd rfl hne
    · rw [hAS_ne x hxs] at hp2
      exact i1 x hx hp2 hstps
  · intro b
    have hrc : ((updBufAt W bufferID
          (fun b => { b with lastUsed := cf, refCount := b.refCount + 1 })).s_buffers
            b).refCount
        = (st.s_buffers b).refCount + (if b = bufferID then 1 else 0) := by
      by_cases h2 : b = bufferID
      · rw [if_pos h2, h2, updBufAt_proj_same, hbuffers]
      · rw [if_neg h2, updBufAt_proj_ne _ _ _ _ h2, hbuffers]
        omega
    have hothers : ∀ x, x < s_maxSimulSounds → x ≠ srcID →
        contrib ((updBufAt W bufferID
          (fun b => { b with lastUsed := cf, refCount := b.refCount + 1 })).s_activeSounds
            x) b
        = contrib (st.s_activeSounds x) b := by
      intro x hx hxs
      show contrib (W.s_activeSounds x) b = contrib (st.s_activeSounds x) b
      rw [hAS_ne x hxs]
    have hcpost : contrib ((updBufAt W bufferID
          (fun b => { b with lastUsed := cf, refCount := b.refCount + 1 })).s_activeSounds
            srcID) b
        = if (st.s_activeSounds srcID).buffer = b then 1 else 0 := by
      show contrib (W.s_activeSounds srcID) b = _
      rw [contrib_busy _ _ (Or.inl hplay), hbuf]
    have hsplit := busyCount_split (updBufAt W bufferID
      (fun b => { b with lastUsed := cf, refCount := b.refCount + 1 })) st srcID hsrc
      b hothers
    rw [hcpost] at hsplit
    rw [hsplit, hrc]
    have hnn := contrib_nonneg (st.s_activeSounds srcID) b
    have hi2 := i2 b
    rcases hcase with hcl | hcb
    · by_cases h2 : b = bufferID
      · rw [if_pos (hcl.trans h2.symm), if_pos h2]
        omega
      · rw [if_neg (fun hc => h2 (hcl.symm.trans hc).symm), if_neg h2]
        omega
    · have hcpre : contrib (st.s_activeSounds srcID) b
          = if (st.s_activeSounds srcID).buffer = b then 1 else 0 := contrib_busy _ _ hcb
      rw [hcpre, sub_add_cancel]
      by_cases h2 : b = bufferID
      · rw [if_pos h2]
        omega
      · rw [if_neg h2]
        omega
  · intro i
    refine (updBufAt_index_pres _ _ _ ?_ i).trans ?_
    · intro bf
      rfl
    · exact (congrArg SoundBuffer.index (hbuffers i)).trans (i3 i)
  · intro nm i hm
    have hm2 : W.s_bufferMap nm = some i := hm
    rw [hmap nm] at hm2
    exact i4 nm i hm2

end SoundModel

namespace SoundModel

/-- Inv preservation for the free-slot branch of getSoundBuffer: write the
name into slot i and register name -> i in the index. -/
lemma Inv_nameWrite (st : SoundState) (i : Nat) (nm : String) (hi : i < s_numBuffers)
    (h : Inv st) :
    Inv { updBufAt st i (fun b => { b with name := nm }) with
          s_bufferMap := Function.update st.s_bufferMap nm (some i) } := by
  obtain ⟨i0, i1, i2, i3, i4⟩ := h
  refine ⟨fun s => i0 s, fun s hs hp hps => i1 s hs hp hps, ?_, ?_, ?_⟩
  · intro b
    have h1 : busyCount { updBufAt st i (fun b => { b with name := nm }) with
          s_bufferMap := Function.update st.s_bufferMap nm (some i) } b = busyCount st b :=
      busyCount_congr _ st b (fun s _ => rfl)
    have h2 : (({ updBufAt st i (fun b => { b with name := nm }) with
          s_bufferMap := Function.update st.s_bufferMap nm (some i) } :
            SoundState).s_buffers b).refCount = (st.s_buffers b).refCount :=
      updBufAt_refCount_pres st i (fun b => { b with name := nm }) (fun bf => rfl) b
    rw [h1, h2]
    exact i2 b
  · intro j
    exact (updBufAt_index_pres st i (fun b => { b with name := nm })
      (fun bf => rfl) j).trans (i3 j)
  · intro nm' j hm'
    have hm'2 : Function.update st.s_bufferMap nm (some i) nm' = some j := hm'
    by_cases hn : nm' = nm
    · subst hn
      rw [Function.update_same] at hm'2
      exact (Option.some.inj hm'2) ▸ hi
    · rw [Function.update_noteq hn] at hm'2
      exact i4 _ _ hm'2

/-- Inv preservation for the eviction branch of getSoundBuffer: zero the
victim slot (whose refCount was already 0), drop the old name from the index,
register the new one, and write the new name into the slot. -/
lemma Inv_evict (st : SoundState) (i : Nat) (nm : String) (hi : i < s_numBuffers)
    (hrc0 : (st.s_buffers i).refCount = 0) (h : Inv st) :
    Inv (updBufAt
          { updBufAt st i (fun b => { b with refCount := 0, flags := 0 }) with
            s_bufferMap := Function.update
              (Function.update st.s_bufferMap ((st.s_buffers i).name) none) nm (some i) }
          i (fun b => { b with name := nm })) := by
  obtain ⟨i0, i1, i2, i3, i4⟩ := h
  refine ⟨fun s => i0 s, fun s hs hp hps => i1 s hs hp hps, ?_, ?_, ?_⟩
  · intro b
    have h1 : busyCount (updBufAt
          { updBufAt st i (fun b => { b with refCount := 0, flags := 0 }) with
            s_bufferMap := Function.update
              (Function.update st.s_bufferMap ((st.s_buffers i).name) none) nm (some i) }
          i (fun b => { b with name := nm })) b = busyCount st b :=
      busyCount_congr _ st b (fun s _ => rfl)
    have h2 : ((updBufAt
          { updBufAt st i (fun b => { b with refCount := 0, flags := 0 }) with
            s_bufferMap := Function.update
              (Function.update st.s_bufferMap ((st.s_buffers i).name) none) nm (some i) }
          i (fun b => { b with name := nm })).s_buffers b).refCount
        = ((updBufAt st i (fun b => { b with refCount := 0, flags := 0 })).s_buffers
            b).refCount :=
      updBufAt_refCount_pres _ i (fun b => { b with name := nm }) (fun bf => rfl) b
    rw [h1, h2]
    by_cases hbi : b = i
    · subst hbi
      rw [updBufAt_proj_same]
      dsimp only
      have := i2 b
      omega
    · rw [congrArg SoundBuffer.refCount (updBufAt_proj_ne st i _ b hbi)]
      exact i2 b
  · intro j
    refine (updBufAt_index_pres _ i (fun b => { b with name := nm })
      (fun bf => rfl) j).trans ?_
    exact (updBufAt_index_pres st i (fun b => { b with refCount := 0, flags := 0 })
      (fun bf => rfl) j).trans (i3 j)
  · intro nm' j hm'
    have hm'2 : Function.update
        (Function.update st.s_bufferMap ((st.s_buffers i).name) none) nm (some i) nm'
        = some j := hm'
    by_cases h1 : nm' = nm
    · subst h1
      rw [Function.update_same] at hm'2
      exact (Option.some.inj hm'2) ▸ hi
    · rw [Function.update_noteq h1] at hm'2
      by_cases h2 : nm' = (st.s_buffers i).name
      · rw [h2, Function.update_same] at hm'2
        exact Option.noConfusion hm'2
      · rw [Function.update_noteq h2] at hm'2
        exact i4 _ _ hm'2

/-- getSoundBuffer preserves Inv, and any slot it hands out is in range. -/
lemma Inv_getSoundBuffer (st : SoundState) (name : String) (h : Inv st) :
    Inv (getSoundBuffer st name).1 ∧
    ∀ i, (getSoundBuffer st name).2 = some i → i < s_numBuffers := by
  unfold getSoundBuffer
  cases hm : st.s_bufferMap name with
  | some i =>
      exact ⟨h, fun j hj => (Option.some.inj hj) ▸ h.2.2.2.2 name i hm⟩
  | none =>
      cases hf : (List.range s_numBuffers).find?
          (fun i => ((st.s_buffers i).flags &&& BUFFER_ACTIVE) == 0) with
      | some i =>
          have hi : i < s_numBuffers := List.mem_range.mp (List.mem_of_find?_eq_some hf)
          exact ⟨Inv_nameWrite st i name hi h, fun j hj => (Option.some.inj hj) ▸ hi⟩
      | none =>
          cases hsc : (oldestScan st.s_buffers).2 with
          | some oi =>
              obtain ⟨hoi, hrc0, _⟩ :=
                ((oldestScan_foldl_invariant st.s_buffers s_numBuffers).2) oi hsc
              exact ⟨Inv_evict st oi name hoi hrc0 h, fun j hj => (Option.some.inj hj) ▸ hoi⟩
          | none =>
              exact ⟨h, fun j hj => Option.noConfusion hj⟩

end SoundModel

namespace SoundModel

lemma alGetSourceState_congr (st1 st2 : SoundState) (h : st1.al = st2.al) (m : Nat) :
    alGetSourceState st1 m = alGetSourceState st2 m := by
  unfold alGetSourceState
  rw [h]

/-- The AL call chain of the 2D branch of playSoundInternal, as one
composition (a proof abbreviation; definitionally equal to the sequence of
lets in playSoundInternal). -/
def play2DChain (st : SoundState) (sound : Nat) (volume pan : Rat) (loop : Bool) :
    SoundState :=
  alSourcePlay
    (alSourceSetGain
      (alSourceSetLooping
        (alSourceSetPos
          (alSourceSetMaxDist
            (alSourceSetRefDist
              (alSourceSetRelative
                (alSourceSetRolloff
                  (alSourceSetBuffer
                    (alSourceStop st (st.s_sources (getHandleSource sound)))
                    (st.s_sources (getHandleSource sound))
                    ((st.s_buffers (getHandleBuffer sound)).oalBuffer))
                  (st.s_sources (getHandleSource sound)) 1)
                (st.s_sources (getHandleSource sound)) true)
              (st.s_sources (getHandleSource sound)) 15)
            (st.s_sources (getHandleSource sound)) 200)
          (st.s_sources (getHandleSource sound)) pan)
        (st.s_sources (getHandleSource sound)) loop)
      (st.s_sources (getHandleSource sound))
      (min (volume * st.s_globalVolume) 1))
    (st.s_sources (getHandleSource sound))

set_option maxHeartbeats 2000000 in
/-- playSoundInternal (2D call sites) preserves Inv, provided the decoded
voice is either bound to the decoded buffer or was already busy. -/
lemma Inv_playSoundInternal_false (st : SoundState) (sound : Nat) (volume pan : Rat)
    (loop : Bool) (h : Inv st)
    (hcase : ((st.s_activeSounds (getHandleSource sound)).buffer = getHandleBuffer sound)
           ∨ ((st.s_activeSounds (getHandleSource sound)).playingFlag = true
              ∨ (st.s_activeSounds (getHandleSource sound)).pausedFlag = true)) :
    Inv (playSoundInternal st sound volume pan loop false).1 := by
  cases loop with
  | false =>
      have hASne : ∀ x, x ≠ getHandleSource sound →
          (updVoice (play2DChain st sound volume pan false) (getHandleSource sound)
            (fun v => setActiveFlag v SoundFlag.SOUND_PLAYING)).s_activeSounds x
          = st.s_activeSounds x := by
        intro x hxs
        rw [updVoice_proj_ne _ _ _ _ hxs]
        exact rfl
      have hplay : ((updVoice (play2DChain st sound volume pan false) (getHandleSource sound)
            (fun v => setActiveFlag v SoundFlag.SOUND_PLAYING)).s_activeSounds
              (getHandleSource sound)).playingFlag = true := by
        rw [updVoice_proj_same]
        exact rfl
      have hbuf : ((updVoice (play2DChain st sound volume pan false) (getHandleSource sound)
            (fun v => setActiveFlag v SoundFlag.SOUND_PLAYING)).s_activeSounds
              (getHandleSource sound)).buffer
          = (st.s_activeSounds (getHandleSource sound)).buffer := by
        rw [updVoice_proj_same]
        exact rfl
      have halsrc : ∀ m, alGetSourceState
            (updVoice (play2DChain st sound volume pan false) (getHandleSource sound)
              (fun v => setActiveFlag v SoundFlag.SOUND_PLAYING)) m = SrcState.paused →
          m ≠ st.s_sources (getHandleSource sound) ∧
          alGetSourceState st m = SrcState.paused := by
        intro m hm
        have hal : (updVoice (play2DChain st sound volume pan false) (getHandleSource sound)
            (fun v => setActiveFlag v SoundFlag.SOUND_PLAYING)).al
            = (play2DChain st sound volume pan false).al := rfl
        have hm2 : alGetSourceState (play2DChain st sound volume pan false) m
            = SrcState.paused := (alGetSourceState_congr _ _ hal m).symm.trans hm
        unfold play2DChain at hm2
        exact playChain_paused st _ _ _ _ _ _ _ _ _ m hm2
      simp only [playSoundInternal, Bool.not_false, eq_self_iff_true, if_true,
        Bool.false_eq_true, if_false]
      exact Inv_play_finish st
        (updVoice (play2DChain st sound volume pan false) (getHandleSource sound)
          (fun v => setActiveFlag v SoundFlag.SOUND_PLAYING))
        (getHandleSource sound) (getHandleBuffer sound) st.s_currentFrame
        (getHandleSource_lt sound) (fun x => rfl) hASne hplay hbuf (fun b => rfl)
        (fun nm => rfl) halsrc h hcase
  | true =>
      have hASne : ∀ x, x ≠ getHandleSource sound →
          (updVoice (updVoice (play2DChain st sound volume pan true) (getHandleSource sound)
              (fun v => setActiveFlag v SoundFlag.SOUND_PLAYING)) (getHandleSource sound)
            (fun v => setActiveFlag v SoundFlag.SOUND_LOOPING)).s_activeSounds x
          = st.s_activeSounds x := by
        intro x hxs
        rw [updVoice_proj_ne _ _ _ _ hxs, updVoice_proj_ne _ _ _ _ hxs]
        exact rfl
      have hplay : ((updVoice (updVoice (play2DChain st sound volume pan true)
              (getHandleSource sound)
              (fun v => setActiveFlag v SoundFlag.SOUND_PLAYING)) (getHandleSource sound)
            (fun v => setActiveFlag v SoundFlag.SOUND_LOOPING)).s_activeSounds
              (getHandleSource sound)).playingFlag = true := by
        rw [updVoice_proj_same, updVoice_proj_same]
        exact rfl
      have hbuf : ((updVoice (updVoice (play2DChain st sound volume pan true)
              (getHandleSource sound)
              (fun v => setActiveFlag v SoundFlag.SOUND_PLAYING)) (getHandleSource sound)
            (fun v => setActiveFlag v SoundFlag.SOUND_LOOPING)).s_activeSounds
              (getHandleSource sound)).buffer
          = (st.s_activeSounds (getHandleSource sound)).buffer := by
        rw [updVoice_proj_same, updVoice_proj_same]
        exact rfl
      have halsrc : ∀ m, alGetSourceState
            (updVoice (updVoice (play2DChain st sound volume pan true)
                (getHandleSource sound)
                (fun v => setActiveFlag v SoundFlag.SOUND_PLAYING)) (getHandleSource sound)
              (fun v => setActiveFlag v SoundFlag.SOUND_LOOPING)) m = SrcState.paused →
          m ≠ st.s_sources (getHandleSource sound) ∧
          alGetSourceState st m = SrcState.paused := by
        intro m hm
        have hal : (updVoice (updVoice (play2DChain st sound volume pan true)
            (getHandleSource sound)
            (fun v => setActiveFlag v SoundFlag.SOUND_PLAYING)) (getHandleSource sound)
            (fun v => setActiveFlag v SoundFlag.SOUND_LOOPING)).al
            = (play2DChain st sound volume pan true).al := rfl
        have hm2 : alGetSourceState (play2DChain st sound volume pan true) m
            = SrcState.paused := (alGetSourceState_congr _ _ hal m).symm.trans hm
        unfold play2DChain at hm2
        exact playChain_paused st _ _ _ _ _ _ _ _ _ m hm2
      simp only [playSoundInternal, Bool.not_false, eq_self_iff_true, if_true,
        Bool.false_eq_true, if_false]
      exact Inv_play_finish st
        (updVoice (updVoice (play2DChain st sound volume pan true) (getHandleSource sound)
            (fun v => setActiveFlag v SoundFlag.SOUND_PLAYING)) (getHandleSource sound)
          (fun v => setActiveFlag v SoundFlag.SOUND_LOOPING))
        (getHandleSource sound) (getHandleBuffer sound) st.s_currentFrame
        (getHandleSource_lt sound) (fun x => rfl) hASne hplay hbuf (fun b => rfl)
        (fun nm => rfl) halsrc h hcase

/-- Marking a pool slot BUFFER_ACTIVE preserves Inv. -/
lemma Inv_flagBuf (st : SoundState) (i : Nat) (h : Inv st) :
    Inv (updBufAt st i (fun b => { b with flags := b.flags ||| BUFFER_ACTIVE })) := by
  obtain ⟨i0, i1, i2, i3, i4⟩ := h
  refine ⟨fun s => i0 s, fun s hs hp hps => i1 s hs hp hps, ?_, ?_, fun nm j hm => i4 nm j hm⟩
  · intro b
    have h1 : busyCount (updBufAt st i
        (fun b => { b with flags := b.flags ||| BUFFER_ACTIVE })) b = busyCount st b :=
      busyCount_congr _ st b (fun s _ => rfl)
    have h2 : ((updBufAt st i
        (fun b => { b with flags := b.flags ||| BUFFER_ACTIVE })).s_buffers b).refCount
        = (st.s_buffers b).refCount :=
      updBufAt_refCount_pres st i (fun b => { b with flags := b.flags ||| BUFFER_ACTIVE })
        (fun bf => rfl) b
    rw [h1, h2]
    exact i2 b
  · intro j
    exact (updBufAt_index_pres st i (fun b => { b with flags := b.flags ||| BUFFER_ACTIVE })
      (fun bf => rfl) j).trans (i3 j)

end SoundModel

namespace SoundModel

lemma allocateSound_eq_none (st : SoundState) (bufferID : Nat)
    (hf : (List.range s_maxSimulSounds).find?
        (fun i => !(checkActiveFlag (st.s_activeSounds i) SoundFlag.SOUND_PLAYING)
               && !(checkActiveFlag (st.s_activeSounds i) SoundFlag.SOUND_PAUSED))
      = none) :
    allocateSound st bufferID = (st, INVALID_SOUND_HANDLE) := by
  unfold allocateSound
  rw [hf]

lemma allocateSound_eq_some (st : SoundState) (bufferID soundID : Nat)
    (hf : (List.range s_maxSimulSounds).find?
        (fun i => !(checkActiveFlag (st.s_activeSounds i) SoundFlag.SOUND_PLAYING)
               && !(checkActiveFlag (st.s_activeSounds i) SoundFlag.SOUND_PAUSED))
      = some soundID) :
    allocateSound st bufferID
      = (updVoice st soundID (fun v =>
          setActiveFlag
            (clearActiveFlag
              (clearActiveFlag (setActiveAllocID (setActiveBuffer v bufferID)
                ((getActiveAllocID (st.s_activeSounds soundID) + 1) &&& 0x7ffff))
                SoundFlag.SOUND_PLAYING)
              SoundFlag.SOUND_LOOPING)
            SoundFlag.SOUND_ACTIVE),
        encodeSoundHandle bufferID soundID
          ((getActiveAllocID (st.s_activeSounds soundID) + 1) &&& 0x7ffff)) := by
  unfold allocateSound
  rw [hf]
  rfl

/-- Inv preservation for a successful voice allocation: the chosen voice was
neither playing nor paused, and the write leaves it so. -/
lemma Inv_allocCore (st : SoundState) (soundID bufferID allocID : Nat)
    (hpl : (st.s_activeSounds soundID).playingFlag = false)
    (hpd : (st.s_activeSounds soundID).pausedFlag = false)
    (h : Inv st) :
    Inv (updVoice st soundID (fun v =>
      setActiveFlag
        (clearActiveFlag
          (clearActiveFlag (setActiveAllocID (setActiveBuffer v bufferID) allocID)
            SoundFlag.SOUND_PLAYING)
          SoundFlag.SOUND_LOOPING)
        SoundFlag.SOUND_ACTIVE)) := by
  obtain ⟨i0, i1, i2, i3, i4⟩ := h
  refine ⟨fun s => i0 s, ?_, ?_, fun i => i3 i, fun nm j hm => i4 nm j hm⟩
  · intro x hx hp hps
    by_cases hxs : x = soundID
    · subst hxs
      rw [updVoice_proj_same] at hp
      simp [setActiveFlag, clearActiveFlag, setActiveAllocID, setActiveBuffer] at hp
    · rw [updVoice_proj_ne _ _ _ _ hxs] at hp
      exact i1 x hx hp hps
  · intro b
    have hbc : busyCount (updVoice st soundID (fun v =>
        setActiveFlag
          (clearActiveFlag
            (clearActiveFlag (setActiveAllocID (setActiveBuffer v bufferID) allocID)
              SoundFlag.SOUND_PLAYING)
            SoundFlag.SOUND_LOOPING)
          SoundFlag.SOUND_ACTIVE)) b = busyCount st b := by
      refine busyCount_congr _ _ b ?_
      intro x hx
      by_cases hxs : x = soundID
      · subst hxs
        rw [updVoice_proj_same, contrib_not_busy _ _ ⟨hpl, hpd⟩]
        exact contrib_not_busy _ _ ⟨rfl, hpd⟩
      · rw [updVoice_proj_ne _ _ _ _ hxs]
    exact hbc.trans_le (i2 b)

/-- After allocateSound, the state satisfies Inv and the returned handle
decodes to a voice that either carries the requested buffer binding (success)
or was already busy (pool exhausted: the handle is INVALID_SOUND_HANDLE, whose
decoded voice 31 is busy like every other voice). -/
lemma allocateSound_inv_case (st : SoundState) (k : Nat) (hk : k < 256) (h : Inv st) :
    Inv (allocateSound st k).1 ∧
    (((allocateSound st k).1.s_activeSounds
        (getHandleSource (allocateSound st k).2)).buffer
      = getHandleBuffer (allocateSound st k).2
     ∨ (((allocateSound st k).1.s_activeSounds
          (getHandleSource (allocateSound st k).2)).playingFlag = true
        ∨ ((allocateSound st k).1.s_activeSounds
          (getHandleSource (allocateSound st k).2)).pausedFlag = true)) := by
  cases hf : (List.range s_maxSimulSounds).find?
      (fun i => !(checkActiveFlag (st.s_activeSounds i) SoundFlag.SOUND_PLAYING)
             && !(checkActiveFlag (st.s_activeSounds i) SoundFlag.SOUND_PAUSED)) with
  | none =>
      rw [allocateSound_eq_none st k hf]
      refine ⟨h, Or.inr ?_⟩
      dsimp only
      have h31 : getHandleSource INVALID_SOUND_HANDLE = 31 := by decide
      rw [h31]
      have hmem : (31 : Nat) ∈ List.range s_maxSimulSounds :=
        List.mem_range.mpr (by decide)
      have hnp := List.find?_eq_none.mp hf 31 hmem
      cases hb1 : (st.s_activeSounds 31).playingFlag with
      | true => exact Or.inl rfl
      | false =>
          cases hb2 : (st.s_activeSounds 31).pausedFlag with
          | true => exact Or.inr rfl
          | false =>
              exfalso
              apply hnp
              show (!(checkActiveFlag (st.s_activeSounds 31) SoundFlag.SOUND_PLAYING)
                 && !(checkActiveFlag (st.s_activeSounds 31) SoundFlag.SOUND_PAUSED)) = true
              have hc1 : checkActiveFlag (st.s_activeSounds 31) SoundFlag.SOUND_PLAYING
                  = false := hb1
              have hc2 : checkActiveFlag (st.s_activeSounds 31) SoundFlag.SOUND_PAUSED
                  = false := hb2
              rw [hc1, hc2]
              rfl
  | some soundID =>
      rw [allocateSound_eq_some st k soundID hf]
      have hsid : soundID < 32 := List.mem_range.mp (List.mem_of_find?_eq_some hf)
      have hpred := List.find?_some hf
      simp only [Bool.and_eq_true, Bool.not_eq_true'] at hpred
      obtain ⟨hc1, hc2⟩ := hpred
      have hpl : (st.s_activeSounds soundID).playingFlag = false := hc1
      have hpd : (st.s_activeSounds soundID).pausedFlag = false := hc2
      have haid : ((getActiveAllocID (st.s_activeSounds soundID) + 1) &&& 0x7ffff)
          < 524288 := lt_of_le_of_lt Nat.and_le_right (by norm_num)
      obtain ⟨hdb, hds, _⟩ := decode_encode_fields k soundID _ hk hsid haid
      constructor
      · exact Inv_allocCore st soundID k _ hpl hpd h
      · left
        dsimp only
        rw [hds, updVoice_proj_same, hdb]
        exact rfl

end SoundModel

namespace SoundModel

/-- playSound2D preserves Inv on every path (including the mutex-leak early
return, the unchecked-allocation path and the upload-failure path). -/
lemma Inv_playSound2D (st0 : SoundState) (name : String) (data : SoundData)
    (info : SoundInfo) (looping : Bool) (h : Inv st0) :
    Inv (playSound2D st0 name data info looping).1 := by
  simp only [playSound2D]
  split
  · exact h
  · obtain ⟨hInv1, hlt1⟩ := Inv_getSoundBuffer (mutexLock st0) name h
    cases hgb : getSoundBuffer (mutexLock st0) name with
    | mk st1 ob =>
        rw [hgb] at hInv1 hlt1
        cases ob with
        | none => exact hInv1
        | some bIdx =>
            dsimp only
            have hb256 : bIdx < s_numBuffers := hlt1 bIdx rfl
            have hInv1' : Inv st1 := hInv1
            have hidx : (st1.s_buffers bIdx).index = bIdx := hInv1'.2.2.2.1 bIdx
            obtain ⟨hInv2, hcase2⟩ := allocateSound_inv_case st1
              ((st1.s_buffers bIdx).index) (by rw [hidx]; exact hb256) hInv1'
            cases hall : allocateSound st1 ((st1.s_buffers bIdx).index) with
            | mk st2 sound =>
                rw [hall] at hInv2 hcase2
                dsimp only
                have hInv2' : Inv st2 := hInv2
                split
                · cases hrd : getRawSoundData data with
                  | none => exact hInv2'
                  | some sz =>
                      dsimp only
                      have hcase3 : ((updBufAt st2 bIdx
                            (fun b => { b with flags := b.flags ||| BUFFER_ACTIVE
                            })).s_activeSounds (getHandleSource sound)).buffer
                          = getHandleBuffer sound
                        ∨ (((updBufAt st2 bIdx
                            (fun b => { b with flags := b.flags ||| BUFFER_ACTIVE
                            })).s_activeSounds (getHandleSource sound)).playingFlag = true
                          ∨ ((updBufAt st2 bIdx
                            (fun b => { b with flags := b.flags ||| BUFFER_ACTIVE
                            })).s_activeSounds (getHandleSource sound)).pausedFlag
                              = true) := hcase2
                      have hInv4 := Inv_playSoundInternal_false
                        (updBufAt st2 bIdx
                          (fun b => { b with flags := b.flags ||| BUFFER_ACTIVE }))
                        sound info.volume info.pan looping
                        (Inv_flagBuf st2 bIdx hInv2') hcase3
                      cases hpsi : playSoundInternal
                          (updBufAt st2 bIdx
                            (fun b => { b with flags := b.flags ||| BUFFER_ACTIVE }))
                          sound info.volume info.pan looping false with
                      | mk st4 pr =>
                          rw [hpsi] at hInv4
                          dsimp only
                          cases pr with
                          | true => exact hInv4
                          | false =>
                              exact absurd (show true = false from congrArg Prod.snd hpsi)
                                (by simp)
                · have hInv4 := Inv_playSoundInternal_false st2 sound info.volume info.pan
                    looping hInv2' hcase2
                  cases hpsi : playSoundInternal st2 sound info.volume info.pan
                      looping false with
                  | mk st4 pr =>
                      rw [hpsi] at hInv4
                      dsimp only
                      cases pr with
                      | true => exact hInv4
                      | false =>
                          exact absurd (show true = false from congrArg Prod.snd hpsi)
                            (by simp)

end SoundModel

namespace SoundModel

/-- One public operation of the sound system (or the external natural-
completion event), as invoked from the initial state onward. -/
inductive SoundOp where
  | play (name : String) (data : SoundData) (info : SoundInfo) (looping : Bool)
  | oneShot (name : String) (data : SoundData) (info : SoundInfo)
  | playLooping (name : String) (data : SoundData) (info : SoundInfo)
  | stop (handle : Nat)
  | pause (handle : Nat)
  | resume (handle : Nat)
  | tick
  | finish (source : Nat)
  | stopAll
  | resetAll
  | installCallback
  | globalVolume (v : Rat)
  | vol (handle : Nat) (v : Rat)
  | pan (handle : Nat) (p : Rat)

def applyOp (st : SoundState) : SoundOp → SoundState
  | SoundOp.play name data info looping => (playSound2D st name data info looping).1
  | SoundOp.oneShot name data info => (playOneShot2D st name data info).1
  | SoundOp.playLooping name data info => (playSoundLooping st name data info).1
  | SoundOp.stop h => stopSound st h
  | SoundOp.pause h => pauseSound st h
  | SoundOp.resume h => resumeSound st h
  | SoundOp.tick => update st
  | SoundOp.finish n => nativeSourceFinish st n
  | SoundOp.stopAll => stopAllSounds st
  | SoundOp.resetAll => reset st
  | SoundOp.installCallback => setCallback st
  | SoundOp.globalVolume v => setGlobalVolume st v
  | SoundOp.vol h v => setVolume st h v
  | SoundOp.pan h p => setPan st h p

/-- The state after running a sequence of operations from the state produced
by init(). -/
def runOps (ops : List SoundOp) : SoundState :=
  ops.foldl applyOp initState

lemma Inv_applyOp (st : SoundState) (op : SoundOp) (h : Inv st) : Inv (applyOp st op) := by
  cases op with
  | play name data info looping => exact Inv_playSound2D st name data info looping h
  | oneShot name data info =>
      have h2 := Inv_playSound2D st name data info false h
      simp only [applyOp, playOneShot2D]
      cases hp : playSound2D st name data info false with
      | mk st2 snd =>
          rw [hp] at h2
          exact h2
  | playLooping name data info => exact Inv_playSound2D st name data info true h
  | stop hd => exact Inv_stopSound st hd h
  | pause hd => exact Inv_pauseSound st hd h
  | resume hd => exact Inv_resumeSound st hd h
  | tick => exact Inv_update st h
  | finish n => exact Inv_nativeSourceFinish st n h
  | stopAll => exact Inv_stopAllSounds st h
  | resetAll => exact Inv_reset st h
  | installCallback => exact Inv_setCallback st h
  | globalVolume v => exact Inv_setGlobalVolume st v h
  | vol hd v => exact Inv_setVolume st hd v h
  | pan hd p => exact Inv_setPan st hd p h

lemma Inv_runFold : ∀ (l : List SoundOp) (st : SoundState), Inv st →
    Inv (l.foldl applyOp st) := by
  intro l
  induction l with
  | nil =>
      intro st h
      exact h
  | cons a t ih =>
      intro st h
      rw [List.foldl_cons]
      exact ih (applyOp st a) (Inv_applyOp st a h)

/-- Claim C5: for every sequence of operations (play in all three public
variants, stop, pause, resume, the update() tick, the external natural-
completion event, stopAllSounds, reset, callback installation and the volume
and pan setters) starting from the initial state, every buffer slot's
refCount is greater than or equal to 0 after every prefix of the sequence: no
operation ever drives a refCount below zero. -/
theorem refCount_nonneg_all_sequences (ops : List SoundOp) (b : Nat) :
    0 ≤ ((runOps ops).s_buffers b).refCount := by
  have hInv : Inv (runOps ops) := Inv_runFold ops initState Inv_initState
  exact le_trans (busyCount_nonneg _ b) (hInv.2.2.1 b)

end SoundModel
